import Mathlib

/-!
# Blood pressure sensor application (`blp_sensor_app.c`)

A shallow embedding of the application-level state machine of the blood
pressure sensor example: the global variables of the file become one record,
every C function becomes a function on that record, and the calls the
application makes into the profile layer (send a notification, send an
indication, disconnect, advertise) are recorded in order in the field `log`.

Machine integers are natural numbers reduced modulo `2^8` or `2^16` where the
C code stores into a `uint8_t` or `uint16_t`.

The watchdog example of the same source tree (`wdt_example.c`) is embedded in
the same way in the namespace `WdtExample`: the function `wdt_scheduler` on a
record of the variables it reads and writes, with the reset cause flags as its
input.
-/

namespace BlpSensor

/-! ## Constants of the headers -/

/-- Constants that the application takes from `blp_sensor_app.h` and
`blp_sensor.h`. The headers are not part of the sources at hand, so every
constant is a parameter of the model. The last nine fields are the values of
the enumeration that indexes the array `operator`. -/
structure Config where
  APP_DEFAULT_VAL : Nat
  INDICATION_TIMER_VAL : Nat
  SECOND_MAX : Nat
  MINUTE_MAX : Nat
  HOUR_MAX : Nat
  DAY_MAX : Nat
  MONTH_MAX : Nat
  YEAR_MAX : Nat
  SYSTOLIC_MIN_MMHG : Nat
  SYSTOLIC_MAX_MMHG : Nat
  DIASTOLIC_MIN_MMHG : Nat
  DIASTOLIC_MAX_MMHG : Nat
  MAP_MIN_MMHG : Nat
  MAP_MAX_MMHG : Nat
  SYSTOLIC_MIN_KPA : Nat
  SYSTOLIC_MAX_KPA : Nat
  DIASTOLIC_MIN_KPA : Nat
  DIASTOLIC_MAX_KPA : Nat
  MAP_MIN_KPA : Nat
  MAP_MAX_KPA : Nat
  PULSE_RATE_MIN : Nat
  PULSE_RATE_MAX : Nat
  BLOOD_PRESSURE_UNITS_FLAG_MASK : Nat
  BLOOD_PRESSURE_TIME_FLAG_MASK : Nat
  BLOOD_PRESSURE_PULSE_FLAG_MASK : Nat
  BLOOD_PRESSURE_USERID_FLAG_MASK : Nat
  BLOOD_PRESSURE_MMT_STATUS_FLAG_MASK : Nat
  USERID_1 : Nat
  USERID_2 : Nat
  SYSTOLIC_MMHG : Nat
  DIASTOLIC_MMHG : Nat
  MAP_MMHG : Nat
  PULSE_RATE : Nat
  SYSTOLIC_KPA : Nat
  DIASTOLIC_KPA : Nat
  MAP_KPA : Nat
  INTERIM_SYS_MMHG : Nat
  INTERIM_SYS_KPA : Nat
deriving DecidableEq, Repr

/-- One instantiation of the header constants, used to evaluate the model on
concrete inputs. -/
def sampleConfig : Config where
  APP_DEFAULT_VAL := 0
  INDICATION_TIMER_VAL := 5
  SECOND_MAX := 59
  MINUTE_MAX := 59
  HOUR_MAX := 23
  DAY_MAX := 31
  MONTH_MAX := 12
  YEAR_MAX := 9999
  SYSTOLIC_MIN_MMHG := 80
  SYSTOLIC_MAX_MMHG := 100
  DIASTOLIC_MIN_MMHG := 60
  DIASTOLIC_MAX_MMHG := 70
  MAP_MIN_MMHG := 70
  MAP_MAX_MMHG := 80
  SYSTOLIC_MIN_KPA := 10
  SYSTOLIC_MAX_KPA := 13
  DIASTOLIC_MIN_KPA := 7
  DIASTOLIC_MAX_KPA := 9
  MAP_MIN_KPA := 8
  MAP_MAX_KPA := 10
  PULSE_RATE_MIN := 60
  PULSE_RATE_MAX := 100
  BLOOD_PRESSURE_UNITS_FLAG_MASK := 1
  BLOOD_PRESSURE_TIME_FLAG_MASK := 2
  BLOOD_PRESSURE_PULSE_FLAG_MASK := 4
  BLOOD_PRESSURE_USERID_FLAG_MASK := 8
  BLOOD_PRESSURE_MMT_STATUS_FLAG_MASK := 16
  USERID_1 := 1
  USERID_2 := 2
  SYSTOLIC_MMHG := 0
  DIASTOLIC_MMHG := 1
  MAP_MMHG := 2
  PULSE_RATE := 3
  SYSTOLIC_KPA := 4
  DIASTOLIC_KPA := 5
  MAP_KPA := 6
  INTERIM_SYS_MMHG := 7
  INTERIM_SYS_KPA := 8

/-! ## Machine integers -/

/-- Store into a `uint8_t`. -/
def u8 (x : Nat) : Nat := x % 256

/-- Store into a `uint16_t`. -/
def u16 (x : Nat) : Nat := x % 65536

/-- Store a signed `int` result into a `uint16_t`. -/
def u16i (x : Int) : Nat := (x % 65536).toNat

/-- The operator `~` on a non-negative `int`, as its 32-bit pattern. -/
def cNot (x : Nat) : Nat := 4294967295 - x % 4294967296

/-- Conversion of an integer constant to `bool`. -/
def toBool (x : Nat) : Bool := decide (x ≠ 0)

/-- The two bytes that `memcpy` of a `uint16_t` writes (little-endian target). -/
def le16 (v : Nat) : List Nat := [v % 256, v / 256 % 256]

/-! ## Data model -/

/-- Status codes of the BLE stack. The application only tests for
`AT_BLE_SUCCESS` and returns `AT_BLE_SUCCESS` or `AT_BLE_FAILURE`; any other
code of the stack is an error code. -/
inductive at_ble_status_t where
  | AT_BLE_SUCCESS
  | AT_BLE_FAILURE
  | AT_BLE_ERROR (code : Nat)
deriving DecidableEq, Repr

/-- The date and time record `prf_date_time_t` (`year` is 16 bits wide, the
other fields 8 bits). -/
structure prf_date_time_t where
  year : Nat
  month : Nat
  day : Nat
  hour : Nat
  min : Nat
  sec : Nat
deriving DecidableEq, Repr

/-- A call of the application into the profile layer. -/
inductive Out where
  | notification (data : List Nat)
  | indication (data : List Nat)
  | disconnect
  | advertise
deriving DecidableEq, Repr

/-- The global variables of `blp_sensor_app.c`, and the calls made so far
into the profile layer (`log`, oldest first). -/
structure State where
  app_state : Bool
  indication_sent : Bool
  notification_sent : Bool
  units : Bool
  notification_flag : Bool
  indication_flag : Bool
  user_request_flag : Bool
  timer_count : Nat
  notify : Bool
  operator : List Int
  systolic_val_mmhg : Nat
  diastolic_val_mmhg : Nat
  map_val_mmhg : Nat
  systolic_val_kpa : Nat
  diastolic_val_kpa : Nat
  map_val_kpa : Nat
  pulse_rate_val : Nat
  time_stamp : prf_date_time_t
  interim_diastolic_mmhg : Nat
  interim_diastolic_kpa : Nat
  interim_systolic_mmhg : Nat
  interim_systolic_kpa : Nat
  interim_map_mmhg : Nat
  interim_map_kpa : Nat
  log : List Out
deriving DecidableEq, Repr

def APP_TIMER_EVENT_ID : Nat := 1

def APP_BUTTON_EVENT_ID : Nat := 2

/-! ## Profile layer primitives -/

/-- Modelled from the spec: `blp_sensor_send_notification` of the profile
layer (`blp_sensor.c`, not among the sources). The application consumes it as
a send primitive whose confirmation arrives later through a callback; the call
hands the first `idx` bytes of the buffer to the stack and writes none of the
application variables. -/
def blp_sensor_send_notification (data : List Nat) (s : State) : State :=
  { s with log := s.log ++ [Out.notification data] }

/-- Modelled from the spec: `blp_sensor_send_indication` of the profile layer
(`blp_sensor.c`, not among the sources); as for notifications, the call hands
the payload to the stack and writes none of the application variables. -/
def blp_sensor_send_indication (data : List Nat) (s : State) : State :=
  { s with log := s.log ++ [Out.indication data] }

/-- Modelled from the spec: `blp_disconnection` of the profile layer
(`blp_sensor.c`, not among the sources), the disconnect primitive. The
disconnected callback of the application runs later, as an event of its own. -/
def blp_disconnection (s : State) : State :=
  { s with log := s.log ++ [Out.disconnect] }

/-- Modelled from the spec: `blp_sensor_adv` of the profile layer
(`blp_sensor.c`, not among the sources), which starts advertising. -/
def blp_sensor_adv (s : State) : State :=
  { s with log := s.log ++ [Out.advertise] }

/-! ## Connection callbacks -/

/-- The connected callback `app_connected_state_handler`. -/
def app_connected_state_handler (s : State) : State :=
  { s with app_state := true }

/-- The disconnected callback `app_disconnected_state_handler`: resets the
simulated values and the scheduler variables, inverts `units`, and starts
advertising again. -/
def app_disconnected_state_handler (c : Config) (s : State) : State :=
  blp_sensor_adv
    { s with
      app_state := false
      interim_diastolic_mmhg := u16 c.DIASTOLIC_MIN_MMHG
      interim_diastolic_kpa := u16 c.DIASTOLIC_MIN_KPA
      interim_systolic_mmhg := u16 c.SYSTOLIC_MIN_MMHG
      interim_systolic_kpa := u16 c.SYSTOLIC_MIN_KPA
      interim_map_mmhg := u16 c.MAP_MIN_MMHG
      interim_map_kpa := u16 c.MAP_MIN_KPA
      systolic_val_mmhg := u16 c.SYSTOLIC_MIN_MMHG
      diastolic_val_mmhg := u16 c.DIASTOLIC_MIN_MMHG
      map_val_mmhg := u16 c.MAP_MIN_MMHG
      systolic_val_kpa := u16 c.SYSTOLIC_MIN_KPA
      diastolic_val_kpa := u16 c.DIASTOLIC_MIN_KPA
      map_val_kpa := u16 c.MAP_MIN_KPA
      pulse_rate_val := u16 c.PULSE_RATE_MIN
      units := !s.units
      indication_sent := true
      notification_sent := true
      notify := false
      timer_count := u8 c.APP_DEFAULT_VAL
      user_request_flag := toBool c.APP_DEFAULT_VAL
      indication_flag := toBool c.APP_DEFAULT_VAL
      notification_flag := toBool c.APP_DEFAULT_VAL }

/-! ## Time stamp -/

/-- The function `update_time_stamp`: one cascading increment of the global
`time_stamp`. -/
def update_time_stamp (c : Config) (t : prf_date_time_t) : prf_date_time_t :=
  if t.sec < c.SECOND_MAX then
    { t with sec := u8 (t.sec + 1) }
  else if t.min < c.MINUTE_MAX then
    { t with sec := 0, min := u8 (t.min + 1) }
  else if t.hour < c.HOUR_MAX then
    { t with sec := 0, min := 0, hour := u8 (t.hour + 1) }
  else if t.day < c.DAY_MAX then
    { t with sec := 0, min := 0, hour := 0, day := u8 (t.day + 1) }
  else if t.month < c.MONTH_MAX then
    { t with sec := 0, min := 0, hour := 0, day := 1, month := u8 (t.month + 1) }
  else if t.year < c.YEAR_MAX then
    { t with sec := 0, min := 0, hour := 0, day := 1, month := 1, year := u16 (t.year + 1) }
  else
    { t with sec := 0, min := 0, hour := 0, day := 1, month := 1, year := 2015 }

/-- The function `time_stamp_init`: the value it leaves in `time_stamp`. -/
def time_stamp_init : prf_date_time_t :=
  { year := 2015, month := 1, day := 1, hour := 0, min := 0, sec := 0 }

/-! ## Confirmation callbacks -/

/-- The callback `app_notification_confirmation_handler`. -/
def app_notification_confirmation_handler (status : at_ble_status_t) (s : State) : State :=
  if status = at_ble_status_t.AT_BLE_SUCCESS then
    { s with notification_sent := true }
  else
    { s with notification_sent := false }

/-- The callback `app_indication_confirmation_handler`. -/
def app_indication_confirmation_handler (status : at_ble_status_t) (s : State) : State :=
  if status = at_ble_status_t.AT_BLE_SUCCESS then
    { s with indication_sent := true, user_request_flag := false, timer_count := 0 }
  else
    { s with indication_sent := false }

/-! ## Building and sending the characteristic values -/

/-- The bounds that the `switch` of `blp_value_update` selects, as the pair
`(min_val, max_val)` of `uint8_t` locals (both stay `0` when no case matches). -/
def blp_value_bounds (c : Config) (value_type : Nat) : Nat × Nat :=
  if value_type = c.SYSTOLIC_MMHG then (u8 c.SYSTOLIC_MIN_MMHG, u8 c.SYSTOLIC_MAX_MMHG)
  else if value_type = c.DIASTOLIC_MMHG then (u8 c.DIASTOLIC_MIN_MMHG, u8 c.DIASTOLIC_MAX_MMHG)
  else if value_type = c.MAP_MMHG then (u8 c.MAP_MIN_MMHG, u8 c.MAP_MAX_MMHG)
  else if value_type = c.PULSE_RATE then (u8 c.PULSE_RATE_MIN, u8 c.PULSE_RATE_MAX)
  else if value_type = c.SYSTOLIC_KPA then (u8 c.SYSTOLIC_MIN_KPA, u8 c.SYSTOLIC_MAX_KPA)
  else if value_type = c.DIASTOLIC_KPA then (u8 c.DIASTOLIC_MIN_KPA, u8 c.DIASTOLIC_MAX_KPA)
  else if value_type = c.MAP_KPA then (u8 c.MAP_MIN_KPA, u8 c.MAP_MAX_KPA)
  else if value_type = c.INTERIM_SYS_MMHG then (u8 c.SYSTOLIC_MIN_MMHG, u8 c.SYSTOLIC_MAX_MMHG)
  else if value_type = c.INTERIM_SYS_KPA then (u8 c.SYSTOLIC_MIN_KPA, u8 c.SYSTOLIC_MAX_KPA)
  else (0, 0)

/-- The function `blp_value_update`, as far as it changes global state: the
direction entry `operator[value_type]` becomes `-1` when `value >= max_val`,
`1` when `value <= min_val`, and is kept otherwise. The two bytes it copies
into the buffer are `le16 value`; the callers below place them. -/
def blp_value_update (c : Config) (value value_type : Nat) (s : State) : State :=
  { s with operator :=
      if value ≥ (blp_value_bounds c value_type).2 then s.operator.set value_type (-1)
      else if value ≤ (blp_value_bounds c value_type).1 then s.operator.set value_type 1
      else s.operator }

/-- The function `blp_char_indication`: advances the three pressure values of
the active unit system and the pulse rate, builds the 19 byte measurement and
sends it as an indication. -/
def blp_char_indication (c : Config) (s : State) : State :=
  let f0 : Nat := 0
  let f1 :=
    if s.units then u8 (f0 ||| (1 &&& cNot c.BLOOD_PRESSURE_UNITS_FLAG_MASK))
    else u8 (f0 ||| (1 ||| c.BLOOD_PRESSURE_UNITS_FLAG_MASK))
  let f2 := u8 (f1 ||| c.BLOOD_PRESSURE_TIME_FLAG_MASK)
  let f3 := u8 (f2 ||| c.BLOOD_PRESSURE_PULSE_FLAG_MASK)
  let f4 := u8 (f3 ||| c.BLOOD_PRESSURE_USERID_FLAG_MASK)
  let f5 := u8 (f4 ||| c.BLOOD_PRESSURE_MMT_STATUS_FLAG_MASK)
  if s.units then
    let a1 := { s with
      systolic_val_mmhg := u16i (s.systolic_val_mmhg + s.operator.getD c.SYSTOLIC_MMHG 0) }
    let a2 := blp_value_update c a1.systolic_val_mmhg c.SYSTOLIC_MMHG a1
    let a3 := { a2 with
      diastolic_val_mmhg := u16i (a2.diastolic_val_mmhg + a2.operator.getD c.DIASTOLIC_MMHG 0) }
    let a4 := blp_value_update c a3.diastolic_val_mmhg c.DIASTOLIC_MMHG a3
    let a5 := { a4 with
      map_val_mmhg := u16i (a4.map_val_mmhg + a4.operator.getD c.MAP_MMHG 0) }
    let a6 := blp_value_update c a5.map_val_mmhg c.MAP_MMHG a5
    let a7 := { a6 with
      pulse_rate_val := u16i (a6.pulse_rate_val + a6.operator.getD c.PULSE_RATE 0) }
    let a8 := blp_value_update c a7.pulse_rate_val c.PULSE_RATE a7
    blp_sensor_send_indication
      ([f5] ++ le16 a8.systolic_val_mmhg ++ le16 a8.diastolic_val_mmhg ++ le16 a8.map_val_mmhg
        ++ le16 a8.time_stamp.year
        ++ [a8.time_stamp.month, a8.time_stamp.day, a8.time_stamp.hour,
            a8.time_stamp.min, a8.time_stamp.sec]
        ++ le16 a8.pulse_rate_val ++ [u8 c.USERID_1, 15, 0]) a8
  else
    let a1 := { s with
      systolic_val_kpa := u16i (s.systolic_val_kpa + s.operator.getD c.SYSTOLIC_KPA 0) }
    let a2 := blp_value_update c a1.systolic_val_kpa c.SYSTOLIC_KPA a1
    let a3 := { a2 with
      diastolic_val_kpa := u16i (a2.diastolic_val_kpa + a2.operator.getD c.DIASTOLIC_KPA 0) }
    let a4 := blp_value_update c a3.diastolic_val_kpa c.DIASTOLIC_KPA a3
    let a5 := { a4 with
      map_val_kpa := u16i (a4.map_val_kpa + a4.operator.getD c.MAP_KPA 0) }
    let a6 := blp_value_update c a5.map_val_kpa c.MAP_KPA a5
    let a7 := { a6 with
      pulse_rate_val := u16i (a6.pulse_rate_val + a6.operator.getD c.PULSE_RATE 0) }
    let a8 := blp_value_update c a7.pulse_rate_val c.PULSE_RATE a7
    blp_sensor_send_indication
      ([f5] ++ le16 a8.systolic_val_kpa ++ le16 a8.diastolic_val_kpa ++ le16 a8.map_val_kpa
        ++ le16 a8.time_stamp.year
        ++ [a8.time_stamp.month, a8.time_stamp.day, a8.time_stamp.hour,
            a8.time_stamp.min, a8.time_stamp.sec]
        ++ le16 a8.pulse_rate_val ++ [u8 c.USERID_2, 15, 0]) a8

/-- The function `blp_char_notification`: copies the interim systolic value
of the active unit system into the buffer, then advances it by the direction
entry `operator[7]` or `operator[8]`, and sends the 8 byte value as a
notification. -/
def blp_char_notification (c : Config) (s : State) : State :=
  let f0 : Nat := 0
  if s.units then
    let f1 := u8 (f0 ||| (1 &&& cNot c.BLOOD_PRESSURE_UNITS_FLAG_MASK))
    let f2 := u8 (f1 &&& 1)
    let a1 := blp_value_update c s.interim_systolic_mmhg c.INTERIM_SYS_MMHG s
    let a2 := { a1 with
      interim_systolic_mmhg := u16i (a1.interim_systolic_mmhg + a1.operator.getD 7 0) }
    let f3 := u8 (f2 ||| c.BLOOD_PRESSURE_USERID_FLAG_MASK)
    blp_sensor_send_notification
      ([f3] ++ le16 s.interim_systolic_mmhg ++ [0, 0] ++ [0, 0] ++ [u8 c.USERID_1]) a2
  else
    let f1 := u8 (f0 ||| (1 ||| c.BLOOD_PRESSURE_UNITS_FLAG_MASK))
    let f2 := u8 (f1 &&& 1)
    let a1 := blp_value_update c s.interim_systolic_kpa c.INTERIM_SYS_KPA s
    let a2 := { a1 with
      interim_systolic_kpa := u16i (a1.interim_systolic_kpa + a1.operator.getD 8 0) }
    let f3 := u8 (f2 ||| c.BLOOD_PRESSURE_USERID_FLAG_MASK)
    blp_sensor_send_notification
      ([f3] ++ le16 s.interim_systolic_kpa ++ [0, 0] ++ [0, 0] ++ [u8 c.USERID_2]) a2

/-! ## Characteristic configuration callbacks -/

/-- The callback `app_notification_handler`. -/
def app_notification_handler (c : Config) (enable : Bool) (s : State) : State :=
  let s1 := { s with notification_flag := enable }
  if s1.notification_flag then s1
  else { s1 with timer_count := u8 c.INDICATION_TIMER_VAL }

/-- The callback `app_indication_handler`: with `enable` set it sends the
current values at once as a 9 byte indication. -/
def app_indication_handler (c : Config) (enable : Bool) (s : State) : State :=
  let s1 := { s with indication_flag := enable }
  if s1.indication_flag then
    if s1.units then
      let f0 : Nat := 0
      let f1 := u8 (f0 ||| c.BLOOD_PRESSURE_PULSE_FLAG_MASK)
      blp_sensor_send_indication
        ([f1] ++ le16 s1.systolic_val_mmhg ++ le16 s1.diastolic_val_mmhg
          ++ le16 s1.map_val_mmhg ++ le16 s1.pulse_rate_val) s1
    else
      let f0 : Nat := 1
      let f1 := u8 (f0 ||| c.BLOOD_PRESSURE_PULSE_FLAG_MASK)
      blp_sensor_send_indication
        ([f1] ++ le16 s1.systolic_val_kpa ++ le16 s1.diastolic_val_kpa
          ++ le16 s1.map_val_kpa ++ le16 s1.pulse_rate_val) s1
  else s1

/-! ## The scheduler -/

/-- The function `update_blp_sensor_value`, the per-tick update. -/
def update_blp_sensor_value (c : Config) (s : State) : State :=
  if s.user_request_flag then
    let s1 :=
      if s.timer_count < c.INDICATION_TIMER_VAL then
        if s.notification_flag then
          if s.notify then
            let a := if s.notification_sent then blp_char_notification c s else s
            { a with notify := false }
          else s
        else s
      else s
    if s1.timer_count = c.INDICATION_TIMER_VAL then
      if s1.indication_flag then
        if s1.indication_sent then
          let a := blp_char_indication c s1
          { a with timer_count := u8 (a.timer_count + 1) }
        else blp_disconnection s1
      else s1
    else s1
  else s

/-- The custom event callback `blp_sensor_app_custom_event`, applied to the
identifier of the posted event; it returns the status and the new state. -/
def blp_sensor_app_custom_event (c : Config) (id : Nat) (s : State) :
    at_ble_status_t × State :=
  if id = APP_TIMER_EVENT_ID then
    let s1 :=
      if s.user_request_flag then
        { s with timer_count := u8 (s.timer_count + 1), notify := true }
      else s
    let s2 := { s1 with time_stamp := update_time_stamp c s1.time_stamp }
    (at_ble_status_t.AT_BLE_SUCCESS, update_blp_sensor_value c s2)
  else if id = APP_BUTTON_EVENT_ID then
    if s.app_state then
      let s1 :=
        if s.user_request_flag = false then
          let a := if s.indication_flag then { s with units := !s.units } else s
          if a.indication_flag || a.notification_flag then
            { a with user_request_flag := true, timer_count := 0 }
          else a
        else s
      (at_ble_status_t.AT_BLE_SUCCESS, update_blp_sensor_value c s1)
    else (at_ble_status_t.AT_BLE_SUCCESS, s)
  else (at_ble_status_t.AT_BLE_FAILURE, s)

/-! ## Executions -/

/-- The callbacks through which the BLE manager enters the application. -/
inductive Event where
  | connected
  | disconnected
  | notification_confirmed (status : at_ble_status_t)
  | indication_confirmed (status : at_ble_status_t)
  | notification_handler (enable : Bool)
  | indication_handler (enable : Bool)
  | custom_event (id : Nat)
deriving DecidableEq, Repr

/-- The timer tick: the custom event posted by `timer_callback_handler`. -/
def tick : Event := Event.custom_event APP_TIMER_EVENT_ID

/-- The button press: the custom event posted by `button_cb`. -/
def button : Event := Event.custom_event APP_BUTTON_EVENT_ID

/-- The state when `main` enters its event loop: the static initialisers of
the globals, with `time_stamp` as left by `time_stamp_init`. -/
def init (c : Config) : State where
  app_state := false
  indication_sent := true
  notification_sent := true
  units := toBool c.APP_DEFAULT_VAL
  notification_flag := toBool c.APP_DEFAULT_VAL
  indication_flag := toBool c.APP_DEFAULT_VAL
  user_request_flag := toBool c.APP_DEFAULT_VAL
  timer_count := u8 c.APP_DEFAULT_VAL
  notify := false
  operator := [1, 1, 1, 1, 1, 1, 1, 1, 1]
  systolic_val_mmhg := u16 c.SYSTOLIC_MIN_MMHG
  diastolic_val_mmhg := u16 c.DIASTOLIC_MIN_MMHG
  map_val_mmhg := u16 c.MAP_MIN_MMHG
  systolic_val_kpa := u16 c.SYSTOLIC_MIN_KPA
  diastolic_val_kpa := u16 c.DIASTOLIC_MIN_KPA
  map_val_kpa := u16 c.MAP_MIN_KPA
  pulse_rate_val := u16 c.PULSE_RATE_MIN
  time_stamp := time_stamp_init
  interim_diastolic_mmhg := u16 c.DIASTOLIC_MIN_MMHG
  interim_diastolic_kpa := u16 c.DIASTOLIC_MIN_KPA
  interim_systolic_mmhg := u16 c.SYSTOLIC_MIN_MMHG
  interim_systolic_kpa := u16 c.SYSTOLIC_MIN_KPA
  interim_map_mmhg := u16 c.MAP_MIN_MMHG
  interim_map_kpa := u16 c.MAP_MIN_KPA
  log := []

/-- One callback invocation. -/
def step (c : Config) (e : Event) (s : State) : State :=
  match e with
  | Event.connected => app_connected_state_handler s
  | Event.disconnected => app_disconnected_state_handler c s
  | Event.notification_confirmed status => app_notification_confirmation_handler status s
  | Event.indication_confirmed status => app_indication_confirmation_handler status s
  | Event.notification_handler enable => app_notification_handler c enable s
  | Event.indication_handler enable => app_indication_handler c enable s
  | Event.custom_event id => (blp_sensor_app_custom_event c id s).2

/-- The calls into the profile layer made between state `s` and a later
state `t`. -/
def emitted (s t : State) : List Out := t.log.drop s.log.length

/-- An observation of an execution: a callback entering the application, or a
call leaving it. -/
inductive Obs where
  | input (e : Event)
  | output (o : Out)
deriving DecidableEq, Repr

/-- The execution of a sequence of callbacks from state `s`, as the sequence
of callbacks interleaved with the calls each of them makes. -/
def trace (c : Config) : State → List Event → List Obs
  | _, [] => []
  | s, e :: es =>
    Obs.input e :: ((emitted s (step c e s)).map Obs.output ++ trace c (step c e s) es)

/-- The state after a sequence of callbacks. -/
def run (c : Config) (s : State) (es : List Event) : State :=
  es.foldl (fun st e => step c e st) s

/-- The kind of a call into the profile layer, without its payload. -/
inductive Kind where
  | notification
  | indication
  | disconnect
  | advertise
deriving DecidableEq, Repr

/-- The kind of a call. -/
def Out.kind : Out → Kind
  | Out.notification _ => Kind.notification
  | Out.indication _ => Kind.indication
  | Out.disconnect => Kind.disconnect
  | Out.advertise => Kind.advertise

/-- The kinds of the calls made between state `s` and a later state `t`. -/
def kinds (s t : State) : List Kind := (emitted s t).map Out.kind

/-! ## Properties of executions -/

/-- Whether a callback is a notification confirmation. -/
def isNotificationConfirmation : Event → Bool
  | Event.notification_confirmed _ => true
  | _ => false

/-- Whether a callback is an indication confirmation. -/
def isIndicationConfirmation : Event → Bool
  | Event.indication_confirmed _ => true
  | _ => false

/-- One outstanding send: scanning an execution, no call of kind `k` is made
while an earlier call of kind `k` is still `pending`, that is, has not been
followed by a confirmation callback (`isConf`). -/
def oneOutstanding (k : Kind) (isConf : Event → Bool) : Bool → List Obs → Bool
  | _, [] => true
  | pending, Obs.input e :: os =>
    oneOutstanding k isConf (if isConf e then false else pending) os
  | pending, Obs.output o :: os =>
    if o.kind = k then !pending && oneOutstanding k isConf true os
    else oneOutstanding k isConf pending os

/-- Whether the latest notification confirmation reported failure and no
disconnected callback has run since, after callback `e`. -/
def notificationFailed (e : Event) (failed : Bool) : Bool :=
  match e with
  | Event.notification_confirmed status => decide (status ≠ at_ble_status_t.AT_BLE_SUCCESS)
  | Event.disconnected => false
  | _ => failed

/-- Whether the latest indication confirmation reported failure and no
disconnected callback has run since, after callback `e`. -/
def indicationFailed (e : Event) (failed : Bool) : Bool :=
  match e with
  | Event.indication_confirmed status => decide (status ≠ at_ble_status_t.AT_BLE_SUCCESS)
  | Event.disconnected => false
  | _ => failed

/-- Whether a callback is the custom event callback (timer tick, button). -/
def isCustomEvent : Event → Bool
  | Event.custom_event _ => true
  | _ => false

/-- Scanning an execution: no notification is sent while the latest
notification confirmation is a failure (`failed`). -/
def notificationSuppressed : Bool → List Obs → Bool
  | _, [] => true
  | failed, Obs.input e :: os => notificationSuppressed (notificationFailed e failed) os
  | failed, Obs.output o :: os =>
    (!failed || decide (o.kind ≠ Kind.notification)) && notificationSuppressed failed os

/-- Scanning an execution: no indication is sent by the custom event callback
(`sched`: the callback being handled is the custom event callback) while the
latest indication confirmation is a failure (`failed`). -/
def indicationSuppressed : Bool → Bool → List Obs → Bool
  | _, _, [] => true
  | failed, _, Obs.input e :: os =>
    indicationSuppressed (indicationFailed e failed) (isCustomEvent e) os
  | failed, sched, Obs.output o :: os =>
    (!(failed && sched) || decide (o.kind ≠ Kind.indication)) &&
      indicationSuppressed failed sched os

/-! ## Assumptions on the header constants -/

/-- The seven minimum constants fit the `uint16_t` variables they initialise. -/
def Config.minimaFit (c : Config) : Prop :=
  c.SYSTOLIC_MIN_MMHG < 65536 ∧ c.DIASTOLIC_MIN_MMHG < 65536 ∧ c.MAP_MIN_MMHG < 65536 ∧
  c.SYSTOLIC_MIN_KPA < 65536 ∧ c.DIASTOLIC_MIN_KPA < 65536 ∧ c.MAP_MIN_KPA < 65536 ∧
  c.PULSE_RATE_MIN < 65536

/-- The units flag is bit 0 of the flags byte, and no other flag mask
overlaps it. -/
def Config.unitsBitZero (c : Config) : Prop :=
  c.BLOOD_PRESSURE_UNITS_FLAG_MASK = 1 ∧
  c.BLOOD_PRESSURE_TIME_FLAG_MASK.testBit 0 = false ∧
  c.BLOOD_PRESSURE_PULSE_FLAG_MASK.testBit 0 = false ∧
  c.BLOOD_PRESSURE_USERID_FLAG_MASK.testBit 0 = false ∧
  c.BLOOD_PRESSURE_MMT_STATUS_FLAG_MASK.testBit 0 = false

/-! ## Scenarios -/

/-- A run of `n` timer ticks. -/
def ticks (n : Nat) : List Event := List.replicate n tick

/-- A run of `n` timer ticks, each followed by a successful notification
confirmation. -/
def confirmedTicks : Nat → List Event
  | 0 => []
  | n + 1 =>
    confirmedTicks n ++
      [tick, Event.notification_confirmed at_ble_status_t.AT_BLE_SUCCESS]

/-- Scanning an execution: after an indication confirmation has reported
failure (`failed`), no notification and no indication is sent before the
disconnect primitive is called or the connection callbacks run. -/
def quietAfterIndicationFailure : Bool → List Obs → Bool
  | _, [] => true
  | failed, Obs.input e :: os =>
    quietAfterIndicationFailure
      (match e with
        | Event.indication_confirmed status =>
          failed || decide (status ≠ at_ble_status_t.AT_BLE_SUCCESS)
        | Event.disconnected => false
        | Event.connected => false
        | _ => failed) os
  | failed, Obs.output o :: os =>
    match o.kind with
    | Kind.disconnect => quietAfterIndicationFailure false os
    | Kind.notification => !failed && quietAfterIndicationFailure failed os
    | Kind.indication => !failed && quietAfterIndicationFailure failed os
    | Kind.advertise => quietAfterIndicationFailure failed os

/-! ## Time stamps: ranges and order -/

/-- The maxima of the time stamp fields fit the fields they bound (8 bits,
and 16 bits for the year). -/
def Config.timeFit (c : Config) : Prop :=
  c.SECOND_MAX < 256 ∧ c.MINUTE_MAX < 256 ∧ c.HOUR_MAX < 256 ∧ c.DAY_MAX < 256 ∧
  c.MONTH_MAX < 256 ∧ c.YEAR_MAX < 65536

/-- A time stamp whose fields do not exceed their maxima. -/
def inRange (c : Config) (t : prf_date_time_t) : Prop :=
  t.sec ≤ c.SECOND_MAX ∧ t.min ≤ c.MINUTE_MAX ∧ t.hour ≤ c.HOUR_MAX ∧ t.day ≤ c.DAY_MAX ∧
  t.month ≤ c.MONTH_MAX ∧ t.year ≤ c.YEAR_MAX

/-- The time stamp with every field at its maximum. -/
def maximal (c : Config) (t : prf_date_time_t) : Prop :=
  t.sec = c.SECOND_MAX ∧ t.min = c.MINUTE_MAX ∧ t.hour = c.HOUR_MAX ∧ t.day = c.DAY_MAX ∧
  t.month = c.MONTH_MAX ∧ t.year = c.YEAR_MAX

/-- The lexicographic order on (year, month, day, hour, minute, second). -/
def lexLt (a b : prf_date_time_t) : Prop :=
  a.year < b.year ∨ (a.year = b.year ∧
    (a.month < b.month ∨ (a.month = b.month ∧
      (a.day < b.day ∨ (a.day = b.day ∧
        (a.hour < b.hour ∨ (a.hour = b.hour ∧
          (a.min < b.min ∨ (a.min = b.min ∧ a.sec < b.sec)))))))))

/-! ## The flags byte of a measurement -/

/-- The flags byte that `blp_char_indication` builds in `blp_data[0]`: the
units part, then the time stamp, pulse rate, user id and measurement status
flags, each stored into the byte in turn. -/
def indication_flags (c : Config) (units : Bool) : Nat :=
  let f0 : Nat := 0
  let f1 :=
    if units then u8 (f0 ||| (1 &&& cNot c.BLOOD_PRESSURE_UNITS_FLAG_MASK))
    else u8 (f0 ||| (1 ||| c.BLOOD_PRESSURE_UNITS_FLAG_MASK))
  let f2 := u8 (f1 ||| c.BLOOD_PRESSURE_TIME_FLAG_MASK)
  let f3 := u8 (f2 ||| c.BLOOD_PRESSURE_PULSE_FLAG_MASK)
  let f4 := u8 (f3 ||| c.BLOOD_PRESSURE_USERID_FLAG_MASK)
  u8 (f4 ||| c.BLOOD_PRESSURE_MMT_STATUS_FLAG_MASK)

/-- The four flag masks other than the units mask fit one byte. -/
def Config.masksFit (c : Config) : Prop :=
  c.BLOOD_PRESSURE_TIME_FLAG_MASK < 256 ∧ c.BLOOD_PRESSURE_PULSE_FLAG_MASK < 256 ∧
  c.BLOOD_PRESSURE_USERID_FLAG_MASK < 256 ∧ c.BLOOD_PRESSURE_MMT_STATUS_FLAG_MASK < 256

/-! ## The values advanced by an indication -/

/-- The seven values that `blp_char_indication` advances, named after the
enumerators that select their bounds in `blp_value_update`. -/
inductive Metric where
  | SYSTOLIC_MMHG
  | DIASTOLIC_MMHG
  | MAP_MMHG
  | PULSE_RATE
  | SYSTOLIC_KPA
  | DIASTOLIC_KPA
  | MAP_KPA
deriving DecidableEq, Repr

/-- The enumerator of a value, which indexes `operator`. -/
def Metric.value_type (c : Config) : Metric → Nat
  | Metric.SYSTOLIC_MMHG => c.SYSTOLIC_MMHG
  | Metric.DIASTOLIC_MMHG => c.DIASTOLIC_MMHG
  | Metric.MAP_MMHG => c.MAP_MMHG
  | Metric.PULSE_RATE => c.PULSE_RATE
  | Metric.SYSTOLIC_KPA => c.SYSTOLIC_KPA
  | Metric.DIASTOLIC_KPA => c.DIASTOLIC_KPA
  | Metric.MAP_KPA => c.MAP_KPA

/-- The global variable that holds a value. -/
def Metric.value : Metric → State → Nat
  | Metric.SYSTOLIC_MMHG, s => s.systolic_val_mmhg
  | Metric.DIASTOLIC_MMHG, s => s.diastolic_val_mmhg
  | Metric.MAP_MMHG, s => s.map_val_mmhg
  | Metric.PULSE_RATE, s => s.pulse_rate_val
  | Metric.SYSTOLIC_KPA, s => s.systolic_val_kpa
  | Metric.DIASTOLIC_KPA, s => s.diastolic_val_kpa
  | Metric.MAP_KPA, s => s.map_val_kpa

/-- Assignment to the global variable that holds a value. -/
def Metric.setValue : Metric → Nat → State → State
  | Metric.SYSTOLIC_MMHG, v, s => { s with systolic_val_mmhg := v }
  | Metric.DIASTOLIC_MMHG, v, s => { s with diastolic_val_mmhg := v }
  | Metric.MAP_MMHG, v, s => { s with map_val_mmhg := v }
  | Metric.PULSE_RATE, v, s => { s with pulse_rate_val := v }
  | Metric.SYSTOLIC_KPA, v, s => { s with systolic_val_kpa := v }
  | Metric.DIASTOLIC_KPA, v, s => { s with diastolic_val_kpa := v }
  | Metric.MAP_KPA, v, s => { s with map_val_kpa := v }

/-- The minimum constant of a value. -/
def Metric.min (c : Config) : Metric → Nat
  | Metric.SYSTOLIC_MMHG => c.SYSTOLIC_MIN_MMHG
  | Metric.DIASTOLIC_MMHG => c.DIASTOLIC_MIN_MMHG
  | Metric.MAP_MMHG => c.MAP_MIN_MMHG
  | Metric.PULSE_RATE => c.PULSE_RATE_MIN
  | Metric.SYSTOLIC_KPA => c.SYSTOLIC_MIN_KPA
  | Metric.DIASTOLIC_KPA => c.DIASTOLIC_MIN_KPA
  | Metric.MAP_KPA => c.MAP_MIN_KPA

/-- The maximum constant of a value. -/
def Metric.max (c : Config) : Metric → Nat
  | Metric.SYSTOLIC_MMHG => c.SYSTOLIC_MAX_MMHG
  | Metric.DIASTOLIC_MMHG => c.DIASTOLIC_MAX_MMHG
  | Metric.MAP_MMHG => c.MAP_MAX_MMHG
  | Metric.PULSE_RATE => c.PULSE_RATE_MAX
  | Metric.SYSTOLIC_KPA => c.SYSTOLIC_MAX_KPA
  | Metric.DIASTOLIC_KPA => c.DIASTOLIC_MAX_KPA
  | Metric.MAP_KPA => c.MAP_MAX_KPA

/-- The direction entry of a value, `operator[value_type]`. -/
def Metric.direction (c : Config) (m : Metric) (s : State) : Int :=
  s.operator.getD (m.value_type c) 0

/-- The values that `blp_char_indication` advances for a unit system, in the
order in which it advances them: the three pressures of the unit system
(`units` true: mmHg, false: kPa), then the pulse rate. -/
def activeMetrics (units : Bool) : List Metric :=
  if units then
    [Metric.SYSTOLIC_MMHG, Metric.DIASTOLIC_MMHG, Metric.MAP_MMHG, Metric.PULSE_RATE]
  else
    [Metric.SYSTOLIC_KPA, Metric.DIASTOLIC_KPA, Metric.MAP_KPA, Metric.PULSE_RATE]

/-- One advance of one value, the pair of statements
`x = x + operator[T]; blp_value_update(blp_data, idx, x, T);` of
`blp_char_indication`, as far as it changes global state. -/
def advance_value (c : Config) (m : Metric) (s : State) : State :=
  blp_value_update c (u16i (m.value s + s.operator.getD (m.value_type c) 0))
    (m.value_type c)
    (m.setValue (u16i (m.value s + s.operator.getD (m.value_type c) 0)) s)

/-- One advance, on a value and its direction alone: the direction is added
to the value, and then becomes `-1` when the new value is at or above
`max_val`, `1` when it is at or below `min_val`, and is kept otherwise. -/
def advance (min_val max_val : Nat) (p : Nat × Int) : Nat × Int :=
  (u16i (p.1 + p.2),
    if u16i (p.1 + p.2) ≥ max_val then -1
    else if u16i (p.1 + p.2) ≤ min_val then 1
    else p.2)

/-- The nine enumerators that index `operator` are distinct and within the
nine entries of the array. -/
def Config.enumDistinct (c : Config) : Prop :=
  [c.SYSTOLIC_MMHG, c.DIASTOLIC_MMHG, c.MAP_MMHG, c.PULSE_RATE, c.SYSTOLIC_KPA,
    c.DIASTOLIC_KPA, c.MAP_KPA, c.INTERIM_SYS_MMHG, c.INTERIM_SYS_KPA].Nodup ∧
  ∀ i ∈ [c.SYSTOLIC_MMHG, c.DIASTOLIC_MMHG, c.MAP_MMHG, c.PULSE_RATE, c.SYSTOLIC_KPA,
    c.DIASTOLIC_KPA, c.MAP_KPA, c.INTERIM_SYS_MMHG, c.INTERIM_SYS_KPA], i < 9

/-- The bounds of the seven values fit the `uint8_t` locals `min_val` and
`max_val` of `blp_value_update`. -/
def Config.boundsFit (c : Config) : Prop :=
  ∀ m : Metric, m.min c < 256 ∧ m.max c < 256

/-! ## The notification and the interim values -/

/-- The flags byte that `blp_char_notification` builds in `blp_data[0]`: the
units part, the byte masked with `1`, then the user id flag. -/
def notification_flags (c : Config) (units : Bool) : Nat :=
  let f0 : Nat := 0
  let f1 :=
    if units then u8 (f0 ||| (1 &&& cNot c.BLOOD_PRESSURE_UNITS_FLAG_MASK))
    else u8 (f0 ||| (1 ||| c.BLOOD_PRESSURE_UNITS_FLAG_MASK))
  let f2 := u8 (f1 &&& 1)
  u8 (f2 ||| c.BLOOD_PRESSURE_USERID_FLAG_MASK)

/-- The interim systolic value of a unit system (`units` true: mmHg, false:
kPa). -/
def interim_systolic (units : Bool) (s : State) : Nat :=
  if units then s.interim_systolic_mmhg else s.interim_systolic_kpa

/-- The index of `operator` that `blp_char_notification` adds to the interim
systolic value of a unit system: the literals `7` and `8` of the source. -/
def interim_index (units : Bool) : Nat := if units then 7 else 8

/-- The direction entry that `blp_char_notification` adds to the interim
systolic value of a unit system. -/
def interim_direction (units : Bool) (s : State) : Int :=
  s.operator.getD (interim_index units) 0

/-- The minimum that `blp_value_update` selects for the interim systolic value
of a unit system. -/
def interim_min (c : Config) (units : Bool) : Nat :=
  if units then c.SYSTOLIC_MIN_MMHG else c.SYSTOLIC_MIN_KPA

/-- The maximum that `blp_value_update` selects for the interim systolic value
of a unit system. -/
def interim_max (c : Config) (units : Bool) : Nat :=
  if units then c.SYSTOLIC_MAX_MMHG else c.SYSTOLIC_MAX_KPA

/-- The enumerators `INTERIM_SYS_MMHG` and `INTERIM_SYS_KPA` are the indices
`7` and `8` that `blp_char_notification` writes as literals. -/
def Config.interimIndex (c : Config) : Prop :=
  c.INTERIM_SYS_MMHG = 7 ∧ c.INTERIM_SYS_KPA = 8

/-- The two interim systolic values are within their bounds and their
direction entries are `1` or `-1`; the other four interim values, which only
the disconnected callback assigns, are within their bounds too. -/
def interimInBounds (c : Config) (s : State) : Prop :=
  s.operator.length = 9 ∧
  (∀ u : Bool, interim_min c u ≤ interim_systolic u s ∧
    interim_systolic u s ≤ interim_max c u ∧
    (interim_direction u s = 1 ∨ interim_direction u s = -1)) ∧
  (c.DIASTOLIC_MIN_MMHG ≤ s.interim_diastolic_mmhg ∧
    s.interim_diastolic_mmhg ≤ c.DIASTOLIC_MAX_MMHG) ∧
  (c.DIASTOLIC_MIN_KPA ≤ s.interim_diastolic_kpa ∧
    s.interim_diastolic_kpa ≤ c.DIASTOLIC_MAX_KPA) ∧
  (c.MAP_MIN_MMHG ≤ s.interim_map_mmhg ∧ s.interim_map_mmhg ≤ c.MAP_MAX_MMHG) ∧
  (c.MAP_MIN_KPA ≤ s.interim_map_kpa ∧ s.interim_map_kpa ≤ c.MAP_MAX_KPA)

/-- Every pair of bounds has its minimum below its maximum. -/
def Config.boundsOrdered (c : Config) : Prop :=
  ∀ m : Metric, m.min c < m.max c

/-! ## The notification gate -/

/-- Scanning a sequence of callbacks from state `s`: no timer tick is handled
while a request is active (`user_request_flag` set). -/
def noActiveTick (c : Config) : State → List Event → Bool
  | _, [] => true
  | s, e :: es =>
    (decide (e ≠ tick) || !s.user_request_flag) && noActiveTick c (step c e s) es

/-! ## Time stamps: the full ranges -/

/-- A time stamp whose fields are within their ranges: second, minute and
hour from 0, day and month from 1, the year from 2015, each up to its
maximum. -/
def validStamp (c : Config) (t : prf_date_time_t) : Prop :=
  0 ≤ t.sec ∧ t.sec ≤ c.SECOND_MAX ∧ 0 ≤ t.min ∧ t.min ≤ c.MINUTE_MAX ∧
  0 ≤ t.hour ∧ t.hour ≤ c.HOUR_MAX ∧ 1 ≤ t.day ∧ t.day ≤ c.DAY_MAX ∧
  1 ≤ t.month ∧ t.month ≤ c.MONTH_MAX ∧ 2015 ≤ t.year ∧ t.year ≤ c.YEAR_MAX

end BlpSensor

namespace WdtExample

/-! ## The watchdog example (`wdt_example.c`) -/

/-- The least timeout, 1 s, in microseconds. -/
def WDT_MIN_VALUE_US : Nat := 1000000

/-- The timeout at which the schedule starts again, 4 s, in microseconds. -/
def WDT_MAX_VALUE_US : Nat := 4000000

/-- The step of the schedule, 1 s, in microseconds. -/
def WDT_CTRL_STEP_US : Nat := 1000000

/-- Store into a `U32`. -/
def u32 (x : Nat) : Nat := x % 4294967296

/-- The three flags of the reset cause register `AVR32_PM.RCAUSE` that
`wdt_scheduler` reads. The register is hardware state (`avr32/io.h` is not
among the sources); its flags are an input of the model. -/
structure RCause where
  wdt : Bool
  por : Bool
  ext : Bool
deriving DecidableEq, Repr

/-- A call of `wdt_scheduler` into the watchdog driver. -/
inductive Call where
  | wdt_reenable
  | wdt_enable (us_timeout_period : Nat)
deriving DecidableEq, Repr

/-- The variables that `wdt_scheduler` reads and writes: the global
`current_wdt_value`, the field `opt.us_timeout_period`, the register GPLP 0,
and the calls made so far into the watchdog driver (`calls`, oldest
first). -/
structure State where
  current_wdt_value : Nat
  us_timeout_period : Nat
  gplp0 : Nat
  calls : List Call
deriving DecidableEq, Repr

/-- Modelled from the spec: `pcl_write_gplp(0, value)` of the power clocks
library (not among the sources) stores a 32 bit value in the general purpose
low power register 0, which keeps it across resets. -/
def pcl_write_gplp0 (value : Nat) (s : State) : State :=
  { s with gplp0 := u32 value }

/-- Modelled from the spec: `pcl_read_gplp(0)` of the power clocks library
(not among the sources) returns the value stored in the register. -/
def pcl_read_gplp0 (s : State) : Nat := s.gplp0

/-- Modelled from the spec: `wdt_enable(&opt)` of the watchdog driver (not
among the sources) starts the watchdog with the timeout of `opt`; it writes
none of the variables of the example. -/
def wdt_enable (s : State) : State :=
  { s with calls := s.calls ++ [Call.wdt_enable s.us_timeout_period] }

/-- Modelled from the spec: `wdt_reenable()` of the watchdog driver (not among
the sources) restarts the watchdog with the timeout it had; it writes none of
the variables of the example. -/
def wdt_reenable (s : State) : State :=
  { s with calls := s.calls ++ [Call.wdt_reenable] }

/-- The function `wdt_scheduler`. The LED and delay calls of the watchdog
branch have no effect on the variables and are left out. -/
def wdt_scheduler (r : RCause) (s : State) : State :=
  if r.wdt then
    wdt_reenable s
  else if r.por then
    let s1 := { s with current_wdt_value := WDT_MIN_VALUE_US }
    let s2 := pcl_write_gplp0 s1.current_wdt_value s1
    let s3 := { s2 with us_timeout_period := s2.current_wdt_value }
    wdt_enable s3
  else if r.ext then
    let s1 := { s with current_wdt_value := pcl_read_gplp0 s }
    let s2 := { s1 with current_wdt_value := u32 (s1.current_wdt_value + WDT_CTRL_STEP_US) }
    let s3 :=
      if s2.current_wdt_value ≥ WDT_MAX_VALUE_US then
        { s2 with current_wdt_value := WDT_MIN_VALUE_US }
      else s2
    let s4 := { s3 with us_timeout_period := s3.current_wdt_value }
    let s5 := wdt_enable s4
    pcl_write_gplp0 s5.current_wdt_value s5
  else
    let s1 := { s with current_wdt_value := WDT_MIN_VALUE_US }
    let s2 := pcl_write_gplp0 s1.current_wdt_value s1
    let s3 := { s2 with us_timeout_period := s2.current_wdt_value }
    wdt_enable s3

end WdtExample

namespace WdtExample

/-! ## The watchdog scheduler, characterised -/

theorem u32_min : u32 1000000 = 1000000 := by decide

theorem scheduler_wdt (por ext : Bool) (s : State) :
    wdt_scheduler ⟨true, por, ext⟩ s = { s with calls := s.calls ++ [Call.wdt_reenable] } :=
  rfl

theorem scheduler_por (ext : Bool) (s : State) :
    wdt_scheduler ⟨false, true, ext⟩ s =
      { current_wdt_value := 1000000, us_timeout_period := 1000000, gplp0 := 1000000,
        calls := s.calls ++ [Call.wdt_enable 1000000] } := by
  unfold wdt_scheduler wdt_enable pcl_write_gplp0 WDT_MIN_VALUE_US
  rw [State.mk.injEq]
  exact ⟨rfl, rfl, u32_min, rfl⟩

theorem scheduler_other (s : State) :
    wdt_scheduler ⟨false, false, false⟩ s =
      { current_wdt_value := 1000000, us_timeout_period := 1000000, gplp0 := 1000000,
        calls := s.calls ++ [Call.wdt_enable 1000000] } := by
  unfold wdt_scheduler wdt_enable pcl_write_gplp0 WDT_MIN_VALUE_US
  rw [State.mk.injEq]
  exact ⟨rfl, rfl, u32_min, rfl⟩

theorem scheduler_ext (s : State) :
    wdt_scheduler ⟨false, false, true⟩ s =
      { current_wdt_value :=
          if u32 (s.gplp0 + 1000000) ≥ 4000000 then 1000000 else u32 (s.gplp0 + 1000000)
        us_timeout_period :=
          if u32 (s.gplp0 + 1000000) ≥ 4000000 then 1000000 else u32 (s.gplp0 + 1000000)
        gplp0 := u32 (if u32 (s.gplp0 + 1000000) ≥ 4000000 then 1000000
          else u32 (s.gplp0 + 1000000))
        calls := s.calls ++ [Call.wdt_enable
          (if u32 (s.gplp0 + 1000000) ≥ 4000000 then 1000000
            else u32 (s.gplp0 + 1000000))] } := by
  unfold wdt_scheduler
  simp only [Bool.false_eq_true, if_false, if_true]
  unfold pcl_read_gplp0 pcl_write_gplp0 wdt_enable WDT_MIN_VALUE_US WDT_MAX_VALUE_US
    WDT_CTRL_STEP_US
  split_ifs <;> rfl

theorem u32_idem (x : Nat) : u32 (u32 x) = u32 x := by
  unfold u32
  omega

theorem scheduler_ext_timeout (s : State) :
    (wdt_scheduler ⟨false, false, true⟩ s).us_timeout_period =
      (if u32 (s.gplp0 + 1000000) ≥ 4000000 then 1000000 else u32 (s.gplp0 + 1000000)) := by
  rw [scheduler_ext]

theorem scheduler_ext_gplp0 (s : State) :
    (wdt_scheduler ⟨false, false, true⟩ s).gplp0 =
      (if u32 (s.gplp0 + 1000000) ≥ 4000000 then 1000000 else u32 (s.gplp0 + 1000000)) := by
  rw [scheduler_ext]
  dsimp only
  split_ifs
  · exact u32_min
  · exact u32_idem _

end WdtExample

namespace BlpSensor

/-! ## Frame lemmas for the send functions -/

theorem emitted_append (s t : State) (l : List Out) (h : t.log = s.log ++ l) :
    emitted s t = l := by
  simp [emitted, h]

theorem blp_char_notification_log (c : Config) (s : State) :
    ∃ d, (blp_char_notification c s).log = s.log ++ [Out.notification d] := by
  unfold blp_char_notification
  by_cases hu : s.units = true <;>
    simp [hu, blp_sensor_send_notification, blp_value_update]

theorem blp_char_indication_log (c : Config) (s : State) :
    ∃ d, (blp_char_indication c s).log = s.log ++ [Out.indication d] := by
  unfold blp_char_indication
  by_cases hu : s.units = true <;>
    simp [hu, blp_sensor_send_indication, blp_value_update]

@[simp]
theorem blp_char_notification_app_state (c : Config) (s : State) :
    (blp_char_notification c s).app_state = s.app_state := by
  unfold blp_char_notification
  by_cases hu : s.units = true <;> simp [hu, blp_sensor_send_notification, blp_value_update]

@[simp]
theorem blp_char_notification_indication_sent (c : Config) (s : State) :
    (blp_char_notification c s).indication_sent = s.indication_sent := by
  unfold blp_char_notification
  by_cases hu : s.units = true <;> simp [hu, blp_sensor_send_notification, blp_value_update]

@[simp]
theorem blp_char_notification_notification_sent (c : Config) (s : State) :
    (blp_char_notification c s).notification_sent = s.notification_sent := by
  unfold blp_char_notification
  by_cases hu : s.units = true <;> simp [hu, blp_sensor_send_notification, blp_value_update]

@[simp]
theorem blp_char_notification_units (c : Config) (s : State) :
    (blp_char_notification c s).units = s.units := by
  unfold blp_char_notification
  by_cases hu : s.units = true <;> simp [hu, blp_sensor_send_notification, blp_value_update]

@[simp]
theorem blp_char_notification_notification_flag (c : Config) (s : State) :
    (blp_char_notification c s).notification_flag = s.notification_flag := by
  unfold blp_char_notification
  by_cases hu : s.units = true <;> simp [hu, blp_sensor_send_notification, blp_value_update]

@[simp]
theorem blp_char_notification_indication_flag (c : Config) (s : State) :
    (blp_char_notification c s).indication_flag = s.indication_flag := by
  unfold blp_char_notification
  by_cases hu : s.units = true <;> simp [hu, blp_sensor_send_notification, blp_value_update]

@[simp]
theorem blp_char_notification_user_request_flag (c : Config) (s : State) :
    (blp_char_notification c s).user_request_flag = s.user_request_flag := by
  unfold blp_char_notification
  by_cases hu : s.units = true <;> simp [hu, blp_sensor_send_notification, blp_value_update]

@[simp]
theorem blp_char_notification_timer_count (c : Config) (s : State) :
    (blp_char_notification c s).timer_count = s.timer_count := by
  unfold blp_char_notification
  by_cases hu : s.units = true <;> simp [hu, blp_sensor_send_notification, blp_value_update]

@[simp]
theorem blp_char_notification_notify (c : Config) (s : State) :
    (blp_char_notification c s).notify = s.notify := by
  unfold blp_char_notification
  by_cases hu : s.units = true <;> simp [hu, blp_sensor_send_notification, blp_value_update]

@[simp]
theorem blp_char_indication_app_state (c : Config) (s : State) :
    (blp_char_indication c s).app_state = s.app_state := by
  unfold blp_char_indication
  by_cases hu : s.units = true <;> simp [hu, blp_sensor_send_indication, blp_value_update]

@[simp]
theorem blp_char_indication_indication_sent (c : Config) (s : State) :
    (blp_char_indication c s).indication_sent = s.indication_sent := by
  unfold blp_char_indication
  by_cases hu : s.units = true <;> simp [hu, blp_sensor_send_indication, blp_value_update]

@[simp]
theorem blp_char_indication_notification_sent (c : Config) (s : State) :
    (blp_char_indication c s).notification_sent = s.notification_sent := by
  unfold blp_char_indication
  by_cases hu : s.units = true <;> simp [hu, blp_sensor_send_indication, blp_value_update]

@[simp]
theorem blp_char_indication_units (c : Config) (s : State) :
    (blp_char_indication c s).units = s.units := by
  unfold blp_char_indication
  by_cases hu : s.units = true <;> simp [hu, blp_sensor_send_indication, blp_value_update]

@[simp]
theorem blp_char_indication_notification_flag (c : Config) (s : State) :
    (blp_char_indication c s).notification_flag = s.notification_flag := by
  unfold blp_char_indication
  by_cases hu : s.units = true <;> simp [hu, blp_sensor_send_indication, blp_value_update]

@[simp]
theorem blp_char_indication_indication_flag (c : Config) (s : State) :
    (blp_char_indication c s).indication_flag = s.indication_flag := by
  unfold blp_char_indication
  by_cases hu : s.units = true <;> simp [hu, blp_sensor_send_indication, blp_value_update]

@[simp]
theorem blp_char_indication_user_request_flag (c : Config) (s : State) :
    (blp_char_indication c s).user_request_flag = s.user_request_flag := by
  unfold blp_char_indication
  by_cases hu : s.units = true <;> simp [hu, blp_sensor_send_indication, blp_value_update]

@[simp]
theorem blp_char_indication_timer_count (c : Config) (s : State) :
    (blp_char_indication c s).timer_count = s.timer_count := by
  unfold blp_char_indication
  by_cases hu : s.units = true <;> simp [hu, blp_sensor_send_indication, blp_value_update]

@[simp]
theorem blp_char_indication_notify (c : Config) (s : State) :
    (blp_char_indication c s).notify = s.notify := by
  unfold blp_char_indication
  by_cases hu : s.units = true <;> simp [hu, blp_sensor_send_indication, blp_value_update]

theorem blp_char_notification_kinds (c : Config) (s : State) :
    kinds s (blp_char_notification c s) = [Kind.notification] := by
  obtain ⟨d, hd⟩ := blp_char_notification_log c s
  simp [kinds, emitted_append _ _ _ hd, Out.kind]

theorem blp_char_indication_kinds (c : Config) (s : State) :
    kinds s (blp_char_indication c s) = [Kind.indication] := by
  obtain ⟨d, hd⟩ := blp_char_indication_log c s
  simp [kinds, emitted_append _ _ _ hd, Out.kind]

/-- Fields other than `log` do not matter for `kinds`. -/
theorem kinds_congr (s t u : State) (h : u.log = t.log) : kinds s u = kinds s t := by
  simp [kinds, emitted, h]

theorem kinds_self (s t : State) (h : t.log = s.log) : kinds s t = [] := by
  simp [kinds, emitted, h]

/-- The left argument of `kinds` matters through its log only. -/
theorem kinds_congr_left (s u t : State) (h : u.log = s.log) : kinds u t = kinds s t := by
  simp [kinds, emitted, h]

theorem not_mem_kinds (k : Kind) (s t : State) (h : k ∉ kinds s t) :
    ∀ o ∈ emitted s t, o.kind ≠ k := by
  intro o ho hk
  exact h (by rw [← hk]; exact List.mem_map_of_mem _ ho)

/-! ## The per-tick update, characterised -/

/-- What the per-tick update emits, by cases on the state it starts from. -/
theorem update_kinds (c : Config) (s : State) :
    kinds s (update_blp_sensor_value c s) =
      if s.user_request_flag = true ∧ s.timer_count < c.INDICATION_TIMER_VAL ∧
          s.notification_flag = true ∧ s.notify = true ∧ s.notification_sent = true then
        [Kind.notification]
      else if s.user_request_flag = true ∧ s.timer_count = c.INDICATION_TIMER_VAL ∧
          s.indication_flag = true then
        (if s.indication_sent = true then [Kind.indication] else [Kind.disconnect])
      else [] := by
  obtain ⟨d, hd⟩ := blp_char_notification_log c s
  unfold update_blp_sensor_value
  by_cases h1 : s.user_request_flag = true
  · by_cases h2 : s.timer_count < c.INDICATION_TIMER_VAL
    · have h3 : s.timer_count ≠ c.INDICATION_TIMER_VAL := by omega
      by_cases h4 : s.notification_flag = true <;> by_cases h5 : s.notify = true <;>
        by_cases h6 : s.notification_sent = true <;>
        simp [h1, h2, h3, h4, h5, h6, kinds, emitted, hd, Out.kind]
    · by_cases h3 : s.timer_count = c.INDICATION_TIMER_VAL
      · obtain ⟨e, he⟩ := blp_char_indication_log c s
        by_cases h4 : s.indication_flag = true <;> by_cases h5 : s.indication_sent = true <;>
          simp [h1, h2, h3, h4, h5, kinds, emitted, he, Out.kind, blp_disconnection]
      · simp [h1, h2, h3, kinds, emitted]
  · simp [h1, kinds, emitted]

/-- The per-tick update as one case distinction on the state it starts from:
the two blocks of the function are exclusive, because the first one changes
neither `timer_count` nor the indication variables. -/
theorem update_eq (c : Config) (s : State) :
    update_blp_sensor_value c s =
      if s.user_request_flag = true ∧ s.timer_count < c.INDICATION_TIMER_VAL ∧
          s.notification_flag = true ∧ s.notify = true then
        { (if s.notification_sent = true then blp_char_notification c s else s) with
          notify := false }
      else if s.user_request_flag = true ∧ s.timer_count = c.INDICATION_TIMER_VAL ∧
          s.indication_flag = true then
        (if s.indication_sent = true then
          { blp_char_indication c s with timer_count := u8 (s.timer_count + 1) }
        else blp_disconnection s)
      else s := by
  unfold update_blp_sensor_value
  by_cases h1 : s.user_request_flag = true
  · by_cases h2 : s.timer_count < c.INDICATION_TIMER_VAL
    · have h3 : s.timer_count ≠ c.INDICATION_TIMER_VAL := by omega
      by_cases h4 : s.notification_flag = true <;> by_cases h5 : s.notify = true <;>
        by_cases h6 : s.notification_sent = true <;>
        simp [h1, h2, h3, h4, h5, h6]
    · by_cases h3 : s.timer_count = c.INDICATION_TIMER_VAL
      · by_cases h4 : s.indication_flag = true <;> by_cases h5 : s.indication_sent = true <;>
          simp [h1, h2, h3, h4, h5]
      · simp [h1, h2, h3]
  · simp [h1]

@[simp]
theorem update_app_state (c : Config) (s : State) :
    (update_blp_sensor_value c s).app_state = s.app_state := by
  rw [update_eq]; split_ifs <;> simp [blp_disconnection]

@[simp]
theorem update_indication_sent (c : Config) (s : State) :
    (update_blp_sensor_value c s).indication_sent = s.indication_sent := by
  rw [update_eq]; split_ifs <;> simp [blp_disconnection]

@[simp]
theorem update_notification_sent (c : Config) (s : State) :
    (update_blp_sensor_value c s).notification_sent = s.notification_sent := by
  rw [update_eq]; split_ifs <;> simp [blp_disconnection]

@[simp]
theorem update_units (c : Config) (s : State) :
    (update_blp_sensor_value c s).units = s.units := by
  rw [update_eq]; split_ifs <;> simp [blp_disconnection]

@[simp]
theorem update_notification_flag (c : Config) (s : State) :
    (update_blp_sensor_value c s).notification_flag = s.notification_flag := by
  rw [update_eq]; split_ifs <;> simp [blp_disconnection]

@[simp]
theorem update_indication_flag (c : Config) (s : State) :
    (update_blp_sensor_value c s).indication_flag = s.indication_flag := by
  rw [update_eq]; split_ifs <;> simp [blp_disconnection]

@[simp]
theorem update_user_request_flag (c : Config) (s : State) :
    (update_blp_sensor_value c s).user_request_flag = s.user_request_flag := by
  rw [update_eq]; split_ifs <;> simp [blp_disconnection]

/-- The per-tick update changes `timer_count` only when it sends an
indication. -/
theorem update_timer_count (c : Config) (s : State) :
    (update_blp_sensor_value c s).timer_count =
      if s.user_request_flag = true ∧ s.timer_count = c.INDICATION_TIMER_VAL ∧
          s.indication_flag = true ∧ s.indication_sent = true then
        u8 (s.timer_count + 1)
      else s.timer_count := by
  rw [update_eq]
  by_cases h1 : s.user_request_flag = true <;>
    by_cases h2 : s.timer_count < c.INDICATION_TIMER_VAL <;>
    by_cases h3 : s.timer_count = c.INDICATION_TIMER_VAL <;>
    by_cases h4 : s.indication_flag = true <;>
    by_cases h5 : s.indication_sent = true <;>
    by_cases h6 : s.notification_flag = true ∧ s.notify = true <;>
    first
      | omega
      | (simp [h1, h2, h3, h4, h5, h6, blp_disconnection]; done)
      | (simp [h1, h2, h3, h4, h5, h6, blp_disconnection]; split_ifs <;> simp)

theorem update_no_notification (c : Config) (s : State) (h : s.notification_sent = false) :
    Kind.notification ∉ kinds s (update_blp_sensor_value c s) := by
  rw [update_kinds]
  simp only [h]
  split_ifs <;> simp_all

theorem update_no_indication (c : Config) (s : State) (h : s.indication_sent = false) :
    Kind.indication ∉ kinds s (update_blp_sensor_value c s) := by
  rw [update_kinds]
  simp only [h]
  split_ifs <;> simp_all

/-! ## The custom event callback, characterised -/

theorem custom_event_timer (c : Config) (s : State) :
    blp_sensor_app_custom_event c APP_TIMER_EVENT_ID s =
      (at_ble_status_t.AT_BLE_SUCCESS,
        update_blp_sensor_value c
          { (if s.user_request_flag = true then
              { s with timer_count := u8 (s.timer_count + 1), notify := true }
            else s) with
            time_stamp := update_time_stamp c s.time_stamp }) := by
  unfold blp_sensor_app_custom_event
  by_cases h : s.user_request_flag = true <;> simp [h]

theorem custom_event_button_active (c : Config) (s : State)
    (hc : s.app_state = true) (hr : s.user_request_flag = true) :
    blp_sensor_app_custom_event c APP_BUTTON_EVENT_ID s =
      (at_ble_status_t.AT_BLE_SUCCESS, update_blp_sensor_value c s) := by
  simp [blp_sensor_app_custom_event, APP_TIMER_EVENT_ID, APP_BUTTON_EVENT_ID, hc, hr]

theorem custom_event_button_fresh (c : Config) (s : State)
    (hc : s.app_state = true) (hr : s.user_request_flag = false)
    (hf : s.indication_flag = true ∨ s.notification_flag = true) :
    blp_sensor_app_custom_event c APP_BUTTON_EVENT_ID s =
      (at_ble_status_t.AT_BLE_SUCCESS,
        update_blp_sensor_value c
          { s with
            units := if s.indication_flag = true then !s.units else s.units
            user_request_flag := true
            timer_count := 0 }) := by
  unfold blp_sensor_app_custom_event
  rcases hf with hf | hf <;> by_cases hi : s.indication_flag = true <;>
    simp [APP_TIMER_EVENT_ID, APP_BUTTON_EVENT_ID, hc, hr, hf, hi]

theorem custom_event_button_idle (c : Config) (s : State)
    (hc : s.app_state = true) (hr : s.user_request_flag = false)
    (hi : s.indication_flag = false) (hn : s.notification_flag = false) :
    blp_sensor_app_custom_event c APP_BUTTON_EVENT_ID s =
      (at_ble_status_t.AT_BLE_SUCCESS, update_blp_sensor_value c s) := by
  simp [blp_sensor_app_custom_event, APP_TIMER_EVENT_ID, APP_BUTTON_EVENT_ID, hc, hr, hi, hn]

theorem custom_event_button_disconnected (c : Config) (s : State)
    (hc : s.app_state = false) :
    blp_sensor_app_custom_event c APP_BUTTON_EVENT_ID s =
      (at_ble_status_t.AT_BLE_SUCCESS, s) := by
  simp [blp_sensor_app_custom_event, APP_TIMER_EVENT_ID, APP_BUTTON_EVENT_ID, hc]

theorem custom_event_other (c : Config) (id : Nat) (s : State)
    (h1 : id ≠ APP_TIMER_EVENT_ID) (h2 : id ≠ APP_BUTTON_EVENT_ID) :
    blp_sensor_app_custom_event c id s = (at_ble_status_t.AT_BLE_FAILURE, s) := by
  simp [blp_sensor_app_custom_event, h1, h2]

/-- The custom event callback either leaves the state as it is, or runs the
per-tick update on a state with the same log and the same acknowledged
flags. -/
theorem custom_event_shape (c : Config) (id : Nat) (s : State) :
    (blp_sensor_app_custom_event c id s).2 = s ∨
    ∃ u : State, u.log = s.log ∧ u.notification_sent = s.notification_sent ∧
      u.indication_sent = s.indication_sent ∧
      (blp_sensor_app_custom_event c id s).2 = update_blp_sensor_value c u := by
  by_cases h1 : id = APP_TIMER_EVENT_ID
  · subst h1
    right
    rw [custom_event_timer]
    refine ⟨_, ?_, ?_, ?_, rfl⟩ <;> by_cases hr : s.user_request_flag = true <;> simp [hr]
  · by_cases h2 : id = APP_BUTTON_EVENT_ID
    · subst h2
      cases hc : s.app_state
      · left; rw [custom_event_button_disconnected c s hc]
      · right
        cases hr : s.user_request_flag
        · cases hi : s.indication_flag
          · cases hn : s.notification_flag
            · exact ⟨s, rfl, rfl, rfl, by rw [custom_event_button_idle c s hc hr hi hn]⟩
            · rw [custom_event_button_fresh c s hc hr (Or.inr hn)]
              exact ⟨{ s with
                units := if s.indication_flag = true then !s.units else s.units
                user_request_flag := true
                timer_count := 0 }, rfl, rfl, rfl, rfl⟩
          · rw [custom_event_button_fresh c s hc hr (Or.inl hi)]
            exact ⟨{ s with
                units := if s.indication_flag = true then !s.units else s.units
                user_request_flag := true
                timer_count := 0 }, rfl, rfl, rfl, rfl⟩
        · exact ⟨s, rfl, rfl, rfl, by rw [custom_event_button_active c s hc hr]⟩
    · left; rw [custom_event_other c id s h1 h2]

theorem custom_event_no_notification (c : Config) (id : Nat) (s : State)
    (h : s.notification_sent = false) :
    Kind.notification ∉ kinds s (blp_sensor_app_custom_event c id s).2 := by
  rcases custom_event_shape c id s with h0 | ⟨u, hl, hn, _, hu⟩
  · rw [h0]; simp [kinds, emitted]
  · rw [hu, ← kinds_congr_left s u _ hl]
    exact update_no_notification c u (by rw [hn, h])

theorem custom_event_no_indication (c : Config) (id : Nat) (s : State)
    (h : s.indication_sent = false) :
    Kind.indication ∉ kinds s (blp_sensor_app_custom_event c id s).2 := by
  rcases custom_event_shape c id s with h0 | ⟨u, hl, _, hi, hu⟩
  · rw [h0]; simp [kinds, emitted]
  · rw [hu, ← kinds_congr_left s u _ hl]
    exact update_no_indication c u (by rw [hi, h])

theorem custom_event_notification_sent (c : Config) (id : Nat) (s : State) :
    (blp_sensor_app_custom_event c id s).2.notification_sent = s.notification_sent := by
  rcases custom_event_shape c id s with h0 | ⟨u, _, hn, _, hu⟩
  · rw [h0]
  · rw [hu, update_notification_sent, hn]

theorem custom_event_indication_sent (c : Config) (id : Nat) (s : State) :
    (blp_sensor_app_custom_event c id s).2.indication_sent = s.indication_sent := by
  rcases custom_event_shape c id s with h0 | ⟨u, _, _, hi, hu⟩
  · rw [h0]
  · rw [hu, update_indication_sent, hi]

/-! ## Single callbacks and whole executions -/

theorem step_notification_sent (c : Config) (e : Event) (s : State)
    (h1 : isNotificationConfirmation e = false) (h2 : e ≠ Event.disconnected) :
    (step c e s).notification_sent = s.notification_sent := by
  cases e with
  | connected => rfl
  | disconnected => exact absurd rfl h2
  | notification_confirmed st => simp [isNotificationConfirmation] at h1
  | indication_confirmed st =>
    by_cases h : st = at_ble_status_t.AT_BLE_SUCCESS <;>
      simp [step, app_indication_confirmation_handler, h]
  | notification_handler en => cases en <;> simp [step, app_notification_handler]
  | indication_handler en =>
    cases en
    · simp [step, app_indication_handler]
    · by_cases hu : s.units = true <;>
        simp [step, app_indication_handler, blp_sensor_send_indication, hu]
  | custom_event id => exact custom_event_notification_sent c id s

theorem step_indication_sent (c : Config) (e : Event) (s : State)
    (h1 : isIndicationConfirmation e = false) (h2 : e ≠ Event.disconnected) :
    (step c e s).indication_sent = s.indication_sent := by
  cases e with
  | connected => rfl
  | disconnected => exact absurd rfl h2
  | notification_confirmed st =>
    by_cases h : st = at_ble_status_t.AT_BLE_SUCCESS <;>
      simp [step, app_notification_confirmation_handler, h]
  | indication_confirmed st => simp [isIndicationConfirmation] at h1
  | notification_handler en => cases en <;> simp [step, app_notification_handler]
  | indication_handler en =>
    cases en
    · simp [step, app_indication_handler]
    · by_cases hu : s.units = true <;>
        simp [step, app_indication_handler, blp_sensor_send_indication, hu]
  | custom_event id => exact custom_event_indication_sent c id s

theorem step_no_notification (c : Config) (e : Event) (s : State)
    (h : s.notification_sent = false) :
    Kind.notification ∉ kinds s (step c e s) := by
  cases e with
  | connected => simp [step, app_connected_state_handler, kinds, emitted]
  | disconnected =>
    simp [step, app_disconnected_state_handler, blp_sensor_adv, kinds, emitted, Out.kind]
  | notification_confirmed st =>
    by_cases h : st = at_ble_status_t.AT_BLE_SUCCESS <;>
      simp [step, app_notification_confirmation_handler, h, kinds, emitted]
  | indication_confirmed st =>
    by_cases h : st = at_ble_status_t.AT_BLE_SUCCESS <;>
      simp [step, app_indication_confirmation_handler, h, kinds, emitted]
  | notification_handler en =>
    cases en <;> simp [step, app_notification_handler, kinds, emitted]
  | indication_handler en =>
    cases en
    · simp [step, app_indication_handler, kinds, emitted]
    · by_cases hu : s.units = true <;>
        simp [step, app_indication_handler, blp_sensor_send_indication, hu, kinds, emitted,
          Out.kind]
  | custom_event id => exact custom_event_no_notification c id s h

theorem notificationSuppressed_outputs (failed : Bool) (outs : List Out) (rest : List Obs)
    (h : failed = true → ∀ o ∈ outs, o.kind ≠ Kind.notification) :
    notificationSuppressed failed (outs.map Obs.output ++ rest) =
      notificationSuppressed failed rest := by
  induction outs with
  | nil => rfl
  | cons o os ih =>
    rw [List.map_cons, List.cons_append, notificationSuppressed,
      ih (fun hf o' ho' => h hf o' (List.mem_cons_of_mem _ ho'))]
    cases failed
    · simp
    · have := h rfl o (List.mem_cons_self _ _)
      simp [this]

theorem indicationSuppressed_outputs (failed sched : Bool) (outs : List Out)
    (rest : List Obs)
    (h : failed = true → sched = true → ∀ o ∈ outs, o.kind ≠ Kind.indication) :
    indicationSuppressed failed sched (outs.map Obs.output ++ rest) =
      indicationSuppressed failed sched rest := by
  induction outs with
  | nil => rfl
  | cons o os ih =>
    rw [List.map_cons, List.cons_append, indicationSuppressed,
      ih (fun hf hs o' ho' => h hf hs o' (List.mem_cons_of_mem _ ho'))]
    cases failed
    · simp
    · cases sched
      · simp
      · have := h rfl rfl o (List.mem_cons_self _ _)
        simp [this]

theorem notificationFailed_step (c : Config) (e : Event) (s : State) (failed : Bool)
    (hinv : failed = true → s.notification_sent = false)
    (hf : notificationFailed e failed = true) :
    (step c e s).notification_sent = false ∧ Kind.notification ∉ kinds s (step c e s) := by
  cases e with
  | notification_confirmed st =>
    have hst : st ≠ at_ble_status_t.AT_BLE_SUCCESS := by simpa [notificationFailed] using hf
    simp [step, app_notification_confirmation_handler, hst, kinds, emitted]
  | disconnected => simp [notificationFailed] at hf
  | connected =>
    have h := hinv (by simpa [notificationFailed] using hf)
    exact ⟨by rw [step_notification_sent c Event.connected s rfl (by simp), h],
      step_no_notification c Event.connected s h⟩
  | indication_confirmed st =>
    have h := hinv (by simpa [notificationFailed] using hf)
    exact ⟨by rw [step_notification_sent c (Event.indication_confirmed st) s rfl (by simp), h],
      step_no_notification c (Event.indication_confirmed st) s h⟩
  | notification_handler en =>
    have h := hinv (by simpa [notificationFailed] using hf)
    exact ⟨by rw [step_notification_sent c (Event.notification_handler en) s rfl (by simp), h],
      step_no_notification c (Event.notification_handler en) s h⟩
  | indication_handler en =>
    have h := hinv (by simpa [notificationFailed] using hf)
    exact ⟨by rw [step_notification_sent c (Event.indication_handler en) s rfl (by simp), h],
      step_no_notification c (Event.indication_handler en) s h⟩
  | custom_event id =>
    have h := hinv (by simpa [notificationFailed] using hf)
    exact ⟨by rw [step_notification_sent c (Event.custom_event id) s rfl (by simp), h],
      step_no_notification c (Event.custom_event id) s h⟩

theorem indicationFailed_step (c : Config) (e : Event) (s : State) (failed : Bool)
    (hinv : failed = true → s.indication_sent = false)
    (hf : indicationFailed e failed = true) :
    (step c e s).indication_sent = false ∧
      (isCustomEvent e = true → Kind.indication ∉ kinds s (step c e s)) := by
  cases e with
  | indication_confirmed st =>
    have hst : st ≠ at_ble_status_t.AT_BLE_SUCCESS := by simpa [indicationFailed] using hf
    simp [step, app_indication_confirmation_handler, hst, isCustomEvent]
  | disconnected => simp [indicationFailed] at hf
  | connected =>
    have h := hinv (by simpa [indicationFailed] using hf)
    exact ⟨by rw [step_indication_sent c Event.connected s rfl (by simp), h], by simp [isCustomEvent]⟩
  | notification_confirmed st =>
    have h := hinv (by simpa [indicationFailed] using hf)
    exact ⟨by rw [step_indication_sent c (Event.notification_confirmed st) s rfl (by simp), h], by simp [isCustomEvent]⟩
  | notification_handler en =>
    have h := hinv (by simpa [indicationFailed] using hf)
    exact ⟨by rw [step_indication_sent c (Event.notification_handler en) s rfl (by simp), h], by simp [isCustomEvent]⟩
  | indication_handler en =>
    have h := hinv (by simpa [indicationFailed] using hf)
    exact ⟨by rw [step_indication_sent c (Event.indication_handler en) s rfl (by simp), h], by simp [isCustomEvent]⟩
  | custom_event id =>
    have h := hinv (by simpa [indicationFailed] using hf)
    exact ⟨by rw [step_indication_sent c (Event.custom_event id) s rfl (by simp), h],
      fun _ => custom_event_no_indication c id s h⟩

theorem notificationSuppressed_trace (c : Config) (es : List Event) :
    ∀ (s : State) (failed : Bool), (failed = true → s.notification_sent = false) →
      notificationSuppressed failed (trace c s es) = true := by
  induction es with
  | nil => intros; rfl
  | cons e es ih =>
    intro s failed hinv
    simp only [trace, notificationSuppressed]
    rw [notificationSuppressed_outputs _ _ _
      (fun hf => not_mem_kinds _ _ _ (notificationFailed_step c e s failed hinv hf).2)]
    exact ih _ _ (fun hf => (notificationFailed_step c e s failed hinv hf).1)

theorem indicationSuppressed_trace (c : Config) (es : List Event) :
    ∀ (s : State) (failed sched : Bool), (failed = true → s.indication_sent = false) →
      indicationSuppressed failed sched (trace c s es) = true := by
  induction es with
  | nil => intros; rfl
  | cons e es ih =>
    intro s failed sched hinv
    simp only [trace, indicationSuppressed]
    rw [indicationSuppressed_outputs _ _ _ _
      (fun hf hs => not_mem_kinds _ _ _ ((indicationFailed_step c e s failed hinv hf).2 hs))]
    exact ih _ _ _ (fun hf => (indicationFailed_step c e s failed hinv hf).1)

/-! ## Sequences of callbacks -/

theorem run_cons (c : Config) (s : State) (e : Event) (es : List Event) :
    run c s (e :: es) = run c (step c e s) es := rfl

theorem run_append (c : Config) (s : State) (es fs : List Event) :
    run c s (es ++ fs) = run c (run c s es) fs := by
  simp [run, List.foldl_append]

theorem run_replicate_succ (c : Config) (s : State) (e : Event) (n : Nat) :
    run c s (List.replicate (n + 1) e) = step c e (run c s (List.replicate n e)) := by
  rw [List.replicate_succ', run_append]
  rfl

theorem update_log_append (c : Config) (s : State) :
    ∃ l, (update_blp_sensor_value c s).log = s.log ++ l := by
  obtain ⟨d, hd⟩ := blp_char_notification_log c s
  obtain ⟨e, he⟩ := blp_char_indication_log c s
  rw [update_eq]
  split_ifs
  · exact ⟨_, hd⟩
  · exact ⟨[], by simp⟩
  · exact ⟨_, he⟩
  · exact ⟨[Out.disconnect], rfl⟩
  · exact ⟨[], by simp⟩

theorem step_log_append (c : Config) (e : Event) (s : State) :
    ∃ l, (step c e s).log = s.log ++ l := by
  cases e with
  | connected => exact ⟨[], by simp [step, app_connected_state_handler]⟩
  | disconnected =>
    exact ⟨[Out.advertise], by simp [step, app_disconnected_state_handler, blp_sensor_adv]⟩
  | notification_confirmed st =>
    by_cases h : st = at_ble_status_t.AT_BLE_SUCCESS <;>
      exact ⟨[], by simp [step, app_notification_confirmation_handler, h]⟩
  | indication_confirmed st =>
    by_cases h : st = at_ble_status_t.AT_BLE_SUCCESS <;>
      exact ⟨[], by simp [step, app_indication_confirmation_handler, h]⟩
  | notification_handler en =>
    cases en <;> exact ⟨[], by simp [step, app_notification_handler]⟩
  | indication_handler en =>
    cases en
    · exact ⟨[], by simp [step, app_indication_handler]⟩
    · by_cases hu : s.units = true
      · exact ⟨_, by simp [step, app_indication_handler, blp_sensor_send_indication, hu]; rfl⟩
      · exact ⟨_, by simp [step, app_indication_handler, blp_sensor_send_indication, hu]; rfl⟩
  | custom_event id =>
    rcases custom_event_shape c id s with h0 | ⟨u, hl, _, _, hu⟩
    · exact ⟨[], by simp [step, h0]⟩
    · obtain ⟨l, hlog⟩ := update_log_append c u
      exact ⟨l, by simp only [step]; rw [hu, hlog, hl]⟩

theorem run_log_append (c : Config) (es : List Event) :
    ∀ s : State, ∃ l, (run c s es).log = s.log ++ l := by
  induction es with
  | nil => intro s; exact ⟨[], by simp [run]⟩
  | cons e es ih =>
    intro s
    obtain ⟨l1, h1⟩ := step_log_append c e s
    obtain ⟨l2, h2⟩ := ih (step c e s)
    exact ⟨l1 ++ l2, by rw [run_cons, h2, h1, List.append_assoc]⟩

/-- The calls of two consecutive stretches of an execution, put together. -/
theorem kinds_trans (s t u : State) (l1 l2 : List Out)
    (h1 : t.log = s.log ++ l1) (h2 : u.log = t.log ++ l2) :
    kinds s u = kinds s t ++ kinds t u := by
  have h3 : u.log = s.log ++ (l1 ++ l2) := by rw [h2, h1, List.append_assoc]
  simp [kinds, emitted_append _ _ _ h1, emitted_append _ _ _ h2, emitted_append _ _ _ h3]

theorem kinds_run_cons (c : Config) (s : State) (e : Event) (es : List Event) :
    kinds s (run c s (e :: es)) =
      kinds s (step c e s) ++ kinds (step c e s) (run c (step c e s) es) := by
  obtain ⟨l1, h1⟩ := step_log_append c e s
  obtain ⟨l2, h2⟩ := run_log_append c es (step c e s)
  exact kinds_trans _ _ _ l1 l2 h1 (by rw [run_cons]; exact h2)

/-! ## The timer tick, characterised -/

theorem tick_eq (c : Config) (s : State) (hr : s.user_request_flag = true) :
    step c tick s =
      update_blp_sensor_value c
        { s with
          timer_count := u8 (s.timer_count + 1)
          notify := true
          time_stamp := update_time_stamp c s.time_stamp } := by
  simp only [step, tick, custom_event_timer, hr, if_true]

theorem tick_kinds (c : Config) (s : State) (hr : s.user_request_flag = true) :
    kinds s (step c tick s) =
      if u8 (s.timer_count + 1) < c.INDICATION_TIMER_VAL ∧ s.notification_flag = true ∧
          s.notification_sent = true then
        [Kind.notification]
      else if u8 (s.timer_count + 1) = c.INDICATION_TIMER_VAL ∧ s.indication_flag = true then
        (if s.indication_sent = true then [Kind.indication] else [Kind.disconnect])
      else [] := by
  have h := update_kinds c
    { s with
      timer_count := u8 (s.timer_count + 1)
      notify := true
      time_stamp := update_time_stamp c s.time_stamp }
  rw [tick_eq c s hr]
  simp only [kinds, emitted] at h ⊢
  simpa [hr] using h

theorem tick_timer_count (c : Config) (s : State) (hr : s.user_request_flag = true) :
    (step c tick s).timer_count =
      if u8 (s.timer_count + 1) = c.INDICATION_TIMER_VAL ∧ s.indication_flag = true ∧
          s.indication_sent = true then
        u8 (u8 (s.timer_count + 1) + 1)
      else u8 (s.timer_count + 1) := by
  rw [tick_eq c s hr, update_timer_count]
  simp [hr]

theorem tick_app_state (c : Config) (s : State) :
    (step c tick s).app_state = s.app_state := by
  simp only [step, tick, custom_event_timer, update_app_state]
  split_ifs <;> rfl

theorem tick_indication_sent (c : Config) (s : State) :
    (step c tick s).indication_sent = s.indication_sent := by
  simp only [step, tick, custom_event_timer, update_indication_sent]
  split_ifs <;> rfl

theorem tick_notification_sent (c : Config) (s : State) :
    (step c tick s).notification_sent = s.notification_sent := by
  simp only [step, tick, custom_event_timer, update_notification_sent]
  split_ifs <;> rfl

theorem tick_units (c : Config) (s : State) :
    (step c tick s).units = s.units := by
  simp only [step, tick, custom_event_timer, update_units]
  split_ifs <;> rfl

theorem tick_notification_flag (c : Config) (s : State) :
    (step c tick s).notification_flag = s.notification_flag := by
  simp only [step, tick, custom_event_timer, update_notification_flag]
  split_ifs <;> rfl

theorem tick_indication_flag (c : Config) (s : State) :
    (step c tick s).indication_flag = s.indication_flag := by
  simp only [step, tick, custom_event_timer, update_indication_flag]
  split_ifs <;> rfl

theorem tick_user_request_flag (c : Config) (s : State) :
    (step c tick s).user_request_flag = s.user_request_flag := by
  simp only [step, tick, custom_event_timer, update_user_request_flag]
  split_ifs <;> rfl

/-! ## Runs of timer ticks -/

theorem step_button (c : Config) (s : State) :
    step c button s = (blp_sensor_app_custom_event c APP_BUTTON_EVENT_ID s).2 := rfl

theorem ticks_succ (c : Config) (s : State) (n : Nat) :
    run c s (ticks (n + 1)) = step c tick (run c s (ticks n)) :=
  run_replicate_succ c s tick n

theorem ticks_add (c : Config) (s : State) (m n : Nat) :
    run c s (ticks (m + n)) = run c (run c s (ticks m)) (ticks n) := by
  rw [ticks, List.replicate_add, run_append]
  rfl

theorem kinds_ticks_succ (c : Config) (s : State) (n : Nat) :
    kinds s (run c s (ticks (n + 1))) =
      kinds s (run c s (ticks n)) ++
        kinds (run c s (ticks n)) (step c tick (run c s (ticks n))) := by
  obtain ⟨l1, h1⟩ := run_log_append c (ticks n) s
  obtain ⟨l2, h2⟩ := step_log_append c tick (run c s (ticks n))
  rw [ticks_succ]
  exact kinds_trans _ _ _ l1 l2 h1 h2

theorem ticks_app_state (c : Config) (s : State) (n : Nat) :
    (run c s (ticks n)).app_state = s.app_state := by
  induction n with
  | zero => rfl
  | succ n ih => rw [ticks_succ, tick_app_state, ih]

theorem ticks_indication_sent (c : Config) (s : State) (n : Nat) :
    (run c s (ticks n)).indication_sent = s.indication_sent := by
  induction n with
  | zero => rfl
  | succ n ih => rw [ticks_succ, tick_indication_sent, ih]

theorem ticks_notification_sent (c : Config) (s : State) (n : Nat) :
    (run c s (ticks n)).notification_sent = s.notification_sent := by
  induction n with
  | zero => rfl
  | succ n ih => rw [ticks_succ, tick_notification_sent, ih]

theorem ticks_units (c : Config) (s : State) (n : Nat) :
    (run c s (ticks n)).units = s.units := by
  induction n with
  | zero => rfl
  | succ n ih => rw [ticks_succ, tick_units, ih]

theorem ticks_notification_flag (c : Config) (s : State) (n : Nat) :
    (run c s (ticks n)).notification_flag = s.notification_flag := by
  induction n with
  | zero => rfl
  | succ n ih => rw [ticks_succ, tick_notification_flag, ih]

theorem ticks_indication_flag (c : Config) (s : State) (n : Nat) :
    (run c s (ticks n)).indication_flag = s.indication_flag := by
  induction n with
  | zero => rfl
  | succ n ih => rw [ticks_succ, tick_indication_flag, ih]

theorem ticks_user_request_flag (c : Config) (s : State) (n : Nat) :
    (run c s (ticks n)).user_request_flag = s.user_request_flag := by
  induction n with
  | zero => rfl
  | succ n ih => rw [ticks_succ, tick_user_request_flag, ih]

/-- While no indication can be sent, every tick of an active request adds one
to the 8-bit counter. -/
theorem ticks_timer_count (c : Config) (s : State) (n : Nat)
    (hr : s.user_request_flag = true)
    (hi : s.indication_flag = false ∨ s.indication_sent = false)
    (ht : s.timer_count < 256) :
    (run c s (ticks n)).timer_count = (s.timer_count + n) % 256 := by
  induction n with
  | zero => simpa [ticks, run] using (Nat.mod_eq_of_lt ht).symm
  | succ n ih =>
    have hr2 : (run c s (ticks n)).user_request_flag = true := by
      rw [ticks_user_request_flag, hr]
    rw [ticks_succ, tick_timer_count c _ hr2, ticks_indication_flag, ticks_indication_sent, ih]
    have hne : ¬ (s.indication_flag = true ∧ s.indication_sent = true) := by
      rcases hi with h | h <;> simp [h]
    rw [if_neg (fun h => hne h.2)]
    simp only [u8]
    omega

/-- The state after a button press that starts a fresh request. -/
theorem button_fresh_state (c : Config) (s : State)
    (hc : s.app_state = true) (hr : s.user_request_flag = false)
    (hf : s.indication_flag = true ∨ s.notification_flag = true)
    (hpos : 0 < c.INDICATION_TIMER_VAL) :
    (step c button s).user_request_flag = true ∧
    (step c button s).timer_count = 0 ∧
    (step c button s).app_state = true ∧
    (step c button s).notification_flag = s.notification_flag ∧
    (step c button s).indication_flag = s.indication_flag ∧
    (step c button s).notification_sent = s.notification_sent ∧
    (step c button s).indication_sent = s.indication_sent ∧
    (step c button s).units = (if s.indication_flag = true then !s.units else s.units) := by
  simp only [step, button]
  rw [custom_event_button_fresh c s hc hr hf]
  refine ⟨by simp, ?_, by simp [hc], by simp, by simp, by simp, by simp, by simp⟩
  rw [update_timer_count]
  have : ¬ ((0 : Nat) = c.INDICATION_TIMER_VAL) := by omega
  simp [this]

/-- A successful notification confirmation changes nothing when the flag is
already true. -/
theorem notification_confirmed_noop (c : Config) (s : State)
    (h : s.notification_sent = true) :
    step c (Event.notification_confirmed at_ble_status_t.AT_BLE_SUCCESS) s = s := by
  cases s
  simp_all [step, app_notification_confirmation_handler]

theorem confirmedTicks_eq_ticks (c : Config) (s : State) (n : Nat)
    (h : s.notification_sent = true) :
    run c s (confirmedTicks n) = run c s (ticks n) := by
  induction n with
  | zero => rfl
  | succ n ih =>
    have h2 : (step c tick (run c s (ticks n))).notification_sent = true := by
      rw [tick_notification_sent, ticks_notification_sent, h]
    rw [confirmedTicks, run_append, ih, ticks_succ]
    rw [run_cons, run_cons]
    exact notification_confirmed_noop c _ h2

/-! ## A request with notifications only -/

/-- With indications disabled, a tick of an active request sends a
notification exactly when the incremented counter is below the threshold. -/
theorem notification_only_tick (c : Config) (t : State)
    (hr : t.user_request_flag = true) (hn : t.notification_flag = true)
    (hi : t.indication_flag = false) (hs : t.notification_sent = true) :
    kinds t (step c tick t) =
      if u8 (t.timer_count + 1) < c.INDICATION_TIMER_VAL then [Kind.notification] else [] := by
  rw [tick_kinds c t hr]
  simp [hn, hi, hs]

/-- The state `k` ticks after the button press that starts a request with
notifications only. -/
theorem notification_only_state (c : Config) (s : State) (k : Nat)
    (hc : s.app_state = true) (hr : s.user_request_flag = false)
    (hn : s.notification_flag = true) (hi : s.indication_flag = false)
    (hs : s.notification_sent = true) (hpos : 0 < c.INDICATION_TIMER_VAL) :
    (run c s (button :: ticks k)).user_request_flag = true ∧
    (run c s (button :: ticks k)).notification_flag = true ∧
    (run c s (button :: ticks k)).indication_flag = false ∧
    (run c s (button :: ticks k)).notification_sent = true ∧
    (run c s (button :: ticks k)).app_state = true ∧
    (run c s (button :: ticks k)).timer_count = k % 256 := by
  obtain ⟨b1, b2, b3, b4, b5, b6, _, _⟩ := button_fresh_state c s hc hr (Or.inr hn) hpos
  rw [run_cons]
  refine ⟨?_, ?_, ?_, ?_, ?_, ?_⟩
  · rw [ticks_user_request_flag, b1]
  · rw [ticks_notification_flag, b4, hn]
  · rw [ticks_indication_flag, b5, hi]
  · rw [ticks_notification_sent, b6, hs]
  · rw [ticks_app_state, b3]
  · rw [ticks_timer_count c _ k b1 (Or.inl (by rw [b5, hi])) (by rw [b2]; omega), b2]
    simp

/-- Ticks at or above the threshold, with indications disabled, send nothing
as long as the 8-bit counter does not wrap. -/
theorem stall_ticks (c : Config) (t : State) (n : Nat)
    (hr : t.user_request_flag = true) (hi : t.indication_flag = false)
    (hge : c.INDICATION_TIMER_VAL ≤ t.timer_count) (hle : t.timer_count + n ≤ 255) :
    kinds t (run c t (ticks n)) = [] := by
  induction n with
  | zero => simp [ticks, run, kinds, emitted]
  | succ n ih =>
    have hr2 : (run c t (ticks n)).user_request_flag = true := by
      rw [ticks_user_request_flag, hr]
    have htc : (run c t (ticks n)).timer_count = t.timer_count + n := by
      rw [ticks_timer_count c t n hr (Or.inl hi) (by omega)]
      exact Nat.mod_eq_of_lt (by omega)
    rw [kinds_ticks_succ, ih (by omega), tick_kinds c _ hr2, htc, ticks_indication_flag, hi]
    have h1 : ¬ (u8 (t.timer_count + n + 1) < c.INDICATION_TIMER_VAL) := by
      simp only [u8]; omega
    simp [h1]

/-- With notifications enabled and acknowledged, the tick that wraps the
8-bit counter from 255 to 0 sends a notification again. -/
theorem wrap_tick (c : Config) (t : State)
    (hr : t.user_request_flag = true) (hn : t.notification_flag = true)
    (hi : t.indication_flag = false) (hs : t.notification_sent = true)
    (ht : t.timer_count = 255) (hpos : 0 < c.INDICATION_TIMER_VAL) :
    kinds t (step c tick t) = [Kind.notification] := by
  rw [notification_only_tick c t hr hn hi hs, ht]
  simp [u8, hpos]

/-- The 256th tick after the button press of a request with notifications
only sends a notification. -/
theorem notification_only_wrap (c : Config) (s : State)
    (hc : s.app_state = true) (hr : s.user_request_flag = false)
    (hn : s.notification_flag = true) (hi : s.indication_flag = false)
    (hs : s.notification_sent = true) (hpos : 0 < c.INDICATION_TIMER_VAL) :
    kinds (run c s (button :: ticks 255)) (run c s (button :: ticks 256)) =
      [Kind.notification] := by
  obtain ⟨a1, a2, a3, a4, _, a6⟩ := notification_only_state c s 255 hc hr hn hi hs hpos
  have h : run c s (button :: ticks 256) = step c tick (run c s (button :: ticks 255)) := by
    rw [run_cons, run_cons, ticks_succ]
  rw [h]
  exact wrap_tick c _ a1 a2 a3 a4 (by rw [a6]) hpos

/-! ## A request with indications only -/

theorem testBit_u8 (x : Nat) : (u8 x).testBit 0 = x.testBit 0 := by
  have h : x % 256 % 2 = x % 2 := by omega
  simp only [u8, Nat.testBit_zero, h]

/-- The flags byte of the measurement that `blp_char_indication` sends: with
the units flag in bit 0, that bit is 0 for `units` true and 1 for `units`
false. -/
theorem blp_char_indication_flags (c : Config) (s : State) (hm : c.unitsBitZero) :
    ∃ f rest, (blp_char_indication c s).log = s.log ++ [Out.indication (f :: rest)] ∧
      f.testBit 0 = !s.units := by
  obtain ⟨m1, m2, m3, m4, m5⟩ := hm
  have e1 : ((0 : Nat) ||| (1 &&& cNot 1)).testBit 0 = false := by decide
  have e2 : ((0 : Nat) ||| (1 ||| 1)).testBit 0 = true := by decide
  unfold blp_char_indication
  cases hu : s.units
  · simp only [Bool.false_eq_true, if_false]
    refine ⟨_, _, rfl, ?_⟩
    simp only [m1, testBit_u8, Nat.testBit_or, e2, m2, m3, m4, m5]
    rfl
  · simp only [if_true]
    refine ⟨_, _, rfl, ?_⟩
    simp only [m1, testBit_u8, Nat.testBit_or, e1, m2, m3, m4, m5]
    rfl

theorem log_eq_of_kinds_nil (s t : State) (l : List Out) (h : t.log = s.log ++ l)
    (hk : kinds s t = []) : t.log = s.log := by
  rw [kinds, emitted_append s t l h] at hk
  have : l = [] := by simpa using hk
  rw [h, this, List.append_nil]

/-- Ticks of an active request below the threshold send nothing while
notifications are disabled, and each adds one to the counter. -/
theorem quiet_ticks (c : Config) (t : State) (n : Nat)
    (hr : t.user_request_flag = true) (hn : t.notification_flag = false)
    (hlt : t.timer_count + n < c.INDICATION_TIMER_VAL)
    (hfit : c.INDICATION_TIMER_VAL ≤ 256) :
    (run c t (ticks n)).timer_count = t.timer_count + n ∧
    kinds t (run c t (ticks n)) = [] := by
  induction n with
  | zero => simp [ticks, run, kinds, emitted]
  | succ n ih =>
    obtain ⟨i1, i2⟩ := ih (by omega)
    have hr2 : (run c t (ticks n)).user_request_flag = true := by
      rw [ticks_user_request_flag, hr]
    have hu : u8 (t.timer_count + n + 1) = t.timer_count + n + 1 := by
      simp only [u8]; omega
    have hne : ¬ (t.timer_count + n + 1 = c.INDICATION_TIMER_VAL) := by omega
    constructor
    · rw [ticks_succ, tick_timer_count c _ hr2, i1, hu]
      simp [hne]
      omega
    · rw [kinds_ticks_succ, i2, tick_kinds c _ hr2, i1, hu, ticks_notification_flag, hn]
      simp [hne]

theorem update_indication_log (c : Config) (s : State)
    (hr : s.user_request_flag = true) (ht : s.timer_count = c.INDICATION_TIMER_VAL)
    (hi : s.indication_flag = true) (hs : s.indication_sent = true) :
    (update_blp_sensor_value c s).log = (blp_char_indication c s).log := by
  rw [update_eq]
  simp [hr, ht, hi, hs]

/-- The tick that brings the counter to the threshold, with indications
enabled and acknowledged, sends the measurement. -/
theorem tick_indication_payload (c : Config) (t : State)
    (hr : t.user_request_flag = true) (ht : u8 (t.timer_count + 1) = c.INDICATION_TIMER_VAL)
    (hi : t.indication_flag = true) (hs : t.indication_sent = true)
    (hm : c.unitsBitZero) :
    ∃ f rest, (step c tick t).log = t.log ++ [Out.indication (f :: rest)] ∧
      f.testBit 0 = !t.units := by
  obtain ⟨f, rest, h1, h2⟩ := blp_char_indication_flags c
    { t with
      timer_count := u8 (t.timer_count + 1)
      notify := true
      time_stamp := update_time_stamp c t.time_stamp } hm
  have h3 := update_indication_log c
    { t with
      timer_count := u8 (t.timer_count + 1)
      notify := true
      time_stamp := update_time_stamp c t.time_stamp } hr ht hi hs
  refine ⟨f, rest, ?_, h2⟩
  rw [tick_eq c t hr, h3]
  exact h1

/-- A button press that starts a request makes no call when notifications
are disabled and the threshold is not 0. -/
theorem button_fresh_quiet (c : Config) (s : State)
    (hc : s.app_state = true) (hr : s.user_request_flag = false)
    (hi : s.indication_flag = true) (hn : s.notification_flag = false)
    (hpos : 0 < c.INDICATION_TIMER_VAL) :
    (step c button s).log = s.log := by
  have hne : ¬ ((0 : Nat) = c.INDICATION_TIMER_VAL) := by omega
  rw [step_button, custom_event_button_fresh c s hc hr (Or.inl hi), update_eq]
  simp [hn, hne]

/-- The state just before the last tick of a request with indications only:
nothing has been sent, and the counter is one below the threshold. -/
theorem indication_only_state (c : Config) (s : State)
    (hc : s.app_state = true) (hr : s.user_request_flag = false)
    (hi : s.indication_flag = true) (hn : s.notification_flag = false)
    (hs : s.indication_sent = true)
    (h1 : 1 ≤ c.INDICATION_TIMER_VAL) (h2 : c.INDICATION_TIMER_VAL < 256) :
    (run c s (button :: ticks (c.INDICATION_TIMER_VAL - 1))).log = s.log ∧
    (run c s (button :: ticks (c.INDICATION_TIMER_VAL - 1))).timer_count
      = c.INDICATION_TIMER_VAL - 1 ∧
    (run c s (button :: ticks (c.INDICATION_TIMER_VAL - 1))).user_request_flag = true ∧
    (run c s (button :: ticks (c.INDICATION_TIMER_VAL - 1))).indication_flag = true ∧
    (run c s (button :: ticks (c.INDICATION_TIMER_VAL - 1))).indication_sent = true ∧
    (run c s (button :: ticks (c.INDICATION_TIMER_VAL - 1))).units = (!s.units) := by
  obtain ⟨b1, b2, _, b4, b5, _, b7, b8⟩ := button_fresh_state c s hc hr (Or.inl hi) (by omega)
  have hq := quiet_ticks c (step c button s) (c.INDICATION_TIMER_VAL - 1) b1
    (by rw [b4, hn]) (by rw [b2]; omega) (by omega)
  obtain ⟨l, hl⟩ := run_log_append c (ticks (c.INDICATION_TIMER_VAL - 1)) (step c button s)
  rw [run_cons]
  refine ⟨?_, ?_, ?_, ?_, ?_, ?_⟩
  · rw [log_eq_of_kinds_nil _ _ l hl hq.2]
    exact button_fresh_quiet c s hc hr hi hn (by omega)
  · rw [hq.1, b2]; omega
  · rw [ticks_user_request_flag, b1]
  · rw [ticks_indication_flag, b5, hi]
  · rw [ticks_indication_sent, b7, hs]
  · rw [ticks_units, b8]; simp [hi]

/-! ## After a failed confirmation -/

/-- As long as neither a notification confirmation nor the disconnected
callback runs, a false `notification_sent` stays false and no notification is
sent. -/
theorem run_no_notification (c : Config) (es : List Event) :
    ∀ s : State, s.notification_sent = false →
      (∀ e ∈ es, isNotificationConfirmation e = false ∧ e ≠ Event.disconnected) →
      Kind.notification ∉ kinds s (run c s es) ∧ (run c s es).notification_sent = false := by
  induction es with
  | nil => intro s h _; exact ⟨by simp [run, kinds, emitted], h⟩
  | cons e es ih =>
    intro s h hes
    obtain ⟨h1, h2⟩ := hes e (List.mem_cons_self _ _)
    have h3 : (step c e s).notification_sent = false := by
      rw [step_notification_sent c e s h1 h2, h]
    obtain ⟨i1, i2⟩ := ih (step c e s) h3 (fun e' he' => hes e' (List.mem_cons_of_mem _ he'))
    refine ⟨?_, by rw [run_cons]; exact i2⟩
    rw [kinds_run_cons, List.mem_append]
    rintro (hk | hk)
    · exact step_no_notification c e s h hk
    · exact i1 hk

/-- The state after a failed indication confirmation and `j` ticks, for an
active request with indications enabled. -/
theorem failed_indication_state (c : Config) (s : State) (st : at_ble_status_t) (j : Nat)
    (hst : st ≠ at_ble_status_t.AT_BLE_SUCCESS)
    (hr : s.user_request_flag = true) (ht : s.timer_count < 256) :
    (run c s (Event.indication_confirmed st :: ticks j)).user_request_flag = true ∧
    (run c s (Event.indication_confirmed st :: ticks j)).indication_sent = false ∧
    (run c s (Event.indication_confirmed st :: ticks j)).indication_flag = s.indication_flag ∧
    (run c s (Event.indication_confirmed st :: ticks j)).notification_flag
      = s.notification_flag ∧
    (run c s (Event.indication_confirmed st :: ticks j)).notification_sent
      = s.notification_sent ∧
    (run c s (Event.indication_confirmed st :: ticks j)).timer_count
      = (s.timer_count + j) % 256 := by
  have h0 : step c (Event.indication_confirmed st) s = { s with indication_sent := false } := by
    simp [step, app_indication_confirmation_handler, hst]
  rw [run_cons, h0]
  refine ⟨?_, ?_, ?_, ?_, ?_, ?_⟩
  · rw [ticks_user_request_flag]; exact hr
  · rw [ticks_indication_sent]
  · rw [ticks_indication_flag]
  · rw [ticks_notification_flag]
  · rw [ticks_notification_sent]
  · rw [ticks_timer_count c { s with indication_sent := false } j hr (Or.inr rfl) ht]

/-- The tick that follows a notification disable sends nothing: the tick adds
one to `timer_count` before the update compares it with the threshold. -/
theorem tick_after_notification_disable (c : Config) (s : State)
    (hr : s.user_request_flag = true) (hfit : c.INDICATION_TIMER_VAL < 256) :
    kinds (app_notification_handler c false s)
      (step c tick (app_notification_handler c false s)) = [] := by
  have h0 : app_notification_handler c false s =
      { s with notification_flag := false, timer_count := c.INDICATION_TIMER_VAL } := by
    simp [app_notification_handler, u8, Nat.mod_eq_of_lt hfit]
  rw [h0, tick_kinds c
    { s with notification_flag := false, timer_count := c.INDICATION_TIMER_VAL } hr]
  have h1 : ¬ (u8 (c.INDICATION_TIMER_VAL + 1) = c.INDICATION_TIMER_VAL) := by
    simp only [u8]; omega
  simp [h1]

/-! ## The measurement sent as an indication -/

/-- The bytes that `blp_char_indication` hands to the profile layer, in terms
of the state it leaves. -/
theorem blp_char_indication_payload (c : Config) (s : State) :
    (blp_char_indication c s).log = s.log ++
      [Out.indication
        (indication_flags c s.units ::
          ((if s.units = true then
              le16 (blp_char_indication c s).systolic_val_mmhg ++
                le16 (blp_char_indication c s).diastolic_val_mmhg ++
                le16 (blp_char_indication c s).map_val_mmhg
            else
              le16 (blp_char_indication c s).systolic_val_kpa ++
                le16 (blp_char_indication c s).diastolic_val_kpa ++
                le16 (blp_char_indication c s).map_val_kpa) ++
            le16 s.time_stamp.year ++
            [s.time_stamp.month, s.time_stamp.day, s.time_stamp.hour, s.time_stamp.min,
              s.time_stamp.sec] ++
            le16 (blp_char_indication c s).pulse_rate_val ++
            [if s.units = true then u8 c.USERID_1 else u8 c.USERID_2, 15, 0]))] := by
  unfold blp_char_indication indication_flags
  cases hu : s.units
  · simp only [Bool.false_eq_true, if_false]
    rfl
  · simp only [if_true]
    rfl

/-- An indication among the calls of the per-tick update is the one that
`blp_char_indication` sends, and the update then only moves `timer_count`. -/
theorem update_indication_emitted (c : Config) (s : State) (d : List Nat)
    (h : Out.indication d ∈ emitted s (update_blp_sensor_value c s)) :
    update_blp_sensor_value c s =
      { blp_char_indication c s with timer_count := u8 (s.timer_count + 1) } ∧
    (blp_char_indication c s).log = s.log ++ [Out.indication d] := by
  obtain ⟨d1, h1⟩ := blp_char_notification_log c s
  obtain ⟨d2, h2⟩ := blp_char_indication_log c s
  rw [update_eq] at h ⊢
  split_ifs at h ⊢ with c1 c2 c3 c4
  · simp [emitted, h1] at h
  · simp [emitted] at h
  · refine ⟨rfl, ?_⟩
    simp [emitted, h2] at h
    rw [h2, h]
  · simp [emitted, blp_disconnection] at h
  · simp [emitted] at h

theorem u8_or (x y : Nat) (hx : x < 256) (hy : y < 256) :
    u8 (x ||| y) = x ||| y ∧ x ||| y < 256 := by
  have h : x ||| y < 2 ^ 8 := Nat.or_lt_two_pow (by simpa using hx) (by simpa using hy)
  have h2 : x ||| y < 256 := by simpa using h
  exact ⟨Nat.mod_eq_of_lt h2, h2⟩

/-- With the units flag in bit 0 and the other masks within one byte, the
flags byte is the units bit together with the four other flags. -/
theorem indication_flags_eq (c : Config) (units : Bool)
    (hm : c.unitsBitZero) (hfit : c.masksFit) :
    indication_flags c units =
      (if units = true then 0 else 1) ||| c.BLOOD_PRESSURE_TIME_FLAG_MASK |||
        c.BLOOD_PRESSURE_PULSE_FLAG_MASK ||| c.BLOOD_PRESSURE_USERID_FLAG_MASK |||
        c.BLOOD_PRESSURE_MMT_STATUS_FLAG_MASK := by
  obtain ⟨m1, _, _, _, _⟩ := hm
  obtain ⟨g1, g2, g3, g4⟩ := hfit
  have e1 : u8 ((0 : Nat) ||| (1 &&& cNot 1)) = 0 := by decide
  have e2 : u8 ((0 : Nat) ||| (1 ||| 1)) = 1 := by decide
  have key : ∀ b : Nat, b < 256 →
      u8 (u8 (u8 (u8 (b ||| c.BLOOD_PRESSURE_TIME_FLAG_MASK) |||
        c.BLOOD_PRESSURE_PULSE_FLAG_MASK) ||| c.BLOOD_PRESSURE_USERID_FLAG_MASK) |||
        c.BLOOD_PRESSURE_MMT_STATUS_FLAG_MASK) =
      b ||| c.BLOOD_PRESSURE_TIME_FLAG_MASK ||| c.BLOOD_PRESSURE_PULSE_FLAG_MASK |||
        c.BLOOD_PRESSURE_USERID_FLAG_MASK ||| c.BLOOD_PRESSURE_MMT_STATUS_FLAG_MASK := by
    intro b hb
    obtain ⟨a1, b1⟩ := u8_or b _ hb g1
    rw [a1]
    obtain ⟨a2, b2⟩ := u8_or _ _ b1 g2
    rw [a2]
    obtain ⟨a3, b3⟩ := u8_or _ _ b2 g3
    rw [a3]
    exact (u8_or _ _ b3 g4).1
  unfold indication_flags
  cases units
  · simp only [Bool.false_eq_true, if_false, m1, e2]
    exact key 1 (by decide)
  · simp only [if_true, m1, e1]
    exact key 0 (by decide)

/-! ## The advance of a value -/

theorem blp_char_indication_eq_advance (c : Config) (s : State) :
    ∃ d, blp_char_indication c s =
      blp_sensor_send_indication d
        ((activeMetrics s.units).foldl (fun st m => advance_value c m st) s) := by
  cases s with
  | mk a1 a2 a3 units a5 a6 a7 a8 a9 a10 a11 a12 a13 a14 a15 a16 a17 a18 a19 a20 a21 a22 a23
      a24 a25 =>
    cases units
    · exact ⟨_, rfl⟩
    · exact ⟨_, rfl⟩

theorem getD_set_same (l : List Int) (i : Nat) (a d : Int) (h : i < l.length) :
    (l.set i a).getD i d = a := by
  simp [List.getD_eq_getElem?_getD, List.getElem?_set, h]

theorem getD_set_ne (l : List Int) (i j : Nat) (a d : Int) (h : i ≠ j) :
    (l.set i a).getD j d = l.getD j d := by
  simp [List.getD_eq_getElem?_getD, List.getElem?_set, h]

theorem value_type_lt (c : Config) (hd : c.enumDistinct) (m : Metric) :
    m.value_type c < 9 := by
  have h2 := hd.2
  simp only [List.mem_cons, List.mem_singleton, List.not_mem_nil, or_false,
    forall_eq_or_imp, forall_eq] at h2
  cases m <;> simp only [Metric.value_type] <;> omega

theorem value_type_ne (c : Config) (hd : c.enumDistinct) (m n : Metric) (h : m ≠ n) :
    m.value_type c ≠ n.value_type c := by
  have h1 := hd.1
  simp only [List.nodup_cons, List.mem_cons, List.mem_singleton, not_or, List.not_mem_nil,
    not_false_eq_true, List.nodup_nil, and_true] at h1
  obtain ⟨⟨a1, a2, a3, a4, a5, a6, _, _⟩, ⟨b2, b3, b4, b5, b6, _, _⟩,
    ⟨c3, c4, c5, c6, _, _⟩, ⟨d4, d5, d6, _, _⟩, ⟨e5, e6, _, _⟩, ⟨f6, _, _⟩, _, _⟩ := h1
  cases m <;> cases n <;>
    first
      | exact absurd rfl h
      | (simp only [Metric.value_type]; assumption)
      | (simp only [Metric.value_type]; apply Ne.symm; assumption)

theorem blp_value_bounds_metric (c : Config) (hd : c.enumDistinct) (m : Metric) :
    blp_value_bounds c (m.value_type c) = (u8 (m.min c), u8 (m.max c)) := by
  have h1 := hd.1
  simp only [List.nodup_cons, List.mem_cons, List.mem_singleton, not_or, List.not_mem_nil,
    not_false_eq_true, List.nodup_nil, and_true] at h1
  obtain ⟨⟨a1, a2, a3, a4, a5, a6, a7, a8⟩, ⟨b2, b3, b4, b5, b6, b7, b8⟩,
    ⟨c3, c4, c5, c6, c7, c8⟩, ⟨d4, d5, d6, d7, d8⟩, ⟨e5, e6, e7, e8⟩, ⟨f6, f7, f8⟩,
    ⟨g7, g8⟩, h8⟩ := h1
  cases m <;>
    simp [blp_value_bounds, Metric.value_type, Metric.min, Metric.max,
      Ne.symm a1, Ne.symm a2, Ne.symm a3, Ne.symm a4, Ne.symm a5, Ne.symm a6,
      Ne.symm b2, Ne.symm b3, Ne.symm b4, Ne.symm b5, Ne.symm b6,
      Ne.symm c3, Ne.symm c4, Ne.symm c5, Ne.symm c6,
      Ne.symm d4, Ne.symm d5, Ne.symm d6, Ne.symm e5, Ne.symm e6, Ne.symm f6]

theorem value_setValue (m n : Metric) (v : Nat) (s : State) :
    n.value (m.setValue v s) = if n = m then v else n.value s := by
  cases m <;> cases n <;> rfl

theorem operator_setValue (m : Metric) (v : Nat) (s : State) :
    (m.setValue v s).operator = s.operator := by
  cases m <;> rfl

theorem units_setValue (m : Metric) (v : Nat) (s : State) :
    (m.setValue v s).units = s.units := by
  cases m <;> rfl

theorem advance_value_value (c : Config) (m n : Metric) (s : State) :
    n.value (advance_value c m s) =
      if n = m then u16i (m.value s + m.direction c s) else n.value s := by
  have h : n.value (advance_value c m s) =
      n.value (m.setValue (u16i (m.value s + s.operator.getD (m.value_type c) 0)) s) := by
    cases n <;> rfl
  rw [h, value_setValue]
  rfl

theorem advance_value_operator (c : Config) (m : Metric) (s : State) :
    (advance_value c m s).operator =
      if u16i (m.value s + m.direction c s) ≥ (blp_value_bounds c (m.value_type c)).2 then
        s.operator.set (m.value_type c) (-1)
      else if u16i (m.value s + m.direction c s) ≤ (blp_value_bounds c (m.value_type c)).1 then
        s.operator.set (m.value_type c) 1
      else s.operator := by
  simp only [advance_value, blp_value_update, operator_setValue, Metric.direction]

theorem advance_value_units (c : Config) (m : Metric) (s : State) :
    (advance_value c m s).units = s.units := by
  cases m <;> rfl

theorem advance_value_operator_length (c : Config) (m : Metric) (s : State) :
    (advance_value c m s).operator.length = s.operator.length := by
  rw [advance_value_operator]
  split_ifs <;> simp

theorem advance_value_direction (c : Config) (hd : c.enumDistinct) (m : Metric) (s : State)
    (hl : s.operator.length = 9) :
    m.direction c (advance_value c m s) =
      (advance (u8 (m.min c)) (u8 (m.max c)) (m.value s, m.direction c s)).2 := by
  have hlt : m.value_type c < s.operator.length := by
    rw [hl]
    exact value_type_lt c hd m
  show (advance_value c m s).operator.getD (m.value_type c) 0 = _
  rw [advance_value_operator, blp_value_bounds_metric c hd]
  simp only [advance]
  split_ifs
  · exact getD_set_same _ _ _ _ hlt
  · exact getD_set_same _ _ _ _ hlt
  · rfl

theorem advance_value_direction_ne (c : Config) (hd : c.enumDistinct) (m n : Metric)
    (h : n ≠ m) (s : State) :
    n.direction c (advance_value c m s) = n.direction c s := by
  have hne := value_type_ne c hd m n (Ne.symm h)
  show (advance_value c m s).operator.getD (n.value_type c) 0 =
    s.operator.getD (n.value_type c) 0
  rw [advance_value_operator]
  split_ifs
  · exact getD_set_ne _ _ _ _ _ hne
  · exact getD_set_ne _ _ _ _ _ hne
  · rfl

theorem foldl_advance_units (c : Config) (l : List Metric) (s : State) :
    (l.foldl (fun st m => advance_value c m st) s).units = s.units := by
  induction l generalizing s with
  | nil => rfl
  | cons m l ih => rw [List.foldl_cons, ih, advance_value_units]

theorem foldl_advance_operator_length (c : Config) (l : List Metric) (s : State) :
    (l.foldl (fun st m => advance_value c m st) s).operator.length = s.operator.length := by
  induction l generalizing s with
  | nil => rfl
  | cons m l ih => rw [List.foldl_cons, ih, advance_value_operator_length]

theorem foldl_advance_not_mem (c : Config) (hd : c.enumDistinct) (n : Metric)
    (l : List Metric) (hn : n ∉ l) (s : State) :
    n.value (l.foldl (fun st m => advance_value c m st) s) = n.value s ∧
    n.direction c (l.foldl (fun st m => advance_value c m st) s) = n.direction c s := by
  induction l generalizing s with
  | nil => exact ⟨rfl, rfl⟩
  | cons m l ih =>
    have h1 : n ≠ m := fun e => hn (e ▸ List.mem_cons_self _ _)
    have h2 : n ∉ l := fun e => hn (List.mem_cons_of_mem _ e)
    rw [List.foldl_cons, (ih h2 (advance_value c m s)).1, (ih h2 (advance_value c m s)).2,
      advance_value_value, if_neg h1, advance_value_direction_ne c hd m n h1]
    exact ⟨rfl, rfl⟩

theorem foldl_advance_mem (c : Config) (hd : c.enumDistinct) (n : Metric)
    (l : List Metric) (hnd : l.Nodup) (hn : n ∈ l) (s : State) (hl : s.operator.length = 9) :
    (n.value (l.foldl (fun st m => advance_value c m st) s),
      n.direction c (l.foldl (fun st m => advance_value c m st) s)) =
      advance (u8 (n.min c)) (u8 (n.max c)) (n.value s, n.direction c s) := by
  induction l generalizing s with
  | nil => exact absurd hn (List.not_mem_nil _)
  | cons m l ih =>
    rw [List.nodup_cons] at hnd
    rw [List.foldl_cons]
    by_cases h : n = m
    · subst h
      rw [(foldl_advance_not_mem c hd n l hnd.1 (advance_value c n s)).1,
        (foldl_advance_not_mem c hd n l hnd.1 (advance_value c n s)).2,
        advance_value_value, if_pos rfl, advance_value_direction c hd n s hl]
      rfl
    · have hn2 : n ∈ l := (List.mem_cons.mp hn).resolve_left h
      rw [ih hnd.2 hn2 (advance_value c m s)
          ((advance_value_operator_length c m s).trans hl),
        advance_value_value, if_neg h, advance_value_direction_ne c hd m n h]

theorem value_send_indication (n : Metric) (d : List Nat) (s : State) :
    n.value (blp_sensor_send_indication d s) = n.value s := by
  cases n <;> rfl

theorem activeMetrics_nodup (u : Bool) : (activeMetrics u).Nodup := by
  cases u <;> decide

theorem indication_advance (c : Config) (hd : c.enumDistinct) (n : Metric) (s : State)
    (hl : s.operator.length = 9) (hn : n ∈ activeMetrics s.units) :
    (n.value (blp_char_indication c s), n.direction c (blp_char_indication c s)) =
      advance (u8 (n.min c)) (u8 (n.max c)) (n.value s, n.direction c s) := by
  obtain ⟨d, h⟩ := blp_char_indication_eq_advance c s
  rw [h, value_send_indication]
  exact foldl_advance_mem c hd n _ (activeMetrics_nodup _) hn s hl

theorem indication_keep (c : Config) (hd : c.enumDistinct) (n : Metric) (s : State)
    (hn : n ∉ activeMetrics s.units) :
    n.value (blp_char_indication c s) = n.value s ∧
    n.direction c (blp_char_indication c s) = n.direction c s := by
  obtain ⟨d, h⟩ := blp_char_indication_eq_advance c s
  rw [h, value_send_indication]
  exact foldl_advance_not_mem c hd n _ hn s

theorem blp_char_indication_operator_length (c : Config) (s : State) :
    (blp_char_indication c s).operator.length = s.operator.length := by
  obtain ⟨d, h⟩ := blp_char_indication_eq_advance c s
  rw [h]
  exact foldl_advance_operator_length c _ s

/-! ## The triangle wave of one value -/

theorem u16i_succ (v : Nat) (h : v + 1 < 65536) : u16i ((v : Int) + 1) = v + 1 := by
  simp only [u16i]
  omega

theorem u16i_pred (v : Nat) (h0 : 0 < v) (h : v < 65536) : u16i ((v : Int) + -1) = v - 1 := by
  simp only [u16i]
  omega

theorem advance_up (lo hi v : Nat) (h1 : lo ≤ v) (h2 : v < hi) (h3 : hi < 65536) :
    advance lo hi (v, 1) = (v + 1, if v + 1 = hi then -1 else 1) := by
  simp only [advance, u16i_succ v (by omega)]
  by_cases h : v + 1 = hi
  · rw [if_pos (by omega), if_pos h]
  · rw [if_neg (by omega), if_neg (by omega), if_neg h]

theorem advance_down (lo hi v : Nat) (h1 : lo < v) (h2 : v ≤ hi) (h3 : hi < 65536) :
    advance lo hi (v, -1) = (v - 1, if v - 1 = lo then 1 else -1) := by
  simp only [advance, u16i_pred v (by omega) (by omega)]
  by_cases h : v - 1 = lo
  · rw [if_neg (by omega), if_pos (by omega), if_pos h]
  · rw [if_neg (by omega), if_neg (by omega), if_neg h]

theorem tri_up (lo hi : Nat) (h1 : lo < hi) (h3 : hi < 65536) (n : Nat) (hn : n ≤ hi - lo) :
    (advance lo hi)^[n] (lo, 1) = (lo + n, if lo + n = hi then -1 else 1) := by
  induction n with
  | zero => simp only [Function.iterate_zero, id_eq, Nat.add_zero, if_neg (ne_of_lt h1)]
  | succ n ih =>
    rw [Function.iterate_succ_apply', ih (by omega), if_neg (by omega),
      advance_up lo hi (lo + n) (by omega) (by omega) h3]
    rfl

theorem tri_down (lo hi : Nat) (h1 : lo < hi) (h3 : hi < 65536) (n : Nat) (hn : n ≤ hi - lo) :
    (advance lo hi)^[hi - lo + n] (lo, 1) = (hi - n, if hi - n = lo then 1 else -1) := by
  induction n with
  | zero =>
    rw [Nat.add_zero, tri_up lo hi h1 h3 (hi - lo) (le_refl _), if_pos (by omega),
      Nat.sub_zero, if_neg (by omega)]
    congr 1
    omega
  | succ n ih =>
    rw [← Nat.add_assoc, Function.iterate_succ_apply', ih (by omega), if_neg (by omega),
      advance_down lo hi (hi - n) (by omega) (by omega) h3]
    rfl

theorem tri_period (lo hi : Nat) (h1 : lo < hi) (h3 : hi < 65536) :
    (advance lo hi)^[2 * (hi - lo)] (lo, 1) = (lo, 1) := by
  have h := tri_down lo hi h1 h3 (hi - lo) (le_refl _)
  rw [if_pos (by omega)] at h
  rw [two_mul, h]
  congr 1
  omega

theorem tri_period_add (lo hi : Nat) (h1 : lo < hi) (h3 : hi < 65536) (n : Nat) :
    (advance lo hi)^[n + 2 * (hi - lo)] (lo, 1) = (advance lo hi)^[n] (lo, 1) := by
  rw [Function.iterate_add_apply, tri_period lo hi h1 h3]

theorem tri_minimal (lo hi : Nat) (h1 : lo < hi) (h3 : hi < 65536) (k : Nat) (h0 : 0 < k)
    (hk : k < 2 * (hi - lo)) : (advance lo hi)^[k] (lo, 1) ≠ (lo, 1) := by
  intro h
  by_cases hle : k ≤ hi - lo
  · rw [tri_up lo hi h1 h3 k hle] at h
    have := congrArg Prod.fst h
    simp only at this
    omega
  · have hk2 : k = hi - lo + (k - (hi - lo)) := by omega
    rw [hk2, tri_down lo hi h1 h3 (k - (hi - lo)) (by omega)] at h
    have := congrArg Prod.fst h
    simp only at this
    omega

theorem tri_bounded (lo hi : Nat) (h1 : lo < hi) (h3 : hi < 65536) (n : Nat) :
    lo ≤ ((advance lo hi)^[n] (lo, 1)).1 ∧ ((advance lo hi)^[n] (lo, 1)).1 ≤ hi := by
  have key : ∀ r, r < 2 * (hi - lo) →
      lo ≤ ((advance lo hi)^[r] (lo, 1)).1 ∧ ((advance lo hi)^[r] (lo, 1)).1 ≤ hi := by
    intro r hr
    by_cases hle : r ≤ hi - lo
    · rw [tri_up lo hi h1 h3 r hle]
      simp only
      omega
    · have hr2 : r = hi - lo + (r - (hi - lo)) := by omega
      rw [hr2, tri_down lo hi h1 h3 (r - (hi - lo)) (by omega)]
      simp only
      omega
  have hp : ∀ q r, (advance lo hi)^[r + q * (2 * (hi - lo))] (lo, 1) =
      (advance lo hi)^[r] (lo, 1) := by
    intro q
    induction q with
    | zero => intro r; simp
    | succ q ih =>
      intro r
      rw [Nat.succ_mul, ← Nat.add_assoc, tri_period_add lo hi h1 h3, ih]
  have hpos : 0 < 2 * (hi - lo) := by omega
  rw [← Nat.mod_add_div n (2 * (hi - lo)), Nat.mul_comm (2 * (hi - lo)), hp]
  exact key _ (Nat.mod_lt _ hpos)

theorem u8_of_lt (x : Nat) (h : x < 256) : u8 x = x := Nat.mod_eq_of_lt h

theorem iterate_indication_units (c : Config) (s : State) (n : Nat) :
    ((blp_char_indication c)^[n] s).units = s.units := by
  induction n with
  | zero => rfl
  | succ n ih => rw [Function.iterate_succ_apply', blp_char_indication_units, ih]

theorem iterate_indication_operator_length (c : Config) (s : State) (n : Nat) :
    ((blp_char_indication c)^[n] s).operator.length = s.operator.length := by
  induction n with
  | zero => rfl
  | succ n ih => rw [Function.iterate_succ_apply', blp_char_indication_operator_length, ih]

theorem iterate_indication_advance (c : Config) (hd : c.enumDistinct) (m : Metric) (s : State)
    (hl : s.operator.length = 9) (hm : m ∈ activeMetrics s.units) (n : Nat) :
    (m.value ((blp_char_indication c)^[n] s), m.direction c ((blp_char_indication c)^[n] s)) =
      (advance (u8 (m.min c)) (u8 (m.max c)))^[n] (m.value s, m.direction c s) := by
  induction n with
  | zero => rfl
  | succ n ih =>
    rw [Function.iterate_succ_apply', Function.iterate_succ_apply', ← ih]
    refine indication_advance c hd m _ ?_ ?_
    · rw [iterate_indication_operator_length, hl]
    · rw [iterate_indication_units]
      exact hm

/-! ## Runs of the time stamp -/

theorem stamp_sec (c : Config) (hf : c.timeFit) (y mo d h m s : Nat) (hs : s < c.SECOND_MAX) :
    update_time_stamp c ⟨y, mo, d, h, m, s⟩ = ⟨y, mo, d, h, m, s + 1⟩ := by
  have e : (s + 1) % 256 = s + 1 := Nat.mod_eq_of_lt (by have := hf.1; omega)
  simp [update_time_stamp, hs, u8, e]

theorem stamp_min (c : Config) (hf : c.timeFit) (y mo d h m : Nat) (hm : m < c.MINUTE_MAX) :
    update_time_stamp c ⟨y, mo, d, h, m, c.SECOND_MAX⟩ = ⟨y, mo, d, h, m + 1, 0⟩ := by
  have e : (m + 1) % 256 = m + 1 := Nat.mod_eq_of_lt (by have := hf.2.1; omega)
  simp [update_time_stamp, hm, u8, e]

theorem stamp_hour (c : Config) (hf : c.timeFit) (y mo d h : Nat) (hh : h < c.HOUR_MAX) :
    update_time_stamp c ⟨y, mo, d, h, c.MINUTE_MAX, c.SECOND_MAX⟩ = ⟨y, mo, d, h + 1, 0, 0⟩ := by
  have e : (h + 1) % 256 = h + 1 := Nat.mod_eq_of_lt (by have := hf.2.2.1; omega)
  simp [update_time_stamp, hh, u8, e]

theorem stamp_day (c : Config) (hf : c.timeFit) (y mo d : Nat) (hd : d < c.DAY_MAX) :
    update_time_stamp c ⟨y, mo, d, c.HOUR_MAX, c.MINUTE_MAX, c.SECOND_MAX⟩ =
      ⟨y, mo, d + 1, 0, 0, 0⟩ := by
  have e : (d + 1) % 256 = d + 1 := Nat.mod_eq_of_lt (by have := hf.2.2.2.1; omega)
  simp [update_time_stamp, hd, u8, e]

theorem stamp_roll (c : Config) (y mo : Nat) :
    (update_time_stamp c ⟨y, mo, c.DAY_MAX, c.HOUR_MAX, c.MINUTE_MAX, c.SECOND_MAX⟩).day = 1 ∧
    (update_time_stamp c ⟨y, mo, c.DAY_MAX, c.HOUR_MAX, c.MINUTE_MAX, c.SECOND_MAX⟩).hour = 0 ∧
    (update_time_stamp c ⟨y, mo, c.DAY_MAX, c.HOUR_MAX, c.MINUTE_MAX, c.SECOND_MAX⟩).min = 0 ∧
    (update_time_stamp c ⟨y, mo, c.DAY_MAX, c.HOUR_MAX, c.MINUTE_MAX, c.SECOND_MAX⟩).sec = 0 := by
  simp only [update_time_stamp, lt_self_iff_false, if_false]
  split_ifs <;> exact ⟨rfl, rfl, rfl, rfl⟩

theorem sec_run (c : Config) (hf : c.timeFit) (y mo d h m s k : Nat)
    (hk : s + k ≤ c.SECOND_MAX) :
    (update_time_stamp c)^[k] ⟨y, mo, d, h, m, s⟩ = ⟨y, mo, d, h, m, s + k⟩ := by
  induction k with
  | zero => rfl
  | succ k ih =>
    rw [Function.iterate_succ_apply', ih (by omega), stamp_sec c hf _ _ _ _ _ _ (by omega)]
    rfl

theorem min_step (c : Config) (hf : c.timeFit) (y mo d h m : Nat) (hm : m < c.MINUTE_MAX) :
    (update_time_stamp c)^[c.SECOND_MAX + 1] ⟨y, mo, d, h, m, 0⟩ = ⟨y, mo, d, h, m + 1, 0⟩ := by
  rw [Function.iterate_succ_apply', sec_run c hf _ _ _ _ _ 0 _ (by omega), Nat.zero_add,
    stamp_min c hf _ _ _ _ _ hm]

theorem min_run (c : Config) (hf : c.timeFit) (y mo d h m k : Nat)
    (hk : m + k ≤ c.MINUTE_MAX) :
    (update_time_stamp c)^[k * (c.SECOND_MAX + 1)] ⟨y, mo, d, h, m, 0⟩ =
      ⟨y, mo, d, h, m + k, 0⟩ := by
  induction k with
  | zero => rw [Nat.zero_mul]; rfl
  | succ k ih =>
    rw [Nat.succ_mul, Nat.add_comm, Function.iterate_add_apply, ih (by omega),
      min_step c hf _ _ _ _ _ (by omega)]
    rfl

theorem hour_step (c : Config) (hf : c.timeFit) (y mo d h : Nat) (hh : h < c.HOUR_MAX) :
    (update_time_stamp c)^[(c.MINUTE_MAX + 1) * (c.SECOND_MAX + 1)] ⟨y, mo, d, h, 0, 0⟩ =
      ⟨y, mo, d, h + 1, 0, 0⟩ := by
  rw [Nat.succ_mul, Nat.add_comm, Function.iterate_add_apply,
    min_run c hf _ _ _ _ 0 _ (by omega), Nat.zero_add, Function.iterate_succ_apply',
    sec_run c hf _ _ _ _ _ 0 _ (by omega), Nat.zero_add, stamp_hour c hf _ _ _ _ hh]

theorem hour_run (c : Config) (hf : c.timeFit) (y mo d h k : Nat) (hk : h + k ≤ c.HOUR_MAX) :
    (update_time_stamp c)^[k * ((c.MINUTE_MAX + 1) * (c.SECOND_MAX + 1))] ⟨y, mo, d, h, 0, 0⟩ =
      ⟨y, mo, d, h + k, 0, 0⟩ := by
  induction k with
  | zero => rw [Nat.zero_mul]; rfl
  | succ k ih =>
    rw [Nat.succ_mul, Nat.add_comm, Function.iterate_add_apply, ih (by omega),
      hour_step c hf _ _ _ _ (by omega)]
    rfl

theorem stamp_progress (c : Config) (hf : c.timeFit) (y mo d b m s : Nat)
    (hb : b ≤ c.HOUR_MAX) (hm : m ≤ c.MINUTE_MAX) (hs : s ≤ c.SECOND_MAX) :
    (update_time_stamp c)^[s + (m * (c.SECOND_MAX + 1) +
        b * ((c.MINUTE_MAX + 1) * (c.SECOND_MAX + 1)))] ⟨y, mo, d, 0, 0, 0⟩ =
      ⟨y, mo, d, b, m, s⟩ := by
  rw [Function.iterate_add_apply, Function.iterate_add_apply,
    hour_run c hf _ _ _ 0 _ (by omega), Nat.zero_add,
    min_run c hf _ _ _ _ 0 _ (by omega), Nat.zero_add,
    sec_run c hf _ _ _ _ _ 0 _ (by omega), Nat.zero_add]

theorem day_step (c : Config) (hf : c.timeFit) (y mo d : Nat) (hd : d < c.DAY_MAX) :
    (update_time_stamp c)^[(c.HOUR_MAX + 1) * ((c.MINUTE_MAX + 1) * (c.SECOND_MAX + 1))]
        ⟨y, mo, d, 0, 0, 0⟩ = ⟨y, mo, d + 1, 0, 0, 0⟩ := by
  have e : (c.HOUR_MAX + 1) * ((c.MINUTE_MAX + 1) * (c.SECOND_MAX + 1)) =
      (c.SECOND_MAX + (c.MINUTE_MAX * (c.SECOND_MAX + 1) +
        c.HOUR_MAX * ((c.MINUTE_MAX + 1) * (c.SECOND_MAX + 1)))).succ := by
    rw [Nat.succ_mul c.HOUR_MAX, Nat.succ_mul c.MINUTE_MAX]
    omega
  rw [e, Function.iterate_succ_apply',
    stamp_progress c hf _ _ _ _ _ _ (le_refl _) (le_refl _) (le_refl _),
    stamp_day c hf _ _ _ hd]

theorem day_run (c : Config) (hf : c.timeFit) (y mo d k : Nat) (hk : d + k ≤ c.DAY_MAX) :
    (update_time_stamp c)^[k * ((c.HOUR_MAX + 1) * ((c.MINUTE_MAX + 1) * (c.SECOND_MAX + 1)))]
        ⟨y, mo, d, 0, 0, 0⟩ = ⟨y, mo, d + k, 0, 0, 0⟩ := by
  induction k with
  | zero => rw [Nat.zero_mul]; rfl
  | succ k ih =>
    rw [Nat.succ_mul, Nat.add_comm, Function.iterate_add_apply, ih (by omega),
      day_step c hf _ _ _ (by omega)]
    rfl

theorem stamp_progress_days (c : Config) (hf : c.timeFit) (y mo d a b m s : Nat)
    (ha : d + a ≤ c.DAY_MAX) (hb : b ≤ c.HOUR_MAX) (hm : m ≤ c.MINUTE_MAX)
    (hs : s ≤ c.SECOND_MAX) :
    (update_time_stamp c)^[s + (m * (c.SECOND_MAX + 1) +
        b * ((c.MINUTE_MAX + 1) * (c.SECOND_MAX + 1))) +
        a * ((c.HOUR_MAX + 1) * ((c.MINUTE_MAX + 1) * (c.SECOND_MAX + 1)))]
        ⟨y, mo, d, 0, 0, 0⟩ = ⟨y, mo, d + a, b, m, s⟩ := by
  rw [Function.iterate_add_apply, day_run c hf _ _ _ _ ha,
    stamp_progress c hf _ _ _ _ _ _ hb hm hs]

theorem stamp_period (c : Config) (hf : c.timeFit) (y mo : Nat) :
    ((update_time_stamp c)^[c.DAY_MAX * (c.HOUR_MAX + 1) * (c.MINUTE_MAX + 1) *
        (c.SECOND_MAX + 1)] ⟨y, mo, 1, 0, 0, 0⟩).day = 1 ∧
    ((update_time_stamp c)^[c.DAY_MAX * (c.HOUR_MAX + 1) * (c.MINUTE_MAX + 1) *
        (c.SECOND_MAX + 1)] ⟨y, mo, 1, 0, 0, 0⟩).hour = 0 ∧
    ((update_time_stamp c)^[c.DAY_MAX * (c.HOUR_MAX + 1) * (c.MINUTE_MAX + 1) *
        (c.SECOND_MAX + 1)] ⟨y, mo, 1, 0, 0, 0⟩).min = 0 ∧
    ((update_time_stamp c)^[c.DAY_MAX * (c.HOUR_MAX + 1) * (c.MINUTE_MAX + 1) *
        (c.SECOND_MAX + 1)] ⟨y, mo, 1, 0, 0, 0⟩).sec = 0 := by
  rcases Nat.eq_zero_or_pos c.DAY_MAX with h0 | hpos
  · rw [h0, Nat.zero_mul, Nat.zero_mul, Nat.zero_mul]
    exact ⟨rfl, rfl, rfl, rfl⟩
  · have e : c.DAY_MAX * (c.HOUR_MAX + 1) * (c.MINUTE_MAX + 1) * (c.SECOND_MAX + 1) =
        (c.SECOND_MAX + (c.MINUTE_MAX * (c.SECOND_MAX + 1) +
          c.HOUR_MAX * ((c.MINUTE_MAX + 1) * (c.SECOND_MAX + 1))) +
          (c.DAY_MAX - 1) *
            ((c.HOUR_MAX + 1) * ((c.MINUTE_MAX + 1) * (c.SECOND_MAX + 1)))).succ := by
      obtain ⟨k, hk⟩ : ∃ k, c.DAY_MAX = k + 1 := ⟨c.DAY_MAX - 1, by omega⟩
      rw [hk, Nat.add_sub_cancel, Nat.mul_assoc, Nat.mul_assoc, Nat.succ_mul k,
        Nat.succ_mul c.HOUR_MAX, Nat.succ_mul c.MINUTE_MAX]
      omega
    have e1 : 1 + (c.DAY_MAX - 1) = c.DAY_MAX := by omega
    rw [e, Function.iterate_succ_apply',
      stamp_progress_days c hf y mo 1 (c.DAY_MAX - 1) _ _ _ (by omega) (le_refl _)
        (le_refl _) (le_refl _), e1]
    exact stamp_roll c y mo

theorem stamp_first_return (c : Config) (hf : c.timeFit) (y mo n : Nat) (h0 : 0 < n)
    (hn : n < c.DAY_MAX * (c.HOUR_MAX + 1) * (c.MINUTE_MAX + 1) * (c.SECOND_MAX + 1)) :
    ¬ (((update_time_stamp c)^[n] ⟨y, mo, 1, 0, 0, 0⟩).day = 1 ∧
      ((update_time_stamp c)^[n] ⟨y, mo, 1, 0, 0, 0⟩).hour = 0 ∧
      ((update_time_stamp c)^[n] ⟨y, mo, 1, 0, 0, 0⟩).min = 0 ∧
      ((update_time_stamp c)^[n] ⟨y, mo, 1, 0, 0, 0⟩).sec = 0) := by
  have hP1 : 0 < c.SECOND_MAX + 1 := Nat.succ_pos _
  have hP2 : 0 < (c.MINUTE_MAX + 1) * (c.SECOND_MAX + 1) := Nat.mul_pos (Nat.succ_pos _) hP1
  have ha : n / ((c.HOUR_MAX + 1) * ((c.MINUTE_MAX + 1) * (c.SECOND_MAX + 1))) < c.DAY_MAX := by
    apply Nat.div_lt_of_lt_mul
    rw [Nat.mul_comm, ← Nat.mul_assoc, ← Nat.mul_assoc]
    exact hn
  have hb : n % ((c.HOUR_MAX + 1) * ((c.MINUTE_MAX + 1) * (c.SECOND_MAX + 1))) /
      ((c.MINUTE_MAX + 1) * (c.SECOND_MAX + 1)) < c.HOUR_MAX + 1 := by
    exact Nat.div_lt_of_lt_mul
      (lt_of_lt_of_eq (Nat.mod_lt _ (Nat.mul_pos (Nat.succ_pos _) hP2)) (Nat.mul_comm _ _))
  have hm : n % ((c.HOUR_MAX + 1) * ((c.MINUTE_MAX + 1) * (c.SECOND_MAX + 1))) %
      ((c.MINUTE_MAX + 1) * (c.SECOND_MAX + 1)) / (c.SECOND_MAX + 1) < c.MINUTE_MAX + 1 := by
    exact Nat.div_lt_of_lt_mul (lt_of_lt_of_eq (Nat.mod_lt _ hP2) (Nat.mul_comm _ _))
  have hs : n % ((c.HOUR_MAX + 1) * ((c.MINUTE_MAX + 1) * (c.SECOND_MAX + 1))) %
      ((c.MINUTE_MAX + 1) * (c.SECOND_MAX + 1)) % (c.SECOND_MAX + 1) < c.SECOND_MAX + 1 :=
    Nat.mod_lt _ hP1
  have d3 := Nat.div_add_mod n ((c.HOUR_MAX + 1) * ((c.MINUTE_MAX + 1) * (c.SECOND_MAX + 1)))
  have d2 := Nat.div_add_mod
    (n % ((c.HOUR_MAX + 1) * ((c.MINUTE_MAX + 1) * (c.SECOND_MAX + 1))))
    ((c.MINUTE_MAX + 1) * (c.SECOND_MAX + 1))
  have d1 := Nat.div_add_mod
    (n % ((c.HOUR_MAX + 1) * ((c.MINUTE_MAX + 1) * (c.SECOND_MAX + 1))) %
      ((c.MINUTE_MAX + 1) * (c.SECOND_MAX + 1))) (c.SECOND_MAX + 1)
  generalize n / ((c.HOUR_MAX + 1) * ((c.MINUTE_MAX + 1) * (c.SECOND_MAX + 1))) = a at ha d3
  generalize n % ((c.HOUR_MAX + 1) * ((c.MINUTE_MAX + 1) * (c.SECOND_MAX + 1))) = r3
    at hb hm hs d3 d2 d1
  generalize r3 / ((c.MINUTE_MAX + 1) * (c.SECOND_MAX + 1)) = b at hb d2
  generalize r3 % ((c.MINUTE_MAX + 1) * (c.SECOND_MAX + 1)) = r2 at hm hs d2 d1
  generalize r2 / (c.SECOND_MAX + 1) = m at hm d1
  generalize r2 % (c.SECOND_MAX + 1) = s at hs d1
  have en : n = s + (m * (c.SECOND_MAX + 1) +
      b * ((c.MINUTE_MAX + 1) * (c.SECOND_MAX + 1))) +
      a * ((c.HOUR_MAX + 1) * ((c.MINUTE_MAX + 1) * (c.SECOND_MAX + 1))) := by
    rw [Nat.mul_comm m, Nat.mul_comm b, Nat.mul_comm a]
    omega
  rw [en, stamp_progress_days c hf y mo 1 a b m s (by omega) (by omega) (by omega) (by omega)]
  rintro ⟨h1, h2, h3, h4⟩
  simp only at h1 h2 h3 h4
  have a0 : a = 0 := by omega
  rw [a0, h2, h3, h4] at en
  simp only [Nat.zero_mul, Nat.add_zero] at en
  omega

/-! ## The time stamp in executions -/

theorem update_time_stamp_valid (c : Config) (hfit : c.timeFit) (t : prf_date_time_t)
    (h : validStamp c t) : validStamp c (update_time_stamp c t) := by
  obtain ⟨f1, f2, f3, f4, f5, f6⟩ := hfit
  unfold validStamp at h ⊢
  unfold update_time_stamp
  simp only [u8, u16]
  split_ifs <;> simp <;> omega

theorem blp_char_notification_time_stamp (c : Config) (s : State) :
    (blp_char_notification c s).time_stamp = s.time_stamp := by
  unfold blp_char_notification
  by_cases hu : s.units = true <;> simp [hu, blp_sensor_send_notification, blp_value_update]

theorem blp_char_indication_time_stamp (c : Config) (s : State) :
    (blp_char_indication c s).time_stamp = s.time_stamp := by
  unfold blp_char_indication
  by_cases hu : s.units = true <;> simp [hu, blp_sensor_send_indication, blp_value_update]

theorem update_time_stamp_field (c : Config) (s : State) :
    (update_blp_sensor_value c s).time_stamp = s.time_stamp := by
  rw [update_eq]
  split_ifs <;>
    simp [blp_char_notification_time_stamp, blp_char_indication_time_stamp, blp_disconnection]

theorem step_time_stamp (c : Config) (e : Event) (s : State) :
    (step c e s).time_stamp =
      if e = tick then update_time_stamp c s.time_stamp else s.time_stamp := by
  cases e with
  | connected => simp [step, app_connected_state_handler, tick]
  | disconnected => simp [step, app_disconnected_state_handler, blp_sensor_adv, tick]
  | notification_confirmed st =>
    by_cases h : st = at_ble_status_t.AT_BLE_SUCCESS <;>
      simp [step, app_notification_confirmation_handler, h, tick]
  | indication_confirmed st =>
    by_cases h : st = at_ble_status_t.AT_BLE_SUCCESS <;>
      simp [step, app_indication_confirmation_handler, h, tick]
  | notification_handler en => cases en <;> simp [step, app_notification_handler, tick]
  | indication_handler en =>
    cases en
    · simp [step, app_indication_handler, tick]
    · by_cases hu : s.units = true <;>
        simp [step, app_indication_handler, blp_sensor_send_indication, hu, tick]
  | custom_event id =>
    by_cases h1 : id = APP_TIMER_EVENT_ID
    · subst h1
      simp only [step, custom_event_timer, update_time_stamp_field, tick, if_true]
    · have hne : Event.custom_event id ≠ tick := by
        simp [tick, h1]
      rw [if_neg hne]
      by_cases h2 : id = APP_BUTTON_EVENT_ID
      · subst h2
        simp only [step]
        cases hc : s.app_state
        · rw [custom_event_button_disconnected c s hc]
        · cases hr : s.user_request_flag
          · by_cases hf : s.indication_flag = true ∨ s.notification_flag = true
            · rw [custom_event_button_fresh c s hc hr hf, update_time_stamp_field]
            · have hi : s.indication_flag = false := by
                cases h : s.indication_flag
                · rfl
                · exact absurd (Or.inl h) hf
              have hn : s.notification_flag = false := by
                cases h : s.notification_flag
                · rfl
                · exact absurd (Or.inr h) hf
              rw [custom_event_button_idle c s hc hr hi hn, update_time_stamp_field]
          · rw [custom_event_button_active c s hc hr, update_time_stamp_field]
      · simp only [step]
        rw [custom_event_other c id s h1 h2]

theorem run_time_stamp_valid (c : Config) (hfit : c.timeFit) (es : List Event) :
    ∀ s : State, validStamp c s.time_stamp → validStamp c (run c s es).time_stamp := by
  induction es with
  | nil => intro s h; exact h
  | cons e es ih =>
    intro s h
    rw [run_cons]
    apply ih
    rw [step_time_stamp]
    split_ifs
    · exact update_time_stamp_valid c hfit _ h
    · exact h

/-! ## The notification, characterised -/

theorem blp_char_notification_payload (c : Config) (s : State) :
    (blp_char_notification c s).log = s.log ++
      [Out.notification
        (notification_flags c s.units ::
          (le16 (interim_systolic s.units s) ++ [0, 0, 0, 0] ++
            [u8 (if s.units = true then c.USERID_1 else c.USERID_2)]))] := by
  unfold blp_char_notification notification_flags interim_systolic
  cases hu : s.units <;> simp [blp_sensor_send_notification, blp_value_update]

theorem update_notification_emitted (c : Config) (s : State) (d : List Nat)
    (h : Out.notification d ∈ emitted s (update_blp_sensor_value c s)) :
    update_blp_sensor_value c s = { blp_char_notification c s with notify := false } ∧
    (blp_char_notification c s).log = s.log ++ [Out.notification d] := by
  obtain ⟨d1, h1⟩ := blp_char_notification_log c s
  obtain ⟨d2, h2⟩ := blp_char_indication_log c s
  rw [update_eq] at h ⊢
  split_ifs at h ⊢ with c1 c2 c3 c4
  · refine ⟨rfl, ?_⟩
    simp [emitted, h1] at h
    rw [h1, h]
  · simp [emitted] at h
  · simp [emitted, h2] at h
  · simp [emitted, blp_disconnection] at h
  · simp [emitted] at h

theorem notification_flags_eq (c : Config) (units : Bool)
    (hm : c.unitsBitZero) (hfit : c.masksFit) :
    notification_flags c units =
      (if units = true then 0 else 1) ||| c.BLOOD_PRESSURE_USERID_FLAG_MASK := by
  obtain ⟨m1, _, _, _, _⟩ := hm
  obtain ⟨_, _, g3, _⟩ := hfit
  have e1 : u8 (u8 ((0 : Nat) ||| (1 &&& cNot 1)) &&& 1) = 0 := by decide
  have e2 : u8 (u8 ((0 : Nat) ||| (1 ||| 1)) &&& 1) = 1 := by decide
  unfold notification_flags
  cases units
  · simp only [Bool.false_eq_true, if_false, m1, e2]
    exact (u8_or 1 _ (by decide) g3).1
  · simp only [if_true, m1, e1]
    exact (u8_or 0 _ (by decide) g3).1

theorem blp_value_bounds_interim (c : Config) (hd : c.enumDistinct) (u : Bool) :
    blp_value_bounds c (if u = true then c.INTERIM_SYS_MMHG else c.INTERIM_SYS_KPA) =
      (u8 (interim_min c u), u8 (interim_max c u)) := by
  have h1 := hd.1
  simp only [List.nodup_cons, List.mem_cons, List.mem_singleton, not_or, List.not_mem_nil,
    not_false_eq_true, List.nodup_nil, and_true] at h1
  obtain ⟨⟨a1, a2, a3, a4, a5, a6, a7, a8⟩, ⟨b2, b3, b4, b5, b6, b7, b8⟩,
    ⟨c3, c4, c5, c6, c7, c8⟩, ⟨d4, d5, d6, d7, d8⟩, ⟨e5, e6, e7, e8⟩, ⟨f6, f7, f8⟩,
    ⟨g7, g8⟩, h8⟩ := h1
  cases u <;>
    simp [blp_value_bounds, interim_min, interim_max,
      Ne.symm a7, Ne.symm a8, Ne.symm b7, Ne.symm b8, Ne.symm c7, Ne.symm c8,
      Ne.symm d7, Ne.symm d8, Ne.symm e7, Ne.symm e8, Ne.symm f7, Ne.symm f8,
      Ne.symm g7, Ne.symm g8, Ne.symm h8]

/-- The state that `blp_char_notification` leaves: the direction entry of the
interim systolic value is set from the value, and then added to it. -/
theorem blp_char_notification_eq (c : Config) (s : State) :
    ∃ l, blp_char_notification c s =
      (if s.units = true then
        { s with
          operator := (blp_value_update c s.interim_systolic_mmhg c.INTERIM_SYS_MMHG s).operator
          interim_systolic_mmhg := u16i (s.interim_systolic_mmhg +
            (blp_value_update c s.interim_systolic_mmhg c.INTERIM_SYS_MMHG s).operator.getD 7 0)
          log := l }
      else
        { s with
          operator := (blp_value_update c s.interim_systolic_kpa c.INTERIM_SYS_KPA s).operator
          interim_systolic_kpa := u16i (s.interim_systolic_kpa +
            (blp_value_update c s.interim_systolic_kpa c.INTERIM_SYS_KPA s).operator.getD 8 0)
          log := l }) := by
  cases s with
  | mk a1 a2 a3 units a5 a6 a7 a8 a9 a10 a11 a12 a13 a14 a15 a16 a17 a18 a19 a20 a21 a22 a23
      a24 a25 =>
    cases units
    · exact ⟨_, rfl⟩
    · exact ⟨_, rfl⟩

theorem blp_value_update_operator (c : Config) (v t : Nat) (s : State) :
    (blp_value_update c v t s).operator =
      if v ≥ (blp_value_bounds c t).2 then s.operator.set t (-1)
      else if v ≤ (blp_value_bounds c t).1 then s.operator.set t 1
      else s.operator := rfl

theorem blp_value_update_getD_ne (c : Config) (v t i : Nat) (s : State) (h : t ≠ i) :
    (blp_value_update c v t s).operator.getD i 0 = s.operator.getD i 0 := by
  rw [blp_value_update_operator]
  split_ifs
  · exact getD_set_ne _ _ _ _ _ h
  · exact getD_set_ne _ _ _ _ _ h
  · rfl

theorem blp_value_update_length (c : Config) (v t : Nat) (s : State) :
    (blp_value_update c v t s).operator.length = s.operator.length := by
  rw [blp_value_update_operator]
  split_ifs <;> simp

/-- The step that `blp_char_notification` makes on the interim systolic value
of the active unit system. -/
theorem blp_char_notification_step (c : Config) (hd : c.enumDistinct) (hi : c.interimIndex)
    (s : State) (hl : s.operator.length = 9) :
    interim_direction s.units (blp_char_notification c s) =
      (if interim_systolic s.units s ≥ u8 (interim_max c s.units) then -1
      else if interim_systolic s.units s ≤ u8 (interim_min c s.units) then 1
      else interim_direction s.units s) ∧
    interim_systolic s.units (blp_char_notification c s) =
      u16i (interim_systolic s.units s +
        interim_direction s.units (blp_char_notification c s)) ∧
    interim_systolic (!s.units) (blp_char_notification c s) = interim_systolic (!s.units) s ∧
    interim_direction (!s.units) (blp_char_notification c s) =
      interim_direction (!s.units) s := by
  obtain ⟨i7, i8⟩ := hi
  obtain ⟨l, h⟩ := blp_char_notification_eq c s
  have b1 := blp_value_bounds_interim c hd true
  have b2 := blp_value_bounds_interim c hd false
  simp only [if_true, Bool.false_eq_true, if_false] at b1 b2
  rw [h]
  cases hu : s.units
  · simp only [Bool.false_eq_true, if_false, interim_direction, interim_systolic,
      interim_index, Bool.not_false, if_true, blp_value_update_operator, b2]
    rw [i8]
    refine ⟨?_, trivial, trivial, ?_⟩
    · split_ifs
      · exact getD_set_same _ _ _ _ (by omega)
      · exact getD_set_same _ _ _ _ (by omega)
      · rfl
    · split_ifs
      · exact getD_set_ne _ 8 7 _ _ (by decide)
      · exact getD_set_ne _ 8 7 _ _ (by decide)
      · rfl
  · simp only [if_true, interim_direction, interim_systolic,
      interim_index, Bool.not_true, Bool.false_eq_true, if_false, blp_value_update_operator,
      b1]
    rw [i7]
    refine ⟨?_, trivial, trivial, ?_⟩
    · split_ifs
      · exact getD_set_same _ _ _ _ (by omega)
      · exact getD_set_same _ _ _ _ (by omega)
      · rfl
    · split_ifs
      · exact getD_set_ne _ 7 8 _ _ (by decide)
      · exact getD_set_ne _ 7 8 _ _ (by decide)
      · rfl

/-! ## The notification gate -/

theorem update_notify_field (c : Config) (s : State) :
    (update_blp_sensor_value c s).notify =
      if s.user_request_flag = true ∧ s.timer_count < c.INDICATION_TIMER_VAL ∧
          s.notification_flag = true ∧ s.notify = true then false
      else s.notify := by
  rw [update_eq]
  split_ifs <;> simp [blp_disconnection]

/-- The per-tick update sends at most one notification, clears `notify` when
it sends one, and sends none when `notify` is clear. -/
theorem update_gate (c : Config) (s : State) :
    (kinds s (update_blp_sensor_value c s)).count Kind.notification ≤ 1 ∧
    (Kind.notification ∈ kinds s (update_blp_sensor_value c s) →
      (update_blp_sensor_value c s).notify = false) ∧
    (s.notify = false → (update_blp_sensor_value c s).notify = false ∧
      Kind.notification ∉ kinds s (update_blp_sensor_value c s)) := by
  rw [update_kinds, update_notify_field]
  refine ⟨?_, ?_, ?_⟩
  · split_ifs <;> decide
  · intro h
    by_cases c1 : s.user_request_flag = true ∧ s.timer_count < c.INDICATION_TIMER_VAL ∧
        s.notification_flag = true ∧ s.notify = true
    · rw [if_pos c1]
    · have c2 : ¬ (s.user_request_flag = true ∧ s.timer_count < c.INDICATION_TIMER_VAL ∧
          s.notification_flag = true ∧ s.notify = true ∧ s.notification_sent = true) :=
        fun hh => c1 ⟨hh.1, hh.2.1, hh.2.2.1, hh.2.2.2.1⟩
      rw [if_neg c2] at h
      split_ifs at h <;> simp at h
  · intro h
    simp [h]
    split_ifs <;> simp

theorem custom_event_shape_notify (c : Config) (id : Nat) (s : State) :
    (blp_sensor_app_custom_event c id s).2 = s ∨
    ∃ u : State, u.log = s.log ∧
      ((id ≠ APP_TIMER_EVENT_ID ∨ s.user_request_flag = false) → u.notify = s.notify) ∧
      (blp_sensor_app_custom_event c id s).2 = update_blp_sensor_value c u := by
  by_cases h1 : id = APP_TIMER_EVENT_ID
  · subst h1
    right
    rw [custom_event_timer]
    refine ⟨_, ?_, ?_, rfl⟩
    · by_cases hr : s.user_request_flag = true <;> simp [hr]
    · intro h
      rcases h with h | h
      · exact absurd rfl h
      · simp [h]
  · by_cases h2 : id = APP_BUTTON_EVENT_ID
    · subst h2
      cases hc : s.app_state
      · left; rw [custom_event_button_disconnected c s hc]
      · right
        cases hr : s.user_request_flag
        · cases hi : s.indication_flag
          · cases hn : s.notification_flag
            · exact ⟨s, rfl, fun _ => rfl, by rw [custom_event_button_idle c s hc hr hi hn]⟩
            · rw [custom_event_button_fresh c s hc hr (Or.inr hn)]
              exact ⟨{ s with
                units := if s.indication_flag = true then !s.units else s.units
                user_request_flag := true
                timer_count := 0 }, rfl, fun _ => rfl, rfl⟩
          · rw [custom_event_button_fresh c s hc hr (Or.inl hi)]
            exact ⟨{ s with
                units := if s.indication_flag = true then !s.units else s.units
                user_request_flag := true
                timer_count := 0 }, rfl, fun _ => rfl, rfl⟩
        · exact ⟨s, rfl, fun _ => rfl, by rw [custom_event_button_active c s hc hr]⟩
    · left; rw [custom_event_other c id s h1 h2]

/-- One callback sends at most one notification, leaves `notify` clear when
it sends one, and, unless it is a timer tick handled while a request is
active, keeps `notify` clear and sends no notification when `notify` is
clear. -/
theorem step_gate (c : Config) (e : Event) (s : State) :
    (kinds s (step c e s)).count Kind.notification ≤ 1 ∧
    (Kind.notification ∈ kinds s (step c e s) → (step c e s).notify = false) ∧
    ((e ≠ tick ∨ s.user_request_flag = false) → s.notify = false →
      (step c e s).notify = false ∧ Kind.notification ∉ kinds s (step c e s)) := by
  cases e with
  | connected => simp [step, app_connected_state_handler, kinds, emitted]
  | disconnected =>
    simp [step, app_disconnected_state_handler, blp_sensor_adv, kinds, emitted, Out.kind]
  | notification_confirmed st =>
    by_cases h : st = at_ble_status_t.AT_BLE_SUCCESS <;>
      simp [step, app_notification_confirmation_handler, h, kinds, emitted]
  | indication_confirmed st =>
    by_cases h : st = at_ble_status_t.AT_BLE_SUCCESS <;>
      simp [step, app_indication_confirmation_handler, h, kinds, emitted]
  | notification_handler en =>
    cases en <;> simp [step, app_notification_handler, kinds, emitted]
  | indication_handler en =>
    cases en
    · simp [step, app_indication_handler, kinds, emitted]
    · by_cases hu : s.units = true <;>
        simp [step, app_indication_handler, blp_sensor_send_indication, hu, kinds, emitted,
          Out.kind]
  | custom_event id =>
    simp only [step]
    rcases custom_event_shape_notify c id s with h | ⟨u, hlog, hn, h⟩
    · rw [h, kinds_self s s rfl]
      simp
    · rw [h, ← kinds_congr_left s u _ hlog]
      obtain ⟨g1, g2, g3⟩ := update_gate c u
      refine ⟨g1, g2, ?_⟩
      intro hc hs
      apply g3
      rw [hn ?_, hs]
      rcases hc with hc | hc
      · left
        intro hid
        apply hc
        rw [hid]
        rfl
      · exact Or.inr hc

/-- While `notify` is clear and no timer tick is handled with a request
active, no notification is sent. -/
theorem run_gate_closed (c : Config) (es : List Event) :
    ∀ s : State, s.notify = false → noActiveTick c s es = true →
      (run c s es).notify = false ∧ Kind.notification ∉ kinds s (run c s es) := by
  induction es with
  | nil =>
    intro s hs _
    refine ⟨hs, ?_⟩
    rw [show run c s [] = s from rfl, kinds_self s s rfl]
    exact List.not_mem_nil _
  | cons e es ih =>
    intro s hs ha
    simp only [noActiveTick, Bool.and_eq_true, Bool.or_eq_true, decide_eq_true_eq,
      Bool.not_eq_true'] at ha
    obtain ⟨_, _, g3⟩ := step_gate c e s
    obtain ⟨k1, k2⟩ := g3 ha.1 hs
    obtain ⟨r1, r2⟩ := ih (step c e s) k1 ha.2
    rw [kinds_run_cons, run_cons]
    refine ⟨r1, ?_⟩
    rw [List.mem_append]
    rintro (h | h)
    · exact k2 h
    · exact r2 h

theorem noActiveTick_of_no_tick (c : Config) (es : List Event) (h : ∀ e ∈ es, e ≠ tick) :
    ∀ s : State, noActiveTick c s es = true := by
  induction es with
  | nil => intro s; rfl
  | cons e es ih =>
    intro s
    simp only [noActiveTick, Bool.and_eq_true, Bool.or_eq_true, decide_eq_true_eq,
      Bool.not_eq_true']
    exact ⟨Or.inl (h e (List.mem_cons_self _ _)),
      ih (fun x hx => h x (List.mem_cons_of_mem _ hx)) _⟩

/-- Callbacks other than timer ticks send at most one notification between
them, from any state. -/
theorem run_gate_no_tick (c : Config) (es : List Event) (h : ∀ e ∈ es, e ≠ tick) :
    ∀ s : State, (kinds s (run c s es)).count Kind.notification ≤ 1 := by
  induction es with
  | nil =>
    intro s
    rw [show run c s [] = s from rfl, kinds_self s s rfl]
    simp
  | cons e es ih =>
    intro s
    have hes : ∀ x ∈ es, x ≠ tick := fun x hx => h x (List.mem_cons_of_mem _ hx)
    obtain ⟨g1, g2, _⟩ := step_gate c e s
    rw [kinds_run_cons, List.count_append]
    by_cases hm : Kind.notification ∈ kinds s (step c e s)
    · have hr := (run_gate_closed c es (step c e s) (g2 hm)
        (noActiveTick_of_no_tick c es hes _)).2
      rw [List.count_eq_zero_of_not_mem hr]
      exact g1
    · rw [List.count_eq_zero_of_not_mem hm, Nat.zero_add]
      exact ih hes _

/-- From a timer tick up to the next one, at most one notification is sent. -/
theorem tick_segment_gate (c : Config) (s : State) (es : List Event)
    (h : ∀ e ∈ es, e ≠ tick) :
    (kinds s (run c s (tick :: es))).count Kind.notification ≤ 1 := by
  obtain ⟨g1, g2, _⟩ := step_gate c tick s
  rw [kinds_run_cons, List.count_append]
  by_cases hm : Kind.notification ∈ kinds s (step c tick s)
  · have hr := (run_gate_closed c es (step c tick s) (g2 hm)
      (noActiveTick_of_no_tick c es h _)).2
    rw [List.count_eq_zero_of_not_mem hr]
    exact g1
  · rw [List.count_eq_zero_of_not_mem hm, Nat.zero_add]
    exact run_gate_no_tick c es h _

/-! ## The interim values in executions -/

theorem interim_step_bounded (lo hi v : Nat) (d : Int) (h1 : lo < hi) (h2 : hi < 256)
    (hv1 : lo ≤ v) (hv2 : v ≤ hi) (hd : d = 1 ∨ d = -1) :
    lo ≤ u16i (v + (if v ≥ hi then -1 else if v ≤ lo then 1 else d)) ∧
    u16i (v + (if v ≥ hi then -1 else if v ≤ lo then 1 else d)) ≤ hi ∧
    ((if v ≥ hi then (-1 : Int) else if v ≤ lo then 1 else d) = 1 ∨
      (if v ≥ hi then (-1 : Int) else if v ≤ lo then 1 else d) = -1) := by
  unfold u16i
  split_ifs <;> rcases hd with hd | hd <;> subst hd <;> omega

theorem interim_bounds_fit (c : Config) (hb : c.boundsFit) (ho : c.boundsOrdered) (u : Bool) :
    interim_min c u < interim_max c u ∧ interim_max c u < 256 := by
  unfold interim_min interim_max
  cases u
  · exact ⟨ho Metric.SYSTOLIC_KPA, (hb Metric.SYSTOLIC_KPA).2⟩
  · exact ⟨ho Metric.SYSTOLIC_MMHG, (hb Metric.SYSTOLIC_MMHG).2⟩

/-- The property `interimInBounds` depends on the interim values, on the
length of `operator` and on its entries 7 and 8 only. -/
theorem interimInBounds_congr (c : Config) (s t : State)
    (hl : t.operator.length = s.operator.length)
    (h7 : t.operator.getD 7 0 = s.operator.getD 7 0)
    (h8 : t.operator.getD 8 0 = s.operator.getD 8 0)
    (e1 : t.interim_systolic_mmhg = s.interim_systolic_mmhg)
    (e2 : t.interim_systolic_kpa = s.interim_systolic_kpa)
    (e3 : t.interim_diastolic_mmhg = s.interim_diastolic_mmhg)
    (e4 : t.interim_diastolic_kpa = s.interim_diastolic_kpa)
    (e5 : t.interim_map_mmhg = s.interim_map_mmhg)
    (e6 : t.interim_map_kpa = s.interim_map_kpa)
    (h : interimInBounds c s) : interimInBounds c t := by
  unfold interimInBounds interim_systolic interim_direction interim_index at h ⊢
  obtain ⟨a, b, r⟩ := h
  rw [hl, e3, e4, e5, e6]
  refine ⟨a, ?_, r⟩
  intro u
  have bu := b u
  cases u
  · simp only [Bool.false_eq_true, if_false] at bu ⊢
    rw [e2, h8]
    exact bu
  · simp only [if_true] at bu ⊢
    rw [e1, h7]
    exact bu

theorem foldl_advance_getD (c : Config) (i : Nat) (l : List Metric)
    (h : ∀ m ∈ l, m.value_type c ≠ i) (s : State) :
    (l.foldl (fun st m => advance_value c m st) s).operator.getD i 0 =
      s.operator.getD i 0 := by
  induction l generalizing s with
  | nil => rfl
  | cons m l ih =>
    rw [List.foldl_cons, ih (fun x hx => h x (List.mem_cons_of_mem _ hx)),
      advance_value_operator]
    have hm := h m (List.mem_cons_self _ _)
    split_ifs
    · exact getD_set_ne _ _ _ _ _ hm
    · exact getD_set_ne _ _ _ _ _ hm
    · rfl

theorem blp_char_indication_getD (c : Config) (i : Nat) (s : State)
    (h : ∀ m ∈ activeMetrics s.units, m.value_type c ≠ i) :
    (blp_char_indication c s).operator.getD i 0 = s.operator.getD i 0 := by
  obtain ⟨d, hd⟩ := blp_char_indication_eq_advance c s
  rw [hd]
  exact foldl_advance_getD c i _ h s

theorem value_type_ne_interim (c : Config) (hd : c.enumDistinct) (hi : c.interimIndex)
    (m : Metric) : m.value_type c ≠ 7 ∧ m.value_type c ≠ 8 := by
  have h1 := hd.1
  simp only [List.nodup_cons, List.mem_cons, List.mem_singleton, not_or, List.not_mem_nil,
    not_false_eq_true, List.nodup_nil, and_true] at h1
  obtain ⟨⟨_, _, _, _, _, _, a7, a8⟩, ⟨_, _, _, _, _, b7, b8⟩,
    ⟨_, _, _, _, c7, c8⟩, ⟨_, _, _, d7, d8⟩, ⟨_, _, e7, e8⟩, ⟨_, f7, f8⟩,
    ⟨g7, g8⟩, _⟩ := h1
  rw [hi.1] at a7 b7 c7 d7 e7 f7 g7
  rw [hi.2] at a8 b8 c8 d8 e8 f8 g8
  cases m <;> exact ⟨by assumption, by assumption⟩

/-- The fields other than the seven values, `operator` and `log` that
`blp_char_indication` leaves as they are. -/
theorem blp_char_indication_interim (c : Config) (s : State) :
    (blp_char_indication c s).interim_systolic_mmhg = s.interim_systolic_mmhg ∧
    (blp_char_indication c s).interim_systolic_kpa = s.interim_systolic_kpa ∧
    (blp_char_indication c s).interim_diastolic_mmhg = s.interim_diastolic_mmhg ∧
    (blp_char_indication c s).interim_diastolic_kpa = s.interim_diastolic_kpa ∧
    (blp_char_indication c s).interim_map_mmhg = s.interim_map_mmhg ∧
    (blp_char_indication c s).interim_map_kpa = s.interim_map_kpa := by
  cases s with
  | mk a1 a2 a3 units a5 a6 a7 a8 a9 a10 a11 a12 a13 a14 a15 a16 a17 a18 a19 a20 a21 a22 a23
      a24 a25 =>
    cases units
    · exact ⟨rfl, rfl, rfl, rfl, rfl, rfl⟩
    · exact ⟨rfl, rfl, rfl, rfl, rfl, rfl⟩

theorem indication_interimInBounds (c : Config) (hd : c.enumDistinct) (hi : c.interimIndex)
    (s : State) (h : interimInBounds c s) :
    interimInBounds c (blp_char_indication c s) := by
  obtain ⟨e1, e2, e3, e4, e5, e6⟩ := blp_char_indication_interim c s
  exact interimInBounds_congr c s _ (blp_char_indication_operator_length c s)
    (blp_char_indication_getD c 7 s (fun m _ => (value_type_ne_interim c hd hi m).1))
    (blp_char_indication_getD c 8 s (fun m _ => (value_type_ne_interim c hd hi m).2))
    e1 e2 e3 e4 e5 e6 h

/-- The fields that `blp_char_notification` leaves as they are, among those
`interimInBounds` reads. -/
theorem blp_char_notification_interim (c : Config) (s : State) :
    (blp_char_notification c s).operator.length = s.operator.length ∧
    (blp_char_notification c s).interim_diastolic_mmhg = s.interim_diastolic_mmhg ∧
    (blp_char_notification c s).interim_diastolic_kpa = s.interim_diastolic_kpa ∧
    (blp_char_notification c s).interim_map_mmhg = s.interim_map_mmhg ∧
    (blp_char_notification c s).interim_map_kpa = s.interim_map_kpa := by
  obtain ⟨l, h⟩ := blp_char_notification_eq c s
  rw [h]
  cases s.units
  · exact ⟨blp_value_update_length _ _ _ _, rfl, rfl, rfl, rfl⟩
  · exact ⟨blp_value_update_length _ _ _ _, rfl, rfl, rfl, rfl⟩

theorem notification_interimInBounds (c : Config) (hd : c.enumDistinct) (hi : c.interimIndex)
    (hb : c.boundsFit) (ho : c.boundsOrdered) (s : State) (h : interimInBounds c s) :
    interimInBounds c (blp_char_notification c s) := by
  obtain ⟨f0, f3, f4, f5, f6⟩ := blp_char_notification_interim c s
  obtain ⟨s1, s2, s3, s4⟩ := blp_char_notification_step c hd hi s h.1
  obtain ⟨hl, hu, r⟩ := h
  unfold interimInBounds
  rw [f0, f3, f4, f5, f6]
  refine ⟨hl, ?_, r⟩
  have key : ∀ u : Bool, (u = s.units ∨ u = !s.units) := by
    intro u
    cases u <;> cases s.units <;> simp
  intro u
  rcases key u with e | e
  · subst e
    obtain ⟨b1, b2⟩ := interim_bounds_fit c hb ho s.units
    have hmin : u8 (interim_min c s.units) = interim_min c s.units :=
      u8_of_lt _ (by omega)
    have hmax : u8 (interim_max c s.units) = interim_max c s.units := u8_of_lt _ b2
    rw [hmin, hmax] at s1
    rw [s2, s1]
    exact interim_step_bounded _ _ _ _ b1 b2 (hu s.units).1 (hu s.units).2.1 (hu s.units).2.2
  · subst e
    rw [s3, s4]
    exact hu _

theorem update_interimInBounds (c : Config) (hd : c.enumDistinct) (hi : c.interimIndex)
    (hb : c.boundsFit) (ho : c.boundsOrdered) (s : State) (h : interimInBounds c s) :
    interimInBounds c (update_blp_sensor_value c s) := by
  rw [update_eq]
  split_ifs
  · exact notification_interimInBounds c hd hi hb ho s h
  · exact h
  · exact indication_interimInBounds c hd hi s h
  · exact h
  · exact h

theorem custom_event_shape_interim (c : Config) (id : Nat) (s : State) :
    (blp_sensor_app_custom_event c id s).2 = s ∨
    ∃ u : State, (∀ p : Config, interimInBounds p s → interimInBounds p u) ∧
      (blp_sensor_app_custom_event c id s).2 = update_blp_sensor_value c u := by
  by_cases h1 : id = APP_TIMER_EVENT_ID
  · subst h1
    right
    rw [custom_event_timer]
    refine ⟨_, ?_, rfl⟩
    intro p hp
    by_cases hr : s.user_request_flag = true
    · simp only [hr, if_true]
      exact hp
    · simp only [hr, if_false]
      exact hp
  · by_cases h2 : id = APP_BUTTON_EVENT_ID
    · subst h2
      cases hc : s.app_state
      · left; rw [custom_event_button_disconnected c s hc]
      · right
        cases hr : s.user_request_flag
        · cases hi : s.indication_flag
          · cases hn : s.notification_flag
            · exact ⟨s, fun _ hp => hp, by rw [custom_event_button_idle c s hc hr hi hn]⟩
            · rw [custom_event_button_fresh c s hc hr (Or.inr hn)]
              exact ⟨{ s with
                units := if s.indication_flag = true then !s.units else s.units
                user_request_flag := true
                timer_count := 0 }, fun _ hp => hp, rfl⟩
          · rw [custom_event_button_fresh c s hc hr (Or.inl hi)]
            exact ⟨{ s with
                units := if s.indication_flag = true then !s.units else s.units
                user_request_flag := true
                timer_count := 0 }, fun _ hp => hp, rfl⟩
        · exact ⟨s, fun _ hp => hp, by rw [custom_event_button_active c s hc hr]⟩
    · left; rw [custom_event_other c id s h1 h2]

theorem disconnect_interimInBounds (c : Config) (hb : c.boundsFit) (ho : c.boundsOrdered)
    (s : State) (h : interimInBounds c s) :
    interimInBounds c (app_disconnected_state_handler c s) := by
  have f : ∀ m : Metric, u16 (m.min c) = m.min c ∧ m.min c ≤ m.max c := fun m =>
    ⟨Nat.mod_eq_of_lt (lt_trans (hb m).1 (by decide)), le_of_lt (ho m)⟩
  have f1 := f Metric.SYSTOLIC_MMHG
  have f2 := f Metric.SYSTOLIC_KPA
  have f3 := f Metric.DIASTOLIC_MMHG
  have f4 := f Metric.DIASTOLIC_KPA
  have f5 := f Metric.MAP_MMHG
  have f6 := f Metric.MAP_KPA
  simp only [Metric.min, Metric.max] at f1 f2 f3 f4 f5 f6
  unfold interimInBounds interim_systolic interim_direction interim_index interim_min
    interim_max at h ⊢
  obtain ⟨hl, hu, _⟩ := h
  simp only [app_disconnected_state_handler, blp_sensor_adv, f1.1, f2.1, f3.1, f4.1, f5.1,
    f6.1]
  refine ⟨hl, ?_, ⟨le_refl _, f3.2⟩, ⟨le_refl _, f4.2⟩, ⟨le_refl _, f5.2⟩, le_refl _, f6.2⟩
  intro u
  have bu := hu u
  cases u
  · simp only [Bool.false_eq_true, if_false] at bu ⊢
    exact ⟨le_refl _, f2.2, bu.2.2⟩
  · simp only [if_true] at bu ⊢
    exact ⟨le_refl _, f1.2, bu.2.2⟩

theorem step_interimInBounds (c : Config) (hd : c.enumDistinct) (hi : c.interimIndex)
    (hb : c.boundsFit) (ho : c.boundsOrdered) (e : Event) (s : State)
    (h : interimInBounds c s) : interimInBounds c (step c e s) := by
  cases e with
  | connected => exact h
  | disconnected => exact disconnect_interimInBounds c hb ho s h
  | notification_confirmed st =>
    simp only [step, app_notification_confirmation_handler]
    split_ifs <;> exact h
  | indication_confirmed st =>
    simp only [step, app_indication_confirmation_handler]
    split_ifs <;> exact h
  | notification_handler en =>
    simp only [step, app_notification_handler]
    split_ifs <;> exact h
  | indication_handler en =>
    simp only [step, app_indication_handler, blp_sensor_send_indication]
    split_ifs <;> exact h
  | custom_event id =>
    simp only [step]
    rcases custom_event_shape_interim c id s with h1 | ⟨u, hu, h1⟩
    · rw [h1]
      exact h
    · rw [h1]
      exact update_interimInBounds c hd hi hb ho u (hu c h)

theorem init_interimInBounds (c : Config) (hb : c.boundsFit) (ho : c.boundsOrdered) :
    interimInBounds c (init c) := by
  have f : ∀ m : Metric, u16 (m.min c) = m.min c ∧ m.min c ≤ m.max c := fun m =>
    ⟨Nat.mod_eq_of_lt (lt_trans (hb m).1 (by decide)), le_of_lt (ho m)⟩
  have f1 := f Metric.SYSTOLIC_MMHG
  have f2 := f Metric.SYSTOLIC_KPA
  have f3 := f Metric.DIASTOLIC_MMHG
  have f4 := f Metric.DIASTOLIC_KPA
  have f5 := f Metric.MAP_MMHG
  have f6 := f Metric.MAP_KPA
  simp only [Metric.min, Metric.max] at f1 f2 f3 f4 f5 f6
  unfold interimInBounds interim_systolic interim_direction interim_index interim_min
    interim_max
  simp only [init, f1.1, f2.1, f3.1, f4.1, f5.1, f6.1]
  refine ⟨rfl, ?_, ⟨le_refl _, f3.2⟩, ⟨le_refl _, f4.2⟩, ⟨le_refl _, f5.2⟩, le_refl _, f6.2⟩
  intro u
  cases u
  · simp only [Bool.false_eq_true, if_false]
    exact ⟨le_refl _, f2.2, Or.inl rfl⟩
  · simp only [if_true]
    exact ⟨le_refl _, f1.2, Or.inl rfl⟩

theorem run_interimInBounds (c : Config) (hd : c.enumDistinct) (hi : c.interimIndex)
    (hb : c.boundsFit) (ho : c.boundsOrdered) (es : List Event) :
    ∀ s : State, interimInBounds c s → interimInBounds c (run c s es) := by
  induction es with
  | nil => intro s h; exact h
  | cons e es ih =>
    intro s h
    rw [run_cons]
    exact ih _ (step_interimInBounds c hd hi hb ho e s h)

/-! ## Claims on the scheduler -/

/-- C1, as stated, fails. Two consecutive ticks of a request each send a
notification with no notification confirmation between them; and the
indication sent when the peer enables indications is followed, five ticks
after a button press, by the indication of the request, with no indication
confirmation between them. -/
theorem one_outstanding_send_fails :
    oneOutstanding Kind.notification isNotificationConfirmation false
        (trace sampleConfig (init sampleConfig)
          [Event.connected, Event.notification_handler true, button, tick, tick]) = false ∧
    oneOutstanding Kind.indication isIndicationConfirmation false
        (trace sampleConfig (init sampleConfig)
          [Event.connected, Event.indication_handler true, button, tick, tick, tick, tick,
            tick]) = false := by
  decide

/-- C1, amended. In every execution from the initial state, once a
notification confirmation has reported failure no notification is sent until
a notification confirmation reports success or the disconnected callback
runs; and once an indication confirmation has reported failure the custom
event callback (timer tick, button) sends no indication until an indication
confirmation reports success or the disconnected callback runs. -/
theorem no_send_after_failed_confirmation (c : Config) (es : List Event) :
    notificationSuppressed false (trace c (init c) es) = true ∧
    indicationSuppressed false false (trace c (init c) es) = true :=
  ⟨notificationSuppressed_trace c es (init c) false (by simp),
    indicationSuppressed_trace c es (init c) false false (by simp)⟩

/-- C2. Fresh button request: in a connected state with `user_request_flag`
false and at least one of `indication_flag`, `notification_flag` true, and
with `INDICATION_TIMER_VAL > 0`, the button event leaves `user_request_flag`
true and `timer_count` zero, and `units` is flipped exactly when
`indication_flag` is true. -/
theorem button_fresh_request (c : Config) (s : State)
    (hc : s.app_state = true) (hr : s.user_request_flag = false)
    (hf : s.indication_flag = true ∨ s.notification_flag = true)
    (hpos : 0 < c.INDICATION_TIMER_VAL) :
    (blp_sensor_app_custom_event c APP_BUTTON_EVENT_ID s).2.user_request_flag = true ∧
    (blp_sensor_app_custom_event c APP_BUTTON_EVENT_ID s).2.timer_count = 0 ∧
    ((blp_sensor_app_custom_event c APP_BUTTON_EVENT_ID s).2.units = (!s.units) ↔
      s.indication_flag = true) := by
  rw [custom_event_button_fresh c s hc hr hf]
  refine ⟨by simp, ?_, ?_⟩
  · rw [update_timer_count]
    have : ¬ ((0 : Nat) = c.INDICATION_TIMER_VAL) := by omega
    simp [this]
  · by_cases hi : s.indication_flag = true <;> simp [hi]

theorem button_fresh_request_witness :
    (blp_sensor_app_custom_event sampleConfig APP_BUTTON_EVENT_ID
        (run sampleConfig (init sampleConfig)
          [Event.connected, Event.notification_handler true])).2.user_request_flag = true ∧
    (blp_sensor_app_custom_event sampleConfig APP_BUTTON_EVENT_ID
        (run sampleConfig (init sampleConfig)
          [Event.connected, Event.notification_handler true])).2.timer_count = 0 ∧
    ((blp_sensor_app_custom_event sampleConfig APP_BUTTON_EVENT_ID
        (run sampleConfig (init sampleConfig)
          [Event.connected, Event.notification_handler true])).2.units =
        (!(run sampleConfig (init sampleConfig)
          [Event.connected, Event.notification_handler true]).units) ↔
      (run sampleConfig (init sampleConfig)
          [Event.connected, Event.notification_handler true]).indication_flag = true) :=
  button_fresh_request sampleConfig
    (run sampleConfig (init sampleConfig) [Event.connected, Event.notification_handler true])
    (by decide) (by decide) (Or.inr (by decide)) (by decide)

/-- C3, as stated, fails: after the peer has disabled notifications in the
middle of a request (which moves `timer_count` to the threshold), a button
press with the request already active sends the final indication and moves
`timer_count` from 5 to 6. -/
theorem button_active_not_noop :
    (run sampleConfig (init sampleConfig)
      [Event.connected, Event.indication_handler true, button,
        Event.notification_handler false]).app_state = true ∧
    (run sampleConfig (init sampleConfig)
      [Event.connected, Event.indication_handler true, button,
        Event.notification_handler false]).user_request_flag = true ∧
    (run sampleConfig (init sampleConfig)
      [Event.connected, Event.indication_handler true, button,
        Event.notification_handler false]).timer_count = 5 ∧
    (blp_sensor_app_custom_event sampleConfig APP_BUTTON_EVENT_ID
      (run sampleConfig (init sampleConfig)
        [Event.connected, Event.indication_handler true, button,
          Event.notification_handler false])).2.timer_count = 6 ∧
    kinds
      (run sampleConfig (init sampleConfig)
        [Event.connected, Event.indication_handler true, button,
          Event.notification_handler false])
      (blp_sensor_app_custom_event sampleConfig APP_BUTTON_EVENT_ID
        (run sampleConfig (init sampleConfig)
          [Event.connected, Event.indication_handler true, button,
            Event.notification_handler false])).2 = [Kind.indication] := by
  decide

/-- C3, amended. In a connected state with the request already active a
button event starts no new request: it only runs the per-tick update. It
leaves `app_state`, `user_request_flag`, `units`, both peer-enabled flags and
both acknowledged flags unchanged; and when the update has nothing due
(`timer_count` is not at the threshold with indication enabled, and not below
the threshold with notification enabled and `notify` set) the event changes
no variable at all and makes no call. -/
theorem button_active_runs_update (c : Config) (s : State)
    (hc : s.app_state = true) (hr : s.user_request_flag = true) :
    blp_sensor_app_custom_event c APP_BUTTON_EVENT_ID s =
      (at_ble_status_t.AT_BLE_SUCCESS, update_blp_sensor_value c s) ∧
    (blp_sensor_app_custom_event c APP_BUTTON_EVENT_ID s).2.app_state = s.app_state ∧
    (blp_sensor_app_custom_event c APP_BUTTON_EVENT_ID s).2.user_request_flag
      = s.user_request_flag ∧
    (blp_sensor_app_custom_event c APP_BUTTON_EVENT_ID s).2.units = s.units ∧
    (blp_sensor_app_custom_event c APP_BUTTON_EVENT_ID s).2.notification_flag
      = s.notification_flag ∧
    (blp_sensor_app_custom_event c APP_BUTTON_EVENT_ID s).2.indication_flag
      = s.indication_flag ∧
    (blp_sensor_app_custom_event c APP_BUTTON_EVENT_ID s).2.notification_sent
      = s.notification_sent ∧
    (blp_sensor_app_custom_event c APP_BUTTON_EVENT_ID s).2.indication_sent
      = s.indication_sent ∧
    (¬ (s.timer_count < c.INDICATION_TIMER_VAL ∧ s.notification_flag = true ∧
          s.notify = true) →
      ¬ (s.timer_count = c.INDICATION_TIMER_VAL ∧ s.indication_flag = true) →
      (blp_sensor_app_custom_event c APP_BUTTON_EVENT_ID s).2 = s) := by
  rw [custom_event_button_active c s hc hr]
  refine ⟨rfl, by simp, by simp, by simp, by simp, by simp, by simp, by simp, ?_⟩
  intro h1 h2
  rw [update_eq]
  simp only [hr, true_and]
  rw [if_neg h1, if_neg h2]

theorem button_active_runs_update_witness :
    (blp_sensor_app_custom_event sampleConfig APP_BUTTON_EVENT_ID
      (run sampleConfig (init sampleConfig)
        [Event.connected, Event.indication_handler true, button])).2 =
      run sampleConfig (init sampleConfig)
        [Event.connected, Event.indication_handler true, button] :=
  (button_active_runs_update sampleConfig
    (run sampleConfig (init sampleConfig)
      [Event.connected, Event.indication_handler true, button])
    (by decide) (by decide)).2.2.2.2.2.2.2.2 (by decide) (by decide)

/-- C4. Idle tick: with `user_request_flag` false the timer event returns
success, makes no call into the profile layer and changes no variable other
than `time_stamp`, which advances by one `update_time_stamp`. -/
theorem idle_tick (c : Config) (s : State) (hr : s.user_request_flag = false) :
    blp_sensor_app_custom_event c APP_TIMER_EVENT_ID s =
      (at_ble_status_t.AT_BLE_SUCCESS,
        { s with time_stamp := update_time_stamp c s.time_stamp }) := by
  rw [custom_event_timer, update_eq]
  simp [hr]

theorem idle_tick_witness :
    blp_sensor_app_custom_event sampleConfig APP_TIMER_EVENT_ID (init sampleConfig) =
      (at_ble_status_t.AT_BLE_SUCCESS,
        { init sampleConfig with
          time_stamp := update_time_stamp sampleConfig (init sampleConfig).time_stamp }) :=
  idle_tick sampleConfig (init sampleConfig) (by decide)

/-- C5. Indication step: when the per-tick update runs with
`user_request_flag` true, `timer_count` equal to `INDICATION_TIMER_VAL`
(below 255), `indication_flag` true and `indication_sent` true, it makes
exactly one call, an indication (so no disconnect), it leaves `timer_count`
at `INDICATION_TIMER_VAL + 1`, and an update repeated at once makes no call
and changes nothing. -/
theorem indication_step (c : Config) (s : State)
    (hr : s.user_request_flag = true) (ht : s.timer_count = c.INDICATION_TIMER_VAL)
    (hlt : c.INDICATION_TIMER_VAL < 255)
    (hi : s.indication_flag = true) (hs : s.indication_sent = true) :
    kinds s (update_blp_sensor_value c s) = [Kind.indication] ∧
    (update_blp_sensor_value c s).timer_count = c.INDICATION_TIMER_VAL + 1 ∧
    kinds (update_blp_sensor_value c s)
      (update_blp_sensor_value c (update_blp_sensor_value c s)) = [] ∧
    update_blp_sensor_value c (update_blp_sensor_value c s) = update_blp_sensor_value c s := by
  have htc : (update_blp_sensor_value c s).timer_count = c.INDICATION_TIMER_VAL + 1 := by
    rw [update_timer_count]
    have : (c.INDICATION_TIMER_VAL + 1) % 256 = c.INDICATION_TIMER_VAL + 1 :=
      Nat.mod_eq_of_lt (by omega)
    simp [hr, ht, hi, hs, u8, this]
  have hfix : update_blp_sensor_value c (update_blp_sensor_value c s) =
      update_blp_sensor_value c s := by
    rw [update_eq c (update_blp_sensor_value c s)]
    simp [htc]
  refine ⟨?_, htc, ?_, hfix⟩
  · rw [update_kinds]
    simp [hr, ht, hi, hs]
  · rw [hfix]
    simp [kinds, emitted]

theorem indication_step_witness :
    kinds
        (run sampleConfig (init sampleConfig)
          [Event.connected, Event.indication_handler true, button, tick, tick, tick, tick,
            Event.notification_handler false])
        (update_blp_sensor_value sampleConfig
          (run sampleConfig (init sampleConfig)
            [Event.connected, Event.indication_handler true, button, tick, tick, tick, tick,
              Event.notification_handler false])) = [Kind.indication] :=
  (indication_step sampleConfig
    (run sampleConfig (init sampleConfig)
      [Event.connected, Event.indication_handler true, button, tick, tick, tick, tick,
        Event.notification_handler false])
    (by decide) (by decide) (by decide) (by decide) (by decide)).1

/-- C6. Disconnect on failure: the per-tick update calls the disconnect
primitive if and only if `user_request_flag` is true, `timer_count` equals
`INDICATION_TIMER_VAL`, `indication_flag` is true and `indication_sent` is
false; in that case the disconnect is its only call (no indication is sent)
and no variable changes, `timer_count` included. -/
theorem disconnect_iff (c : Config) (s : State) :
    (Kind.disconnect ∈ kinds s (update_blp_sensor_value c s) ↔
      (s.user_request_flag = true ∧ s.timer_count = c.INDICATION_TIMER_VAL ∧
        s.indication_flag = true ∧ s.indication_sent = false)) ∧
    ((s.user_request_flag = true ∧ s.timer_count = c.INDICATION_TIMER_VAL ∧
        s.indication_flag = true ∧ s.indication_sent = false) →
      kinds s (update_blp_sensor_value c s) = [Kind.disconnect] ∧
      (update_blp_sensor_value c s).timer_count = s.timer_count ∧
      update_blp_sensor_value c s = { s with log := s.log ++ [Out.disconnect] }) := by
  constructor
  · rw [update_kinds]
    by_cases h1 : s.user_request_flag = true <;>
      by_cases h2 : s.timer_count < c.INDICATION_TIMER_VAL <;>
      by_cases h3 : s.timer_count = c.INDICATION_TIMER_VAL <;>
      by_cases h4 : s.indication_flag = true <;>
      by_cases h5 : s.indication_sent = true <;>
      first
        | omega
        | simp [h1, h2, h3, h4, h5]
  · rintro ⟨h1, h3, h4, h5⟩
    have h2 : ¬ (s.timer_count < c.INDICATION_TIMER_VAL) := by omega
    refine ⟨?_, ?_, ?_⟩
    · rw [update_kinds]; simp [h1, h3, h4, h5]
    · rw [update_timer_count]; simp [h5]
    · rw [update_eq]; simp [h1, h3, h4, h5, blp_disconnection]

theorem disconnect_iff_witness :
    kinds
        (run sampleConfig (init sampleConfig)
          [Event.connected, Event.indication_handler true,
            Event.indication_confirmed at_ble_status_t.AT_BLE_FAILURE, button, tick, tick,
            tick, tick, Event.notification_handler false])
        (update_blp_sensor_value sampleConfig
          (run sampleConfig (init sampleConfig)
            [Event.connected, Event.indication_handler true,
              Event.indication_confirmed at_ble_status_t.AT_BLE_FAILURE, button, tick, tick,
              tick, tick, Event.notification_handler false])) = [Kind.disconnect] :=
  ((disconnect_iff sampleConfig
    (run sampleConfig (init sampleConfig)
      [Event.connected, Event.indication_handler true,
        Event.indication_confirmed at_ble_status_t.AT_BLE_FAILURE, button, tick, tick,
        tick, tick, Event.notification_handler false])).2
    ⟨by decide, by decide, by decide, by decide⟩).1

/-- C7. Indication confirmation success: the indication confirmation handler
called with `AT_BLE_SUCCESS` sets `indication_sent` to true,
`user_request_flag` to false and `timer_count` to 0, and changes nothing
else. -/
theorem indication_confirmation_success (s : State) :
    app_indication_confirmation_handler at_ble_status_t.AT_BLE_SUCCESS s =
      { s with indication_sent := true, user_request_flag := false, timer_count := 0 } := by
  simp [app_indication_confirmation_handler]

/-- C8. Notification confirmation success: the notification confirmation
handler called with `AT_BLE_SUCCESS` sets `notification_sent` to true and
changes nothing else; `user_request_flag`, `timer_count` and
`indication_sent` keep their values. -/
theorem notification_confirmation_success (s : State) :
    app_notification_confirmation_handler at_ble_status_t.AT_BLE_SUCCESS s =
      { s with notification_sent := true } ∧
    (app_notification_confirmation_handler at_ble_status_t.AT_BLE_SUCCESS s).user_request_flag
      = s.user_request_flag ∧
    (app_notification_confirmation_handler at_ble_status_t.AT_BLE_SUCCESS s).timer_count
      = s.timer_count ∧
    (app_notification_confirmation_handler at_ble_status_t.AT_BLE_SUCCESS s).indication_sent
      = s.indication_sent := by
  simp [app_notification_confirmation_handler]

/-- C9. Confirmation failure and suppression: a confirmation whose status is
not `AT_BLE_SUCCESS` sets the acknowledged flag of its channel to false and
changes no other variable; and in every state where the acknowledged flag of
a channel is false, neither the per-tick update nor the custom event callback
(timer tick, button) sends on that channel. -/
theorem confirmation_failure_suppression (c : Config) (s : State) (status : at_ble_status_t)
    (hst : status ≠ at_ble_status_t.AT_BLE_SUCCESS) :
    app_notification_confirmation_handler status s = { s with notification_sent := false } ∧
    app_indication_confirmation_handler status s = { s with indication_sent := false } ∧
    (s.notification_sent = false →
      Kind.notification ∉ kinds s (update_blp_sensor_value c s) ∧
      ∀ id, Kind.notification ∉ kinds s (blp_sensor_app_custom_event c id s).2) ∧
    (s.indication_sent = false →
      Kind.indication ∉ kinds s (update_blp_sensor_value c s) ∧
      ∀ id, Kind.indication ∉ kinds s (blp_sensor_app_custom_event c id s).2) := by
  refine ⟨by simp [app_notification_confirmation_handler, hst],
    by simp [app_indication_confirmation_handler, hst], ?_, ?_⟩
  · intro h
    exact ⟨update_no_notification c s h, fun id => custom_event_no_notification c id s h⟩
  · intro h
    exact ⟨update_no_indication c s h, fun id => custom_event_no_indication c id s h⟩

theorem confirmation_failure_suppression_witness :
    app_notification_confirmation_handler (at_ble_status_t.AT_BLE_ERROR 3)
        (init sampleConfig) =
      { init sampleConfig with notification_sent := false } ∧
    Kind.notification ∉
      kinds (app_notification_confirmation_handler (at_ble_status_t.AT_BLE_ERROR 3)
          (init sampleConfig))
        (blp_sensor_app_custom_event sampleConfig APP_TIMER_EVENT_ID
          (app_notification_confirmation_handler (at_ble_status_t.AT_BLE_ERROR 3)
            (init sampleConfig))).2 :=
  ⟨(confirmation_failure_suppression sampleConfig (init sampleConfig)
      (at_ble_status_t.AT_BLE_ERROR 3) (by decide)).1,
    ((confirmation_failure_suppression sampleConfig
      (app_notification_confirmation_handler (at_ble_status_t.AT_BLE_ERROR 3)
        (init sampleConfig))
      (at_ble_status_t.AT_BLE_ERROR 3) (by decide)).2.2.1 (by decide)).2 APP_TIMER_EVENT_ID⟩

/-- C10, as stated, fails: the tick after a button press sends a notification
and `notification_sent` is true right after it; the fifth tick of an
indication-only request sends the indication and `indication_sent` is true
right after it. -/
theorem send_does_not_clear_acknowledged :
    (kinds
        (run sampleConfig (init sampleConfig)
          [Event.connected, Event.notification_handler true, button])
        (step sampleConfig tick
          (run sampleConfig (init sampleConfig)
            [Event.connected, Event.notification_handler true, button]))
        = [Kind.notification] ∧
      (step sampleConfig tick
          (run sampleConfig (init sampleConfig)
            [Event.connected, Event.notification_handler true, button])).notification_sent
        = true) ∧
    (kinds
        (run sampleConfig (init sampleConfig)
          [Event.connected, Event.indication_handler true, button, tick, tick, tick, tick])
        (step sampleConfig tick
          (run sampleConfig (init sampleConfig)
            [Event.connected, Event.indication_handler true, button, tick, tick, tick, tick]))
        = [Kind.indication] ∧
      (step sampleConfig tick
          (run sampleConfig (init sampleConfig)
            [Event.connected, Event.indication_handler true, button, tick, tick, tick,
              tick])).indication_sent
        = true) := by
  decide

/-- C10, amended. Sending does not mark the channel: the two send functions,
the per-tick update and the custom event callback leave `notification_sent`
and `indication_sent` as they were, and they send on a channel only when its
flag is true; so right after the scheduler sends a notification
`notification_sent` is still true, and right after it sends an indication
`indication_sent` is still true. Only the confirmation callback of a channel
and the disconnected callback write the flag of that channel. -/
theorem send_keeps_acknowledged (c : Config) (s : State) :
    (blp_char_notification c s).notification_sent = s.notification_sent ∧
    (blp_char_indication c s).indication_sent = s.indication_sent ∧
    (update_blp_sensor_value c s).notification_sent = s.notification_sent ∧
    (update_blp_sensor_value c s).indication_sent = s.indication_sent ∧
    (Kind.notification ∈ kinds s (update_blp_sensor_value c s) →
      (update_blp_sensor_value c s).notification_sent = true) ∧
    (Kind.indication ∈ kinds s (update_blp_sensor_value c s) →
      (update_blp_sensor_value c s).indication_sent = true) ∧
    (∀ id, Kind.notification ∈ kinds s (blp_sensor_app_custom_event c id s).2 →
      (blp_sensor_app_custom_event c id s).2.notification_sent = true) ∧
    (∀ id, Kind.indication ∈ kinds s (blp_sensor_app_custom_event c id s).2 →
      (blp_sensor_app_custom_event c id s).2.indication_sent = true) ∧
    (∀ e, isNotificationConfirmation e = false → e ≠ Event.disconnected →
      (step c e s).notification_sent = s.notification_sent) ∧
    (∀ e, isIndicationConfirmation e = false → e ≠ Event.disconnected →
      (step c e s).indication_sent = s.indication_sent) := by
  refine ⟨by simp, by simp, by simp, by simp, ?_, ?_, ?_, ?_,
    fun e h1 h2 => step_notification_sent c e s h1 h2,
    fun e h1 h2 => step_indication_sent c e s h1 h2⟩
  · intro h
    rw [update_notification_sent]
    cases hs : s.notification_sent
    · exact absurd h (update_no_notification c s hs)
    · rfl
  · intro h
    rw [update_indication_sent]
    cases hs : s.indication_sent
    · exact absurd h (update_no_indication c s hs)
    · rfl
  · intro id h
    rw [custom_event_notification_sent]
    cases hs : s.notification_sent
    · exact absurd h (custom_event_no_notification c id s hs)
    · rfl
  · intro id h
    rw [custom_event_indication_sent]
    cases hs : s.indication_sent
    · exact absurd h (custom_event_no_indication c id s hs)
    · rfl

theorem send_keeps_acknowledged_witness :
    (blp_sensor_app_custom_event sampleConfig APP_TIMER_EVENT_ID
      (run sampleConfig (init sampleConfig)
        [Event.connected, Event.notification_handler true, button])).2.notification_sent
      = true :=
  (send_keeps_acknowledged sampleConfig
    (run sampleConfig (init sampleConfig)
      [Event.connected, Event.notification_handler true, button])).2.2.2.2.2.2.1
    APP_TIMER_EVENT_ID (by decide)

/-! ## Claims on the channel callbacks, the scenarios and disconnection -/

/-- C11. Notification disable resets the counter: the notification channel
callback with `enable = false` sets `notification_flag` to false and
`timer_count` to `INDICATION_TIMER_VAL` (a value that fits the 8-bit
counter); with `enable = true` it sets `notification_flag` to true and
leaves `timer_count` as it is. In both cases no other variable changes and
no call is made. -/
theorem notification_handler_effect (c : Config) (s : State)
    (hfit : c.INDICATION_TIMER_VAL < 256) :
    app_notification_handler c false s =
      { s with notification_flag := false, timer_count := c.INDICATION_TIMER_VAL } ∧
    app_notification_handler c true s = { s with notification_flag := true } ∧
    (app_notification_handler c true s).timer_count = s.timer_count ∧
    kinds s (app_notification_handler c false s) = [] ∧
    kinds s (app_notification_handler c true s) = [] := by
  have h : c.INDICATION_TIMER_VAL % 256 = c.INDICATION_TIMER_VAL := Nat.mod_eq_of_lt hfit
  simp [app_notification_handler, u8, h, kinds, emitted]

theorem notification_handler_effect_witness :
    app_notification_handler sampleConfig false (init sampleConfig) =
      { init sampleConfig with
        notification_flag := false, timer_count := sampleConfig.INDICATION_TIMER_VAL } :=
  (notification_handler_effect sampleConfig (init sampleConfig) (by decide)).1

/-- C12: the code misses what the claim says. In the middle of a request
(both channels enabled, `timer_count = 2`, previous indication acknowledged)
the peer disables notifications, which sets `timer_count` to 5; the next
timer tick first moves it to 6 and then finds no threshold to act on, so it
sends nothing and the final indication is not delivered. -/
theorem final_indication_missed :
    (run sampleConfig (init sampleConfig)
      [Event.connected, Event.notification_handler true, Event.indication_handler true,
        Event.indication_confirmed at_ble_status_t.AT_BLE_SUCCESS, button, tick,
        tick]).app_state = true ∧
    (run sampleConfig (init sampleConfig)
      [Event.connected, Event.notification_handler true, Event.indication_handler true,
        Event.indication_confirmed at_ble_status_t.AT_BLE_SUCCESS, button, tick,
        tick]).user_request_flag = true ∧
    (run sampleConfig (init sampleConfig)
      [Event.connected, Event.notification_handler true, Event.indication_handler true,
        Event.indication_confirmed at_ble_status_t.AT_BLE_SUCCESS, button, tick,
        tick]).indication_flag = true ∧
    (run sampleConfig (init sampleConfig)
      [Event.connected, Event.notification_handler true, Event.indication_handler true,
        Event.indication_confirmed at_ble_status_t.AT_BLE_SUCCESS, button, tick,
        tick]).indication_sent = true ∧
    (run sampleConfig (init sampleConfig)
      [Event.connected, Event.notification_handler true, Event.indication_handler true,
        Event.indication_confirmed at_ble_status_t.AT_BLE_SUCCESS, button, tick,
        tick]).timer_count = 2 ∧
    (run sampleConfig (init sampleConfig)
      [Event.connected, Event.notification_handler true, Event.indication_handler true,
        Event.indication_confirmed at_ble_status_t.AT_BLE_SUCCESS, button, tick, tick,
        Event.notification_handler false]).timer_count = 5 ∧
    (run sampleConfig (init sampleConfig)
      [Event.connected, Event.notification_handler true, Event.indication_handler true,
        Event.indication_confirmed at_ble_status_t.AT_BLE_SUCCESS, button, tick, tick,
        Event.notification_handler false, tick]).timer_count = 6 ∧
    kinds
      (run sampleConfig (init sampleConfig)
        [Event.connected, Event.notification_handler true, Event.indication_handler true,
          Event.indication_confirmed at_ble_status_t.AT_BLE_SUCCESS, button, tick, tick,
          Event.notification_handler false])
      (run sampleConfig (init sampleConfig)
        [Event.connected, Event.notification_handler true, Event.indication_handler true,
          Event.indication_confirmed at_ble_status_t.AT_BLE_SUCCESS, button, tick, tick,
          Event.notification_handler false, tick]) = [] := by
  decide

/-- C13, as stated, fails: in a session with notifications only, the 256th
tick after the button press wraps the 8-bit counter to 0 and sends a
notification, with no button press in between. -/
theorem stall_ends_at_wrap :
    kinds
      (run sampleConfig (init sampleConfig)
        ([Event.connected, Event.notification_handler true] ++ button :: ticks 255))
      (run sampleConfig (init sampleConfig)
        ([Event.connected, Event.notification_handler true] ++ button :: ticks 256))
      = [Kind.notification] := by
  rw [run_append, run_append]
  exact notification_only_wrap sampleConfig _ (by decide) (by decide) (by decide) (by decide)
    (by decide) (by decide)

/-- C13, amended. In a session with notifications only that a button press
has started, once `INDICATION_TIMER_VAL` ticks have elapsed the following
ticks send nothing as long as the 8-bit counter has not wrapped, that is up
to and including the 255th tick after the button press. -/
theorem notification_only_stall (c : Config) (s : State) (n : Nat)
    (hc : s.app_state = true) (hr : s.user_request_flag = false)
    (hn : s.notification_flag = true) (hi : s.indication_flag = false)
    (hs : s.notification_sent = true) (hpos : 0 < c.INDICATION_TIMER_VAL)
    (hle : c.INDICATION_TIMER_VAL + n ≤ 255) :
    kinds (run c s (button :: ticks c.INDICATION_TIMER_VAL))
      (run c s (button :: ticks (c.INDICATION_TIMER_VAL + n))) = [] := by
  obtain ⟨a1, _, a3, _, _, a6⟩ :=
    notification_only_state c s c.INDICATION_TIMER_VAL hc hr hn hi hs hpos
  have h : run c s (button :: ticks (c.INDICATION_TIMER_VAL + n)) =
      run c (run c s (button :: ticks c.INDICATION_TIMER_VAL)) (ticks n) := by
    rw [run_cons, run_cons, ticks_add]
  have hmod : c.INDICATION_TIMER_VAL % 256 = c.INDICATION_TIMER_VAL :=
    Nat.mod_eq_of_lt (by omega)
  rw [h]
  exact stall_ticks c _ n a1 a3 (by rw [a6, hmod]) (by rw [a6, hmod]; exact hle)

theorem notification_only_stall_witness :
    kinds
      (run sampleConfig
        (run sampleConfig (init sampleConfig)
          [Event.connected, Event.notification_handler true])
        (button :: ticks sampleConfig.INDICATION_TIMER_VAL))
      (run sampleConfig
        (run sampleConfig (init sampleConfig)
          [Event.connected, Event.notification_handler true])
        (button :: ticks (sampleConfig.INDICATION_TIMER_VAL + 250))) = [] :=
  notification_only_stall sampleConfig
    (run sampleConfig (init sampleConfig) [Event.connected, Event.notification_handler true])
    250 (by decide) (by decide) (by decide) (by decide) (by decide) (by decide)
    (by decide)

/-- C14, as stated, fails: after the five ticks of a cycle with notifications
only, a further button press leaves `timer_count` at 5 instead of resetting
it to 0, and the three ticks after it send nothing. -/
theorem button_does_not_rearm_example :
    (run sampleConfig (init sampleConfig)
      ([Event.connected, Event.notification_handler true] ++ button :: ticks 5)).timer_count
      = 5 ∧
    (step sampleConfig button
      (run sampleConfig (init sampleConfig)
        ([Event.connected, Event.notification_handler true] ++ button :: ticks 5))).timer_count
      = 5 ∧
    kinds
      (run sampleConfig (init sampleConfig)
        ([Event.connected, Event.notification_handler true] ++ button :: ticks 5))
      (run sampleConfig
        (run sampleConfig (init sampleConfig)
          ([Event.connected, Event.notification_handler true] ++ button :: ticks 5))
        (button :: ticks 3)) = [] := by
  decide

/-- C14, amended. In a session with notifications only, after a cycle that a
button press started has run `INDICATION_TIMER_VAL` ticks or more (up to 255)
the request is still active, and a further button press starts no new cycle:
it leaves every variable as it is, `timer_count` included, and makes no
call. -/
theorem button_does_not_rearm (c : Config) (s : State) (n : Nat)
    (hc : s.app_state = true) (hr : s.user_request_flag = false)
    (hn : s.notification_flag = true) (hi : s.indication_flag = false)
    (hs : s.notification_sent = true) (hpos : 0 < c.INDICATION_TIMER_VAL)
    (hge : c.INDICATION_TIMER_VAL ≤ n) (hle : n ≤ 255) :
    (run c s (button :: ticks n)).user_request_flag = true ∧
    (run c s (button :: ticks n)).timer_count = n ∧
    step c button (run c s (button :: ticks n)) = run c s (button :: ticks n) := by
  obtain ⟨a1, _, a3, _, a5, a6⟩ := notification_only_state c s n hc hr hn hi hs hpos
  have hmod : n % 256 = n := Nat.mod_eq_of_lt (by omega)
  refine ⟨a1, by rw [a6, hmod], ?_⟩
  rw [step_button, custom_event_button_active c _ a5 a1, update_eq]
  have h1 : ¬ ((run c s (button :: ticks n)).timer_count < c.INDICATION_TIMER_VAL) := by
    rw [a6, hmod]; omega
  simp [a3, h1]

theorem button_does_not_rearm_witness :
    step sampleConfig button
      (run sampleConfig
        (run sampleConfig (init sampleConfig)
          [Event.connected, Event.notification_handler true])
        (button :: ticks 5)) =
      run sampleConfig
        (run sampleConfig (init sampleConfig)
          [Event.connected, Event.notification_handler true])
        (button :: ticks 5) :=
  (button_does_not_rearm sampleConfig
    (run sampleConfig (init sampleConfig) [Event.connected, Event.notification_handler true])
    5 (by decide) (by decide) (by decide) (by decide) (by decide) (by decide) (by decide)
    (by decide)).2.2

/-- C15, as stated, fails: after the button press of a session with
notifications only, the first four ticks send one notification each, but the
fifth tick (`INDICATION_TIMER_VAL = 5`) sends nothing. -/
theorem last_tick_sends_nothing :
    kinds
      (run sampleConfig (init sampleConfig)
        ([Event.connected, Event.notification_handler true] ++ button :: confirmedTicks 3))
      (step sampleConfig tick
        (run sampleConfig (init sampleConfig)
          ([Event.connected, Event.notification_handler true] ++
            button :: confirmedTicks 3))) = [Kind.notification] ∧
    kinds
      (run sampleConfig (init sampleConfig)
        ([Event.connected, Event.notification_handler true] ++ button :: confirmedTicks 4))
      (step sampleConfig tick
        (run sampleConfig (init sampleConfig)
          ([Event.connected, Event.notification_handler true] ++
            button :: confirmedTicks 4))) = [] := by
  decide

/-- C15, amended. From a connected idle state with notifications enabled and
acknowledged and indications disabled, after a button press each of the next
`INDICATION_TIMER_VAL - 1` ticks sends exactly one notification and nothing
else (every notification being confirmed before the next tick), and the tick
number `INDICATION_TIMER_VAL` sends nothing; no indication is sent. -/
theorem notification_only_cycle (c : Config) (s : State) (k : Nat)
    (hc : s.app_state = true) (hr : s.user_request_flag = false)
    (hn : s.notification_flag = true) (hi : s.indication_flag = false)
    (hs : s.notification_sent = true) (hfit : c.INDICATION_TIMER_VAL < 256) :
    (k + 1 < c.INDICATION_TIMER_VAL →
      kinds (run c s (button :: confirmedTicks k))
        (step c tick (run c s (button :: confirmedTicks k))) = [Kind.notification]) ∧
    (k + 1 = c.INDICATION_TIMER_VAL →
      kinds (run c s (button :: confirmedTicks k))
        (step c tick (run c s (button :: confirmedTicks k))) = []) := by
  have key : 0 < c.INDICATION_TIMER_VAL → k < 256 →
      kinds (run c s (button :: confirmedTicks k))
        (step c tick (run c s (button :: confirmedTicks k))) =
      if u8 (k + 1) < c.INDICATION_TIMER_VAL then [Kind.notification] else [] := by
    intro hpos hk
    obtain ⟨a1, a2, a3, a4, _, a6⟩ := notification_only_state c s k hc hr hn hi hs hpos
    obtain ⟨_, _, _, _, _, b6, _, _⟩ := button_fresh_state c s hc hr (Or.inr hn) hpos
    have h : run c s (button :: confirmedTicks k) = run c s (button :: ticks k) := by
      rw [run_cons, run_cons, confirmedTicks_eq_ticks c _ k (by rw [b6, hs])]
    rw [h, notification_only_tick c _ a1 a2 a3 a4, a6, Nat.mod_eq_of_lt hk]
  constructor
  · intro h
    rw [key (by omega) (by omega)]
    have : u8 (k + 1) < c.INDICATION_TIMER_VAL := by simp only [u8]; omega
    simp [this]
  · intro h
    rw [key (by omega) (by omega)]
    have : ¬ (u8 (k + 1) < c.INDICATION_TIMER_VAL) := by simp only [u8]; omega
    simp [this]

theorem notification_only_cycle_witness :
    kinds
      (run sampleConfig
        (run sampleConfig (init sampleConfig)
          [Event.connected, Event.notification_handler true])
        (button :: confirmedTicks 2))
      (step sampleConfig tick
        (run sampleConfig
          (run sampleConfig (init sampleConfig)
            [Event.connected, Event.notification_handler true])
          (button :: confirmedTicks 2))) = [Kind.notification] :=
  (notification_only_cycle sampleConfig
    (run sampleConfig (init sampleConfig) [Event.connected, Event.notification_handler true])
    2 (by decide) (by decide) (by decide) (by decide) (by decide) (by decide)).1 (by decide)

/-- C16. Scenario B: from a connected idle state with indications enabled and
acknowledged and notifications disabled, a button press followed by
`INDICATION_TIMER_VAL` ticks (at least 1, below 255, no confirmation in
between) makes exactly one call in total, an indication, and makes it on the
last tick: nothing is sent up to the tick before. With the units flag in
bit 0 of the flags byte, that bit of the indication tells the unit system
the button press has switched to (0 for `units` true, 1 for `units` false),
which is the opposite of the one before the press. -/
theorem indication_only_cycle (c : Config) (s : State)
    (hc : s.app_state = true) (hr : s.user_request_flag = false)
    (hi : s.indication_flag = true) (hn : s.notification_flag = false)
    (hs : s.indication_sent = true)
    (h1 : 1 ≤ c.INDICATION_TIMER_VAL) (h2 : c.INDICATION_TIMER_VAL < 255)
    (hm : c.unitsBitZero) :
    emitted s (run c s (button :: ticks (c.INDICATION_TIMER_VAL - 1))) = [] ∧
    (run c s (button :: ticks c.INDICATION_TIMER_VAL)).units = (!s.units) ∧
    ∃ f rest,
      emitted s (run c s (button :: ticks c.INDICATION_TIMER_VAL)) =
        [Out.indication (f :: rest)] ∧
      f.testBit 0 = !(run c s (button :: ticks c.INDICATION_TIMER_VAL)).units := by
  obtain ⟨a1, a2, a3, a4, a5, a6⟩ := indication_only_state c s hc hr hi hn hs h1 (by omega)
  have hlast : run c s (button :: ticks c.INDICATION_TIMER_VAL) =
      step c tick (run c s (button :: ticks (c.INDICATION_TIMER_VAL - 1))) := by
    have : c.INDICATION_TIMER_VAL = (c.INDICATION_TIMER_VAL - 1) + 1 := by omega
    rw [run_cons, run_cons]
    conv_lhs => rw [this]
    rw [ticks_succ]
  have hu : u8 ((run c s (button :: ticks (c.INDICATION_TIMER_VAL - 1))).timer_count + 1)
      = c.INDICATION_TIMER_VAL := by
    rw [a2]; simp only [u8]; omega
  obtain ⟨f, rest, p1, p2⟩ := tick_indication_payload c _ a3 hu a4 a5 hm
  have hunits : (run c s (button :: ticks c.INDICATION_TIMER_VAL)).units = (!s.units) := by
    rw [hlast, tick_units, a6]
  refine ⟨by simp [emitted, a1], hunits, f, rest, ?_, ?_⟩
  · rw [hlast]
    exact emitted_append _ _ _ (by rw [p1, a1])
  · rw [hunits, p2, a6]

theorem indication_only_cycle_witness :
    emitted
      (run sampleConfig (init sampleConfig)
        [Event.connected, Event.indication_handler true,
          Event.indication_confirmed at_ble_status_t.AT_BLE_SUCCESS])
      (run sampleConfig
        (run sampleConfig (init sampleConfig)
          [Event.connected, Event.indication_handler true,
            Event.indication_confirmed at_ble_status_t.AT_BLE_SUCCESS])
        (button :: ticks (sampleConfig.INDICATION_TIMER_VAL - 1))) = [] :=
  (indication_only_cycle sampleConfig
    (run sampleConfig (init sampleConfig)
      [Event.connected, Event.indication_handler true,
        Event.indication_confirmed at_ble_status_t.AT_BLE_SUCCESS])
    (by decide) (by decide) (by decide) (by decide) (by decide) (by decide) (by decide)
    (by unfold Config.unitsBitZero; decide)).1

/-- C17, as stated, fails: after the confirmation of the indication sent at
enable time has reported failure, a button press and one tick send a
notification, with no disconnect in between; and enabling indications again
sends an indication. -/
theorem sends_after_indication_failure :
    quietAfterIndicationFailure false
      (trace sampleConfig (init sampleConfig)
        [Event.connected, Event.notification_handler true, Event.indication_handler true,
          Event.indication_confirmed at_ble_status_t.AT_BLE_FAILURE, button, tick]) = false ∧
    quietAfterIndicationFailure false
      (trace sampleConfig (init sampleConfig)
        [Event.connected, Event.indication_handler true,
          Event.indication_confirmed at_ble_status_t.AT_BLE_FAILURE,
          Event.indication_handler true]) = false := by
  decide

/-- C17, amended. After an indication confirmation has reported failure
while a request is active and indications are enabled, and only timer ticks
follow: no tick sends an indication; a tick calls the disconnect primitive
exactly when it brings the 8-bit `timer_count` to `INDICATION_TIMER_VAL`, and
then it makes no other call; one of the next 256 ticks does so; and a tick
that brings `timer_count` below the threshold still sends a notification
when notifications are enabled and acknowledged. -/
theorem disconnect_after_indication_failure (c : Config) (s : State)
    (st : at_ble_status_t) (j : Nat)
    (hst : st ≠ at_ble_status_t.AT_BLE_SUCCESS)
    (hr : s.user_request_flag = true) (hi : s.indication_flag = true)
    (ht : s.timer_count < 256) (hfit : c.INDICATION_TIMER_VAL < 256) :
    Kind.indication ∉
      kinds (run c s (Event.indication_confirmed st :: ticks j))
        (step c tick (run c s (Event.indication_confirmed st :: ticks j))) ∧
    (Kind.disconnect ∈
      kinds (run c s (Event.indication_confirmed st :: ticks j))
        (step c tick (run c s (Event.indication_confirmed st :: ticks j))) ↔
      (s.timer_count + j + 1) % 256 = c.INDICATION_TIMER_VAL) ∧
    ((s.timer_count + j + 1) % 256 = c.INDICATION_TIMER_VAL →
      kinds (run c s (Event.indication_confirmed st :: ticks j))
        (step c tick (run c s (Event.indication_confirmed st :: ticks j)))
        = [Kind.disconnect]) ∧
    kinds
      (run c s (Event.indication_confirmed st ::
        ticks ((c.INDICATION_TIMER_VAL + 255 - s.timer_count) % 256)))
      (step c tick
        (run c s (Event.indication_confirmed st ::
          ticks ((c.INDICATION_TIMER_VAL + 255 - s.timer_count) % 256))))
      = [Kind.disconnect] ∧
    ((s.timer_count + j + 1) % 256 < c.INDICATION_TIMER_VAL →
      s.notification_flag = true → s.notification_sent = true →
      kinds (run c s (Event.indication_confirmed st :: ticks j))
        (step c tick (run c s (Event.indication_confirmed st :: ticks j)))
        = [Kind.notification]) := by
  have key : ∀ k : Nat,
      kinds (run c s (Event.indication_confirmed st :: ticks k))
        (step c tick (run c s (Event.indication_confirmed st :: ticks k))) =
      if (s.timer_count + k + 1) % 256 < c.INDICATION_TIMER_VAL ∧
          s.notification_flag = true ∧ s.notification_sent = true then
        [Kind.notification]
      else if (s.timer_count + k + 1) % 256 = c.INDICATION_TIMER_VAL then [Kind.disconnect]
      else [] := by
    intro k
    obtain ⟨a1, a2, a3, a4, a5, a6⟩ := failed_indication_state c s st k hst hr ht
    have hu : u8 ((s.timer_count + k) % 256 + 1) = (s.timer_count + k + 1) % 256 := by
      simp only [u8]; omega
    rw [tick_kinds c _ a1, a2, a3, a4, a5, a6, hu]
    simp [hi]
  refine ⟨?_, ?_, ?_, ?_, ?_⟩
  · rw [key j]
    split_ifs <;> simp
  · rw [key j]
    split_ifs with h1 h2
    · have : (s.timer_count + j + 1) % 256 ≠ c.INDICATION_TIMER_VAL := by omega
      simp [this]
    · simp [h2]
    · simp [h2]
  · intro h
    rw [key j]
    have h1 : ¬ ((s.timer_count + j + 1) % 256 < c.INDICATION_TIMER_VAL) := by omega
    simp [h1, h]
  · rw [key]
    have h : (s.timer_count + (c.INDICATION_TIMER_VAL + 255 - s.timer_count) % 256 + 1) % 256
        = c.INDICATION_TIMER_VAL := by omega
    have h1 : ¬ ((s.timer_count + (c.INDICATION_TIMER_VAL + 255 - s.timer_count) % 256 + 1)
        % 256 < c.INDICATION_TIMER_VAL) := by omega
    simp [h1, h]
  · intro h hn hs
    rw [key j]
    simp [h, hn, hs]

theorem disconnect_after_indication_failure_witness :
    kinds
      (run sampleConfig
        (run sampleConfig (init sampleConfig)
          [Event.connected, Event.indication_handler true, button])
        (Event.indication_confirmed at_ble_status_t.AT_BLE_FAILURE :: ticks 4))
      (step sampleConfig tick
        (run sampleConfig
          (run sampleConfig (init sampleConfig)
            [Event.connected, Event.indication_handler true, button])
          (Event.indication_confirmed at_ble_status_t.AT_BLE_FAILURE :: ticks 4)))
      = [Kind.disconnect] :=
  (disconnect_after_indication_failure sampleConfig
    (run sampleConfig (init sampleConfig)
      [Event.connected, Event.indication_handler true, button])
    at_ble_status_t.AT_BLE_FAILURE 4 (by decide) (by decide) (by decide) (by decide)
    (by decide)).2.2.1 (by decide)

/-- C18, as stated, fails: after the first notification of a request has been
reported as failed, the request is still active, notifications are still
enabled and `timer_count` is 1, yet no sequence of callbacks without a
notification confirmation and without the disconnected callback sends a
notification again. -/
theorem notification_failure_is_final :
    (run sampleConfig (init sampleConfig)
      [Event.connected, Event.notification_handler true, button, tick,
        Event.notification_confirmed at_ble_status_t.AT_BLE_FAILURE]).user_request_flag
      = true ∧
    (run sampleConfig (init sampleConfig)
      [Event.connected, Event.notification_handler true, button, tick,
        Event.notification_confirmed at_ble_status_t.AT_BLE_FAILURE]).notification_flag
      = true ∧
    (run sampleConfig (init sampleConfig)
      [Event.connected, Event.notification_handler true, button, tick,
        Event.notification_confirmed at_ble_status_t.AT_BLE_FAILURE]).timer_count = 1 ∧
    ¬ ∃ es : List Event,
      (∀ e ∈ es, isNotificationConfirmation e = false ∧ e ≠ Event.disconnected) ∧
      Kind.notification ∈
        kinds
          (run sampleConfig (init sampleConfig)
            [Event.connected, Event.notification_handler true, button, tick,
              Event.notification_confirmed at_ble_status_t.AT_BLE_FAILURE])
          (run sampleConfig
            (run sampleConfig (init sampleConfig)
              [Event.connected, Event.notification_handler true, button, tick,
                Event.notification_confirmed at_ble_status_t.AT_BLE_FAILURE])
            es) := by
  refine ⟨by decide, by decide, by decide, ?_⟩
  rintro ⟨es, hes, hmem⟩
  exact (run_no_notification sampleConfig es _ (by decide) hes).1 hmem

/-- C18, amended. After a notification confirmation has reported failure, no
later callback sends a notification, on an eligible tick or otherwise, for
as long as neither a notification confirmation nor the disconnected callback
runs, and `notification_sent` stays false; the channel is released only by a
successful notification confirmation or by the reset of the disconnected
callback, which set `notification_sent` to true again. -/
theorem notification_failure_not_recovered (c : Config) (s : State)
    (st : at_ble_status_t) (es : List Event)
    (hst : st ≠ at_ble_status_t.AT_BLE_SUCCESS)
    (hes : ∀ e ∈ es, isNotificationConfirmation e = false ∧ e ≠ Event.disconnected) :
    Kind.notification ∉
      kinds (step c (Event.notification_confirmed st) s)
        (run c (step c (Event.notification_confirmed st) s) es) ∧
    (run c (step c (Event.notification_confirmed st) s) es).notification_sent = false ∧
    (step c (Event.notification_confirmed at_ble_status_t.AT_BLE_SUCCESS)
      (run c (step c (Event.notification_confirmed st) s) es)).notification_sent = true ∧
    (step c Event.disconnected
      (run c (step c (Event.notification_confirmed st) s) es)).notification_sent = true := by
  have h0 : (step c (Event.notification_confirmed st) s).notification_sent = false := by
    simp [step, app_notification_confirmation_handler, hst]
  obtain ⟨h1, h2⟩ := run_no_notification c es _ h0 hes
  refine ⟨h1, h2, ?_, ?_⟩
  · simp [step, app_notification_confirmation_handler]
  · simp [step, app_disconnected_state_handler, blp_sensor_adv]

theorem notification_failure_not_recovered_witness :
    Kind.notification ∉
      kinds
        (step sampleConfig (Event.notification_confirmed at_ble_status_t.AT_BLE_FAILURE)
          (run sampleConfig (init sampleConfig)
            [Event.connected, Event.notification_handler true, button, tick]))
        (run sampleConfig
          (step sampleConfig (Event.notification_confirmed at_ble_status_t.AT_BLE_FAILURE)
            (run sampleConfig (init sampleConfig)
              [Event.connected, Event.notification_handler true, button, tick]))
          [tick, tick, button, tick]) :=
  (notification_failure_not_recovered sampleConfig
    (run sampleConfig (init sampleConfig)
      [Event.connected, Event.notification_handler true, button, tick])
    at_ble_status_t.AT_BLE_FAILURE [tick, tick, button, tick] (by decide) (by decide)).1

/-- C19. Scenario E, metrics: after the disconnected callback every simulated
value (systolic, diastolic and MAP in both unit systems, the pulse rate, and
the six interim values) equals its minimum constant, whatever the state
before (the constants fitting 16 bits). -/
theorem disconnect_resets_metrics (c : Config) (s : State) (hfit : c.minimaFit) :
    (app_disconnected_state_handler c s).systolic_val_mmhg = c.SYSTOLIC_MIN_MMHG ∧
    (app_disconnected_state_handler c s).diastolic_val_mmhg = c.DIASTOLIC_MIN_MMHG ∧
    (app_disconnected_state_handler c s).map_val_mmhg = c.MAP_MIN_MMHG ∧
    (app_disconnected_state_handler c s).systolic_val_kpa = c.SYSTOLIC_MIN_KPA ∧
    (app_disconnected_state_handler c s).diastolic_val_kpa = c.DIASTOLIC_MIN_KPA ∧
    (app_disconnected_state_handler c s).map_val_kpa = c.MAP_MIN_KPA ∧
    (app_disconnected_state_handler c s).pulse_rate_val = c.PULSE_RATE_MIN ∧
    (app_disconnected_state_handler c s).interim_systolic_mmhg = c.SYSTOLIC_MIN_MMHG ∧
    (app_disconnected_state_handler c s).interim_diastolic_mmhg = c.DIASTOLIC_MIN_MMHG ∧
    (app_disconnected_state_handler c s).interim_map_mmhg = c.MAP_MIN_MMHG ∧
    (app_disconnected_state_handler c s).interim_systolic_kpa = c.SYSTOLIC_MIN_KPA ∧
    (app_disconnected_state_handler c s).interim_diastolic_kpa = c.DIASTOLIC_MIN_KPA ∧
    (app_disconnected_state_handler c s).interim_map_kpa = c.MAP_MIN_KPA := by
  obtain ⟨h1, h2, h3, h4, h5, h6, h7⟩ := hfit
  simp [app_disconnected_state_handler, blp_sensor_adv, u16, Nat.mod_eq_of_lt, h1, h2, h3,
    h4, h5, h6, h7]

theorem disconnect_resets_metrics_witness :
    (app_disconnected_state_handler sampleConfig
      (run sampleConfig (init sampleConfig)
        [Event.connected, Event.indication_handler true, button, tick, tick, tick, tick,
          tick])).systolic_val_kpa = 10 :=
  (disconnect_resets_metrics sampleConfig
    (run sampleConfig (init sampleConfig)
      [Event.connected, Event.indication_handler true, button, tick, tick, tick, tick, tick])
    (by unfold Config.minimaFit; decide)).2.2.2.1

/-- C20, as stated, fails: one timer tick moves the time stamp to second 1,
and the disconnected callback that follows leaves it there instead of
returning it to the value of `time_stamp_init`. -/
theorem disconnect_keeps_time_stamp_example :
    (run sampleConfig (init sampleConfig) [tick, Event.disconnected]).time_stamp =
      { year := 2015, month := 1, day := 1, hour := 0, min := 0, sec := 1 } ∧
    (run sampleConfig (init sampleConfig) [tick, Event.disconnected]).time_stamp ≠
      time_stamp_init := by
  decide

/-- C20, amended. The disconnected callback does not touch the time stamp:
after it the time stamp is the one before it, whatever the state. The epoch
value (year 2015, month 1, day 1, 0:00:00) is the one `time_stamp_init` sets
at start-up. -/
theorem disconnect_keeps_time_stamp (c : Config) (s : State) :
    (app_disconnected_state_handler c s).time_stamp = s.time_stamp ∧
    (init c).time_stamp =
      { year := 2015, month := 1, day := 1, hour := 0, min := 0, sec := 0 } := by
  simp [app_disconnected_state_handler, blp_sensor_adv, init, time_stamp_init]

/-! ## Claims on disconnection and the unit system -/

/-- C21. Disconnect cancels the scheduler state: after the disconnected
callback, whatever the state before, `app_state` is false,
`user_request_flag` is false, `timer_count` is 0, `notify` is false, both
peer-enabled flags are false and both acknowledged flags are true (the default
value `APP_DEFAULT_VAL` being 0). -/
theorem disconnect_resets_scheduler (c : Config) (s : State) (hdef : c.APP_DEFAULT_VAL = 0) :
    (app_disconnected_state_handler c s).app_state = false ∧
    (app_disconnected_state_handler c s).user_request_flag = false ∧
    (app_disconnected_state_handler c s).timer_count = 0 ∧
    (app_disconnected_state_handler c s).notify = false ∧
    (app_disconnected_state_handler c s).notification_flag = false ∧
    (app_disconnected_state_handler c s).indication_flag = false ∧
    (app_disconnected_state_handler c s).notification_sent = true ∧
    (app_disconnected_state_handler c s).indication_sent = true := by
  simp [app_disconnected_state_handler, blp_sensor_adv, hdef, toBool, u8]

theorem disconnect_resets_scheduler_witness :
    (app_disconnected_state_handler sampleConfig
      (run sampleConfig (init sampleConfig)
        [Event.connected, Event.notification_handler true, button, tick,
          tick])).timer_count = 0 :=
  (disconnect_resets_scheduler sampleConfig
    (run sampleConfig (init sampleConfig)
      [Event.connected, Event.notification_handler true, button, tick, tick])
    (by decide)).2.2.1

/-- C22, as stated, fails: the disconnected callback inverts `units`. -/
theorem disconnect_inverts_units :
    (init sampleConfig).units = false ∧
    (step sampleConfig Event.disconnected (init sampleConfig)).units = true := by
  decide

/-- C22, amended. Among all callbacks, `units` is changed by two only, each of
which inverts it: a button event that starts a fresh request with indication
enabled (connected, no request active, `indication_flag` true), and the
disconnected callback. Every other callback leaves `units` as it is. -/
theorem units_changes (c : Config) (e : Event) (s : State) :
    (step c e s).units =
      if e = Event.disconnected ∨
          (e = button ∧ s.app_state = true ∧ s.user_request_flag = false ∧
            s.indication_flag = true) then
        !s.units
      else s.units := by
  cases e with
  | connected => simp [step, app_connected_state_handler, button]
  | disconnected => simp [step, app_disconnected_state_handler, blp_sensor_adv]
  | notification_confirmed st =>
    by_cases h : st = at_ble_status_t.AT_BLE_SUCCESS <;>
      simp [step, app_notification_confirmation_handler, h, button]
  | indication_confirmed st =>
    by_cases h : st = at_ble_status_t.AT_BLE_SUCCESS <;>
      simp [step, app_indication_confirmation_handler, h, button]
  | notification_handler en => cases en <;> simp [step, app_notification_handler, button]
  | indication_handler en =>
    cases en
    · simp [step, app_indication_handler, button]
    · by_cases hu : s.units = true <;>
        simp [step, app_indication_handler, blp_sensor_send_indication, hu, button]
  | custom_event id =>
    by_cases h1 : id = APP_TIMER_EVENT_ID
    · subst h1
      have h := tick_units c s
      simp only [tick] at h
      rw [h]
      simp [button, APP_TIMER_EVENT_ID, APP_BUTTON_EVENT_ID]
    · by_cases h2 : id = APP_BUTTON_EVENT_ID
      · subst h2
        simp only [step]
        cases hc : s.app_state
        · rw [custom_event_button_disconnected c s hc]; simp
        · cases hr : s.user_request_flag
          · cases hi : s.indication_flag
            · cases hn : s.notification_flag
              · rw [custom_event_button_idle c s hc hr hi hn]; simp
              · rw [custom_event_button_fresh c s hc hr (Or.inr hn)]; simp [hi]
            · rw [custom_event_button_fresh c s hc hr (Or.inl hi)]; simp [hi, button]
          · rw [custom_event_button_active c s hc hr]; simp
      · simp only [step]
        rw [custom_event_other c id s h1 h2]
        simp [button, h2]

/-! ## Claims on the simulated values -/

/-- C23. The invariant fails in the code. The disconnected callback sets the
values back to their minima but leaves the direction entries `operator` as
they are, so a value that was at its maximum (direction `-1`) when the link
dropped is taken below its minimum by the first measurement of the next
connection. In the run below every pair of bounds has `min < max`; four
confirmed measurements bring the diastolic kPa value to its maximum 9, the
link drops and is set up again, and the next measurement leaves the
diastolic kPa value at 6 and the MAP kPa value at 7, below the minima 7
and 8. -/
theorem metric_bounds_broken :
    (∀ (c : Config) (s : State), (step c Event.disconnected s).operator = s.operator) ∧
    (∀ m : Metric, m.min sampleConfig < m.max sampleConfig) ∧
    (run sampleConfig (init sampleConfig)
      ([Event.connected, Event.indication_handler true,
          Event.indication_confirmed at_ble_status_t.AT_BLE_SUCCESS] ++
        (button :: ticks 5 ++ [Event.indication_confirmed at_ble_status_t.AT_BLE_SUCCESS]) ++
        (button :: ticks 5 ++ [Event.indication_confirmed at_ble_status_t.AT_BLE_SUCCESS]) ++
        (button :: ticks 5 ++ [Event.indication_confirmed at_ble_status_t.AT_BLE_SUCCESS]) ++
        (button :: ticks 5 ++
          [Event.indication_confirmed at_ble_status_t.AT_BLE_SUCCESS]))).diastolic_val_kpa =
      sampleConfig.DIASTOLIC_MAX_KPA ∧
    (run sampleConfig (init sampleConfig)
      ([Event.connected, Event.indication_handler true,
          Event.indication_confirmed at_ble_status_t.AT_BLE_SUCCESS] ++
        (button :: ticks 5 ++ [Event.indication_confirmed at_ble_status_t.AT_BLE_SUCCESS]) ++
        (button :: ticks 5 ++ [Event.indication_confirmed at_ble_status_t.AT_BLE_SUCCESS]) ++
        (button :: ticks 5 ++ [Event.indication_confirmed at_ble_status_t.AT_BLE_SUCCESS]) ++
        (button :: ticks 5 ++ [Event.indication_confirmed at_ble_status_t.AT_BLE_SUCCESS]) ++
        [Event.disconnected, Event.connected, Event.indication_handler true,
          Event.indication_confirmed at_ble_status_t.AT_BLE_SUCCESS] ++
        button :: ticks 5)).diastolic_val_kpa = 6 ∧
    (run sampleConfig (init sampleConfig)
      ([Event.connected, Event.indication_handler true,
          Event.indication_confirmed at_ble_status_t.AT_BLE_SUCCESS] ++
        (button :: ticks 5 ++ [Event.indication_confirmed at_ble_status_t.AT_BLE_SUCCESS]) ++
        (button :: ticks 5 ++ [Event.indication_confirmed at_ble_status_t.AT_BLE_SUCCESS]) ++
        (button :: ticks 5 ++ [Event.indication_confirmed at_ble_status_t.AT_BLE_SUCCESS]) ++
        (button :: ticks 5 ++ [Event.indication_confirmed at_ble_status_t.AT_BLE_SUCCESS]) ++
        [Event.disconnected, Event.connected, Event.indication_handler true,
          Event.indication_confirmed at_ble_status_t.AT_BLE_SUCCESS] ++
        button :: ticks 5)).map_val_kpa = 7 ∧
    sampleConfig.DIASTOLIC_MIN_KPA = 7 ∧ sampleConfig.MAP_MIN_KPA = 8 := by
  refine ⟨fun c s => rfl, ?_, ?_, ?_, ?_, rfl, rfl⟩
  · intro m
    cases m <;> decide
  · set_option maxRecDepth 100000 in decide
  · set_option maxRecDepth 100000 in decide
  · set_option maxRecDepth 100000 in decide

/-- C24. Triangle wave: for each of the seven values advanced by indications,
with `min < max`, starting from a state in which the value is at its minimum
with direction `+1` and its unit system is the active one, the values that
repeated runs of `blp_char_indication` produce stay within `[min, max]`; the
value and the direction recur after `2 * (max - min)` runs (from every point
of the sequence on); and after no smaller positive number of runs are the
value and the direction both those of the start. The enumerators are taken
distinct and below nine, the bounds to fit `uint8_t`, and `operator` to have
its nine entries. -/
theorem triangle_wave (c : Config) (hd : c.enumDistinct) (hb : c.boundsFit) (s : State)
    (hl : s.operator.length = 9) (m : Metric) (hm : m ∈ activeMetrics s.units)
    (hlt : m.min c < m.max c) (hv : m.value s = m.min c) (hdir : m.direction c s = 1) :
    (∀ n, m.min c ≤ m.value ((blp_char_indication c)^[n] s) ∧
      m.value ((blp_char_indication c)^[n] s) ≤ m.max c) ∧
    (∀ n, m.value ((blp_char_indication c)^[n + 2 * (m.max c - m.min c)] s) =
        m.value ((blp_char_indication c)^[n] s) ∧
      m.direction c ((blp_char_indication c)^[n + 2 * (m.max c - m.min c)] s) =
        m.direction c ((blp_char_indication c)^[n] s)) ∧
    (∀ k, 0 < k → k < 2 * (m.max c - m.min c) →
      ¬ (m.value ((blp_char_indication c)^[k] s) = m.value s ∧
        m.direction c ((blp_char_indication c)^[k] s) = m.direction c s)) := by
  have hmin : u8 (m.min c) = m.min c := u8_of_lt _ (hb m).1
  have hmax : u8 (m.max c) = m.max c := u8_of_lt _ (hb m).2
  have h3 : m.max c < 65536 := lt_trans (hb m).2 (by decide)
  have key : ∀ n, (m.value ((blp_char_indication c)^[n] s),
      m.direction c ((blp_char_indication c)^[n] s)) =
      (advance (m.min c) (m.max c))^[n] (m.min c, 1) := by
    intro n
    rw [iterate_indication_advance c hd m s hl hm n, hmin, hmax, hv, hdir]
  refine ⟨?_, ?_, ?_⟩
  · intro n
    have h := tri_bounded (m.min c) (m.max c) hlt h3 n
    rw [← key n] at h
    exact h
  · intro n
    have h := tri_period_add (m.min c) (m.max c) hlt h3 n
    rw [← key n, ← key (n + 2 * (m.max c - m.min c))] at h
    exact ⟨congrArg Prod.fst h, congrArg Prod.snd h⟩
  · intro k h0 hk h
    apply tri_minimal (m.min c) (m.max c) hlt h3 k h0 hk
    rw [← key k, hv, hdir] at *
    exact Prod.ext h.1 h.2

theorem triangle_wave_witness :
    Metric.value Metric.DIASTOLIC_KPA ((blp_char_indication sampleConfig)^[0 + 2 *
        (Metric.max sampleConfig Metric.DIASTOLIC_KPA -
          Metric.min sampleConfig Metric.DIASTOLIC_KPA)] (init sampleConfig)) =
      Metric.value Metric.DIASTOLIC_KPA ((blp_char_indication sampleConfig)^[0]
        (init sampleConfig)) ∧
    Metric.direction sampleConfig Metric.DIASTOLIC_KPA ((blp_char_indication sampleConfig)^[0 +
        2 * (Metric.max sampleConfig Metric.DIASTOLIC_KPA -
          Metric.min sampleConfig Metric.DIASTOLIC_KPA)] (init sampleConfig)) =
      Metric.direction sampleConfig Metric.DIASTOLIC_KPA ((blp_char_indication sampleConfig)^[0]
        (init sampleConfig)) :=
  (triangle_wave sampleConfig (by unfold Config.enumDistinct; decide)
    (by intro m; cases m <;> decide) (init sampleConfig) (by decide)
    Metric.DIASTOLIC_KPA (by decide) (by decide) (by decide) (by decide)).2.1 0

/-- C25. Advance rule: for each of the four values of the active unit system
(the three pressures of the unit system and the pulse rate), one run of
`blp_char_indication` stores `value + direction` into the value (a
`uint16_t`, so the sum itself whenever it lies in `0 .. 65535`), and then
sets the direction to `-1` if the new value is at or above the maximum, to
`+1` if it is at or below the minimum, and keeps the direction otherwise. The
enumerators are taken distinct and below nine, the bounds to fit `uint8_t`,
and `operator` to have its nine entries. -/
theorem advance_rule (c : Config) (hd : c.enumDistinct) (hb : c.boundsFit) (s : State)
    (hl : s.operator.length = 9) (m : Metric) (hm : m ∈ activeMetrics s.units) :
    m.value (blp_char_indication c s) = u16i (m.value s + m.direction c s) ∧
    (0 ≤ (m.value s : Int) + m.direction c s → (m.value s : Int) + m.direction c s < 65536 →
      (m.value (blp_char_indication c s) : Int) = m.value s + m.direction c s) ∧
    m.direction c (blp_char_indication c s) =
      (if m.value (blp_char_indication c s) ≥ m.max c then -1
      else if m.value (blp_char_indication c s) ≤ m.min c then 1
      else m.direction c s) := by
  have h := indication_advance c hd m s hl hm
  rw [u8_of_lt _ (hb m).1, u8_of_lt _ (hb m).2] at h
  have hv : m.value (blp_char_indication c s) = u16i (m.value s + m.direction c s) :=
    congrArg Prod.fst h
  have hdir := congrArg Prod.snd h
  simp only [advance] at hdir
  refine ⟨hv, ?_, ?_⟩
  · intro h0 h1
    rw [hv]
    simp only [u16i]
    omega
  · rw [hv]
    exact hdir

theorem advance_rule_witness :
    Metric.value Metric.PULSE_RATE (blp_char_indication sampleConfig (init sampleConfig)) =
      u16i (Metric.value Metric.PULSE_RATE (init sampleConfig) +
        Metric.direction sampleConfig Metric.PULSE_RATE (init sampleConfig)) :=
  (advance_rule sampleConfig (by unfold Config.enumDistinct; decide)
    (by intro m; cases m <;> decide) (init sampleConfig) (by decide)
    Metric.PULSE_RATE (by decide)).1

/-! ## Claims on the time stamp -/

/-- C26, as stated, fails. With the maxima 59, 59, 23 and 31 for second,
minute, hour and day, the product `DAY_MAX * HOUR_MAX * MINUTE_MAX *
SECOND_MAX` is 2481953, and that many runs of `update_time_stamp` from the
initial time stamp end on day 29 at 17:25:53. -/
theorem time_stamp_product_not_period :
    (update_time_stamp sampleConfig)^[sampleConfig.DAY_MAX * sampleConfig.HOUR_MAX *
        sampleConfig.MINUTE_MAX * sampleConfig.SECOND_MAX] time_stamp_init =
      { year := 2015, month := 1, day := 29, hour := 17, min := 25, sec := 53 } := by
  have e : sampleConfig.DAY_MAX * sampleConfig.HOUR_MAX * sampleConfig.MINUTE_MAX *
      sampleConfig.SECOND_MAX =
      53 + (25 * (sampleConfig.SECOND_MAX + 1) +
        17 * ((sampleConfig.MINUTE_MAX + 1) * (sampleConfig.SECOND_MAX + 1))) +
        28 * ((sampleConfig.HOUR_MAX + 1) *
          ((sampleConfig.MINUTE_MAX + 1) * (sampleConfig.SECOND_MAX + 1))) := by
    decide
  rw [e]
  exact stamp_progress_days sampleConfig (by unfold Config.timeFit; decide) 2015 1 1 28 17 25 53
    (by decide) (by decide) (by decide) (by decide)

/-- C26, amended. A field at its maximum `MAX` takes `MAX + 1` runs of
`update_time_stamp` to come round, the day (which starts at 1) `DAY_MAX`: from
the initial time stamp, `DAY_MAX * (HOUR_MAX + 1) * (MINUTE_MAX + 1) *
(SECOND_MAX + 1)` runs return day, hour, minute and second to their initial
values, and no smaller positive number of runs does. The maxima are taken to
fit their fields. -/
theorem time_stamp_round_trip (c : Config) (hfit : c.timeFit) :
    (((update_time_stamp c)^[c.DAY_MAX * (c.HOUR_MAX + 1) * (c.MINUTE_MAX + 1) *
          (c.SECOND_MAX + 1)] time_stamp_init).day = time_stamp_init.day ∧
      ((update_time_stamp c)^[c.DAY_MAX * (c.HOUR_MAX + 1) * (c.MINUTE_MAX + 1) *
          (c.SECOND_MAX + 1)] time_stamp_init).hour = time_stamp_init.hour ∧
      ((update_time_stamp c)^[c.DAY_MAX * (c.HOUR_MAX + 1) * (c.MINUTE_MAX + 1) *
          (c.SECOND_MAX + 1)] time_stamp_init).min = time_stamp_init.min ∧
      ((update_time_stamp c)^[c.DAY_MAX * (c.HOUR_MAX + 1) * (c.MINUTE_MAX + 1) *
          (c.SECOND_MAX + 1)] time_stamp_init).sec = time_stamp_init.sec) ∧
    ∀ n, 0 < n →
      n < c.DAY_MAX * (c.HOUR_MAX + 1) * (c.MINUTE_MAX + 1) * (c.SECOND_MAX + 1) →
      ¬ (((update_time_stamp c)^[n] time_stamp_init).day = time_stamp_init.day ∧
        ((update_time_stamp c)^[n] time_stamp_init).hour = time_stamp_init.hour ∧
        ((update_time_stamp c)^[n] time_stamp_init).min = time_stamp_init.min ∧
        ((update_time_stamp c)^[n] time_stamp_init).sec = time_stamp_init.sec) :=
  ⟨stamp_period c hfit 2015 1, fun n h0 hn => stamp_first_return c hfit 2015 1 n h0 hn⟩

theorem time_stamp_round_trip_witness :
    ((update_time_stamp sampleConfig)^[sampleConfig.DAY_MAX * (sampleConfig.HOUR_MAX + 1) *
        (sampleConfig.MINUTE_MAX + 1) * (sampleConfig.SECOND_MAX + 1)] time_stamp_init).day =
      time_stamp_init.day ∧
    ((update_time_stamp sampleConfig)^[sampleConfig.DAY_MAX * (sampleConfig.HOUR_MAX + 1) *
        (sampleConfig.MINUTE_MAX + 1) * (sampleConfig.SECOND_MAX + 1)] time_stamp_init).hour =
      time_stamp_init.hour ∧
    ((update_time_stamp sampleConfig)^[sampleConfig.DAY_MAX * (sampleConfig.HOUR_MAX + 1) *
        (sampleConfig.MINUTE_MAX + 1) * (sampleConfig.SECOND_MAX + 1)] time_stamp_init).min =
      time_stamp_init.min ∧
    ((update_time_stamp sampleConfig)^[sampleConfig.DAY_MAX * (sampleConfig.HOUR_MAX + 1) *
        (sampleConfig.MINUTE_MAX + 1) * (sampleConfig.SECOND_MAX + 1)] time_stamp_init).sec =
      time_stamp_init.sec :=
  (time_stamp_round_trip sampleConfig (by unfold Config.timeFit; decide)).1

/-- C27. Time stamp cascade: one `update_time_stamp` adds one to the
lowest-order field (second, minute, hour, day, month, year, in that order)
that is below its maximum, resets every lower-order field to its starting
value (0 for second, minute and hour, 1 for day and month) and leaves the
higher-order fields as they are; when no field is below its maximum, the
lower fields are reset and the year becomes 2015. -/
theorem time_stamp_cascade (c : Config) (t : prf_date_time_t) (hfit : c.timeFit) :
    (t.sec < c.SECOND_MAX → update_time_stamp c t = { t with sec := t.sec + 1 }) ∧
    (¬ t.sec < c.SECOND_MAX → t.min < c.MINUTE_MAX →
      update_time_stamp c t = { t with sec := 0, min := t.min + 1 }) ∧
    (¬ t.sec < c.SECOND_MAX → ¬ t.min < c.MINUTE_MAX → t.hour < c.HOUR_MAX →
      update_time_stamp c t = { t with sec := 0, min := 0, hour := t.hour + 1 }) ∧
    (¬ t.sec < c.SECOND_MAX → ¬ t.min < c.MINUTE_MAX → ¬ t.hour < c.HOUR_MAX →
      t.day < c.DAY_MAX →
      update_time_stamp c t = { t with sec := 0, min := 0, hour := 0, day := t.day + 1 }) ∧
    (¬ t.sec < c.SECOND_MAX → ¬ t.min < c.MINUTE_MAX → ¬ t.hour < c.HOUR_MAX →
      ¬ t.day < c.DAY_MAX → t.month < c.MONTH_MAX →
      update_time_stamp c t =
        { t with sec := 0, min := 0, hour := 0, day := 1, month := t.month + 1 }) ∧
    (¬ t.sec < c.SECOND_MAX → ¬ t.min < c.MINUTE_MAX → ¬ t.hour < c.HOUR_MAX →
      ¬ t.day < c.DAY_MAX → ¬ t.month < c.MONTH_MAX → t.year < c.YEAR_MAX →
      update_time_stamp c t =
        { t with sec := 0, min := 0, hour := 0, day := 1, month := 1, year := t.year + 1 }) ∧
    (¬ t.sec < c.SECOND_MAX → ¬ t.min < c.MINUTE_MAX → ¬ t.hour < c.HOUR_MAX →
      ¬ t.day < c.DAY_MAX → ¬ t.month < c.MONTH_MAX → ¬ t.year < c.YEAR_MAX →
      update_time_stamp c t =
        { t with sec := 0, min := 0, hour := 0, day := 1, month := 1, year := 2015 }) := by
  obtain ⟨f1, f2, f3, f4, f5, f6⟩ := hfit
  refine ⟨?_, ?_, ?_, ?_, ?_, ?_, ?_⟩
  · intro h1
    have : (t.sec + 1) % 256 = t.sec + 1 := Nat.mod_eq_of_lt (by omega)
    simp [update_time_stamp, h1, u8, this]
  · intro h1 h2
    have : (t.min + 1) % 256 = t.min + 1 := Nat.mod_eq_of_lt (by omega)
    simp [update_time_stamp, h1, h2, u8, this]
  · intro h1 h2 h3
    have : (t.hour + 1) % 256 = t.hour + 1 := Nat.mod_eq_of_lt (by omega)
    simp [update_time_stamp, h1, h2, h3, u8, this]
  · intro h1 h2 h3 h4
    have : (t.day + 1) % 256 = t.day + 1 := Nat.mod_eq_of_lt (by omega)
    simp [update_time_stamp, h1, h2, h3, h4, u8, this]
  · intro h1 h2 h3 h4 h5
    have : (t.month + 1) % 256 = t.month + 1 := Nat.mod_eq_of_lt (by omega)
    simp [update_time_stamp, h1, h2, h3, h4, h5, u8, this]
  · intro h1 h2 h3 h4 h5 h6
    have : (t.year + 1) % 65536 = t.year + 1 := Nat.mod_eq_of_lt (by omega)
    simp [update_time_stamp, h1, h2, h3, h4, h5, h6, u16, this]
  · intro h1 h2 h3 h4 h5 h6
    simp [update_time_stamp, h1, h2, h3, h4, h5, h6]

theorem time_stamp_cascade_witness :
    update_time_stamp sampleConfig
        { year := 2015, month := 1, day := 1, hour := 0, min := 59, sec := 59 } =
      { year := 2015, month := 1, day := 1, hour := 1, min := 0, sec := 0 } :=
  (time_stamp_cascade sampleConfig
    { year := 2015, month := 1, day := 1, hour := 0, min := 59, sec := 59 }
    (by unfold Config.timeFit; decide)).2.2.1 (by decide) (by decide) (by decide)

/-- C28. Time stamp monotonicity: for every time stamp whose fields are
within their maxima and are not all at their maxima, one `update_time_stamp`
gives a time stamp that is strictly greater in the lexicographic order on
(year, month, day, hour, minute, second). -/
theorem time_stamp_monotone (c : Config) (t : prf_date_time_t) (hfit : c.timeFit)
    (hr : inRange c t) (hmax : ¬ maximal c t) :
    lexLt t (update_time_stamp c t) := by
  obtain ⟨f1, f2, f3, f4, f5, f6⟩ := hfit
  obtain ⟨r1, r2, r3, r4, r5, r6⟩ := hr
  unfold maximal at hmax
  unfold update_time_stamp lexLt
  simp only [u8, u16]
  split_ifs <;> simp <;> omega

theorem time_stamp_monotone_witness :
    lexLt { year := 2015, month := 12, day := 31, hour := 23, min := 59, sec := 59 }
      (update_time_stamp sampleConfig
        { year := 2015, month := 12, day := 31, hour := 23, min := 59, sec := 59 }) :=
  time_stamp_monotone sampleConfig
    { year := 2015, month := 12, day := 31, hour := 23, min := 59, sec := 59 }
    (by unfold Config.timeFit; decide) (by unfold inRange; decide)
    (by unfold maximal; decide)

/-! ## Claims on the indication payload -/

/-- C29. Indication payload layout: every indication that the per-tick update
sends is 19 bytes long: the flags byte; the systolic, diastolic and MAP
values of the active unit system as they are after the advance, each as two
bytes, low byte first; the year of the time stamp as two bytes, low byte
first, then month, day, hour, minute and second; the pulse rate after the
advance as two bytes, low byte first; the user id (`USERID_1` for `units`
true, `USERID_2` for `units` false); and the two status bytes 15 and 0. -/
theorem indication_payload_layout (c : Config) (s : State) (d : List Nat)
    (h : Out.indication d ∈ emitted s (update_blp_sensor_value c s))
    (hid : c.USERID_1 < 256 ∧ c.USERID_2 < 256) :
    d.length = 19 ∧
    d = indication_flags c s.units ::
      ((if s.units = true then
          le16 (update_blp_sensor_value c s).systolic_val_mmhg ++
            le16 (update_blp_sensor_value c s).diastolic_val_mmhg ++
            le16 (update_blp_sensor_value c s).map_val_mmhg
        else
          le16 (update_blp_sensor_value c s).systolic_val_kpa ++
            le16 (update_blp_sensor_value c s).diastolic_val_kpa ++
            le16 (update_blp_sensor_value c s).map_val_kpa) ++
        le16 (update_blp_sensor_value c s).time_stamp.year ++
        [(update_blp_sensor_value c s).time_stamp.month,
          (update_blp_sensor_value c s).time_stamp.day,
          (update_blp_sensor_value c s).time_stamp.hour,
          (update_blp_sensor_value c s).time_stamp.min,
          (update_blp_sensor_value c s).time_stamp.sec] ++
        le16 (update_blp_sensor_value c s).pulse_rate_val ++
        [if s.units = true then c.USERID_1 else c.USERID_2, 15, 0]) ∧
    (update_blp_sensor_value c s).time_stamp = s.time_stamp := by
  obtain ⟨h1, h2⟩ := update_indication_emitted c s d h
  have h3 := blp_char_indication_payload c s
  rw [h2] at h3
  have h4 := List.append_cancel_left h3
  simp only [List.cons.injEq, Out.indication.injEq, and_true] at h4
  have hts : (blp_char_indication c s).time_stamp = s.time_stamp := by
    unfold blp_char_indication
    cases hu : s.units <;> rfl
  have u1 : u8 c.USERID_1 = c.USERID_1 := Nat.mod_eq_of_lt hid.1
  have u2 : u8 c.USERID_2 = c.USERID_2 := Nat.mod_eq_of_lt hid.2
  rw [u1, u2] at h4
  rw [h1]
  refine ⟨?_, ?_, hts⟩
  · rw [h4]
    cases hu : s.units <;> simp [le16]
  · simp only [hts]
    exact h4

theorem indication_payload_layout_witness :
    [30, 81, 0, 61, 0, 71, 0, 223, 7, 1, 1, 0, 0, 0, 61, 0, 1, 15, 0].length = 19 :=
  (indication_payload_layout sampleConfig
    (run sampleConfig (init sampleConfig)
      [Event.connected, Event.indication_handler true, button,
        Event.notification_handler false])
    [30, 81, 0, 61, 0, 71, 0, 223, 7, 1, 1, 0, 0, 0, 61, 0, 1, 15, 0]
    (by decide) (by decide)).1

/-- C30. Indication flags byte: with the units flag mask being bit 0 (and the
other four masks not touching bit 0 and fitting one byte), the flags byte of
every indication that the per-tick update sends is the units bit together
with the time stamp, pulse rate, user id and measurement status masks and
nothing else, its bit 0 being 0 for `units` true (mmHg) and 1 for `units`
false (kPa). -/
theorem indication_flags_byte (c : Config) (s : State) (d : List Nat)
    (h : Out.indication d ∈ emitted s (update_blp_sensor_value c s))
    (hm : c.unitsBitZero) (hfit : c.masksFit) :
    ∃ f rest, d = f :: rest ∧
      f = (if s.units = true then 0 else 1) ||| c.BLOOD_PRESSURE_TIME_FLAG_MASK |||
        c.BLOOD_PRESSURE_PULSE_FLAG_MASK ||| c.BLOOD_PRESSURE_USERID_FLAG_MASK |||
        c.BLOOD_PRESSURE_MMT_STATUS_FLAG_MASK ∧
      f.testBit 0 = !s.units := by
  obtain ⟨_, h2⟩ := update_indication_emitted c s d h
  have h3 := blp_char_indication_payload c s
  rw [h2] at h3
  have h4 := List.append_cancel_left h3
  simp only [List.cons.injEq, Out.indication.injEq, and_true] at h4
  obtain ⟨m1, m2, m3, m4, m5⟩ := hm
  refine ⟨_, _, h4, indication_flags_eq c s.units ⟨m1, m2, m3, m4, m5⟩ hfit, ?_⟩
  rw [indication_flags_eq c s.units ⟨m1, m2, m3, m4, m5⟩ hfit]
  simp only [Nat.testBit_or, m2, m3, m4, m5, Bool.or_false]
  cases s.units <;> decide

theorem indication_flags_byte_witness :
    ∃ f rest, [30, 81, 0, 61, 0, 71, 0, 223, 7, 1, 1, 0, 0, 0, 61, 0, 1, 15, 0] = f :: rest ∧
      f = (if
            (run sampleConfig (init sampleConfig)
      [Event.connected, Event.indication_handler true, button,
        Event.notification_handler false]).units = true then 0 else 1) |||
          sampleConfig.BLOOD_PRESSURE_TIME_FLAG_MASK |||
          sampleConfig.BLOOD_PRESSURE_PULSE_FLAG_MASK |||
          sampleConfig.BLOOD_PRESSURE_USERID_FLAG_MASK |||
          sampleConfig.BLOOD_PRESSURE_MMT_STATUS_FLAG_MASK ∧
      f.testBit 0 =
        !(run sampleConfig (init sampleConfig)
      [Event.connected, Event.indication_handler true, button,
        Event.notification_handler false]).units :=
  indication_flags_byte sampleConfig
    (run sampleConfig (init sampleConfig)
      [Event.connected, Event.indication_handler true, button,
        Event.notification_handler false])
    [30, 81, 0, 61, 0, 71, 0, 223, 7, 1, 1, 0, 0, 0, 61, 0, 1, 15, 0]
    (by decide) (by unfold Config.unitsBitZero; decide) (by unfold Config.masksFit; decide)

/-! ## Claims on the notification and the remaining callbacks -/

/-- C31. Notification payload: every notification that the per-tick update
sends is 8 bytes long: the flags byte, which is the units bit (0 for `units`
true, mmHg, and 1 for `units` false, kPa) together with the user id flag and
nothing else; the interim systolic value of the active unit system, as it is
when the notification is built, as two bytes, low byte first; four zero
bytes; and the user id (`USERID_1` for mmHg, `USERID_2` for kPa). The units
flag mask is taken to be bit 0, the user id flag mask not to touch bit 0 and
to fit one byte, and the user ids to fit one byte. -/
theorem notification_payload (c : Config) (s : State) (d : List Nat)
    (h : Out.notification d ∈ emitted s (update_blp_sensor_value c s))
    (hm : c.unitsBitZero) (hfit : c.masksFit)
    (hid : c.USERID_1 < 256 ∧ c.USERID_2 < 256) :
    d.length = 8 ∧
    d = ((if s.units = true then 0 else 1) ||| c.BLOOD_PRESSURE_USERID_FLAG_MASK) ::
      (le16 (if s.units = true then s.interim_systolic_mmhg else s.interim_systolic_kpa) ++
        [0, 0, 0, 0] ++ [if s.units = true then c.USERID_1 else c.USERID_2]) ∧
    ((if s.units = true then 0 else 1) ||| c.BLOOD_PRESSURE_USERID_FLAG_MASK).testBit 0 =
      !s.units ∧
    ((if s.units = true then 0 else 1) ||| c.BLOOD_PRESSURE_USERID_FLAG_MASK) &&&
      c.BLOOD_PRESSURE_USERID_FLAG_MASK = c.BLOOD_PRESSURE_USERID_FLAG_MASK := by
  obtain ⟨_, h2⟩ := update_notification_emitted c s d h
  have h3 := blp_char_notification_payload c s
  rw [h2] at h3
  have h4 := List.append_cancel_left h3
  simp only [List.cons.injEq, Out.notification.injEq, and_true] at h4
  rw [notification_flags_eq c s.units hm hfit] at h4
  have hu : u8 (if s.units = true then c.USERID_1 else c.USERID_2) =
      if s.units = true then c.USERID_1 else c.USERID_2 := by
    split_ifs
    · exact u8_of_lt _ hid.1
    · exact u8_of_lt _ hid.2
  rw [hu] at h4
  have h5 : interim_systolic s.units s =
      if s.units = true then s.interim_systolic_mmhg else s.interim_systolic_kpa := by
    unfold interim_systolic
    cases s.units <;> rfl
  rw [h5] at h4
  refine ⟨?_, h4, ?_, ?_⟩
  · rw [h4]
    simp [le16]
  · simp only [Nat.testBit_or, hm.2.2.2.1, Bool.or_false]
    cases s.units <;> decide
  · apply Nat.eq_of_testBit_eq
    intro i
    simp only [Nat.testBit_and, Nat.testBit_or]
    cases c.BLOOD_PRESSURE_USERID_FLAG_MASK.testBit i <;> simp

theorem notification_payload_witness :
    [8, 80, 0, 0, 0, 0, 0, 1].length = 8 :=
  (notification_payload sampleConfig
    (run sampleConfig (init sampleConfig)
      [Event.connected, Event.indication_handler true, button, tick,
        Event.notification_handler true])
    [8, 80, 0, 0, 0, 0, 0, 1]
    (by decide) (by unfold Config.unitsBitZero; decide) (by unfold Config.masksFit; decide)
    (by decide)).1

end BlpSensor

namespace WdtExample

/-! ## Claim on the watchdog example -/

/-- C32. Timeout schedule of the watchdog example. On a watchdog reset
`wdt_scheduler` restarts the watchdog and changes neither the stored value
nor the timeout. On a power-on reset, and when no reset cause is flagged, the
timeout and the stored value become 1 s. On an external reset the new timeout
and stored value are the stored value plus 1 s, replaced by 1 s when the sum
is 4 s or more; the sum is a `U32` sum, which is the plain sum unless that is
`2 ^ 32` or more. So the stored values 1 s, 2 s, 3 s follow each other in a
cycle: 1 s to 2 s, 2 s to 3 s, 3 s to 1 s. Times are in microseconds. -/
theorem wdt_timeout_schedule (s : State) :
    (∀ por ext, wdt_scheduler ⟨true, por, ext⟩ s =
      { s with calls := s.calls ++ [Call.wdt_reenable] }) ∧
    (∀ ext, wdt_scheduler ⟨false, true, ext⟩ s =
      { current_wdt_value := 1000000, us_timeout_period := 1000000, gplp0 := 1000000,
        calls := s.calls ++ [Call.wdt_enable 1000000] }) ∧
    wdt_scheduler ⟨false, false, false⟩ s =
      { current_wdt_value := 1000000, us_timeout_period := 1000000, gplp0 := 1000000,
        calls := s.calls ++ [Call.wdt_enable 1000000] } ∧
    (wdt_scheduler ⟨false, false, true⟩ s).us_timeout_period =
      (if u32 (s.gplp0 + 1000000) ≥ 4000000 then 1000000 else u32 (s.gplp0 + 1000000)) ∧
    (wdt_scheduler ⟨false, false, true⟩ s).gplp0 =
      (wdt_scheduler ⟨false, false, true⟩ s).us_timeout_period ∧
    (wdt_scheduler ⟨false, false, true⟩ s).calls =
      s.calls ++ [Call.wdt_enable (wdt_scheduler ⟨false, false, true⟩ s).us_timeout_period] ∧
    ((wdt_scheduler ⟨false, false, true⟩ s).us_timeout_period =
        (if s.gplp0 + 1000000 ≥ 4000000 then 1000000 else s.gplp0 + 1000000) ∨
      4294967296 ≤ s.gplp0 + 1000000) ∧
    (wdt_scheduler ⟨false, false, true⟩ { s with gplp0 := 1000000 }).gplp0 = 2000000 ∧
    (wdt_scheduler ⟨false, false, true⟩ { s with gplp0 := 2000000 }).gplp0 = 3000000 ∧
    (wdt_scheduler ⟨false, false, true⟩ { s with gplp0 := 3000000 }).gplp0 = 1000000 := by
  refine ⟨fun por ext => scheduler_wdt por ext s, fun ext => scheduler_por ext s,
    scheduler_other s, scheduler_ext_timeout s, ?_, ?_, ?_, ?_, ?_, ?_⟩
  · rw [scheduler_ext_gplp0, scheduler_ext_timeout]
  · rw [scheduler_ext]
  · rw [scheduler_ext_timeout]
    unfold u32
    split_ifs <;> omega
  · rw [scheduler_ext_gplp0]
    dsimp only
    decide
  · rw [scheduler_ext_gplp0]
    dsimp only
    decide
  · rw [scheduler_ext_gplp0]
    dsimp only
    decide

end WdtExample

namespace BlpSensor

/-- C33, as stated, fails: the notification carries the interim systolic
value as it was before the step. After connecting, enabling notifications and
a button press, the first tick sends a notification whose value field is 10
(bytes 10, 0), and leaves the interim systolic kPa value at 11. -/
theorem notification_carries_old_value :
    emitted
        (run sampleConfig (init sampleConfig)
          [Event.connected, Event.notification_handler true, button])
        (run sampleConfig (init sampleConfig)
          [Event.connected, Event.notification_handler true, button, tick]) =
      [Out.notification [9, 10, 0, 0, 0, 0, 0, 2]] ∧
    (run sampleConfig (init sampleConfig)
      [Event.connected, Event.notification_handler true, button]).interim_systolic_kpa = 10 ∧
    (run sampleConfig (init sampleConfig)
      [Event.connected, Event.notification_handler true, button,
        tick]).interim_systolic_kpa = 11 ∧
    le16 11 ≠ [10, 0] := by
  decide

/-- C33, amended. Each notification that the per-tick update sends carries
the interim systolic value of the active unit system as it was before the
step (bytes 1 and 2 of the payload, low byte first). Building the
notification then makes one step on that value: the direction entry becomes
`-1` if the value is at or above the maximum, `+1` if it is at or below the
minimum, and is kept otherwise, and the direction is then added to the value
(a `uint16_t`). The enumerators are taken distinct and below nine with
`INTERIM_SYS_MMHG = 7` and `INTERIM_SYS_KPA = 8`, the bounds to fit
`uint8_t`, and `operator` to have its nine entries. -/
theorem notification_carries_previous_value (c : Config) (s : State) (d : List Nat)
    (h : Out.notification d ∈ emitted s (update_blp_sensor_value c s))
    (hd : c.enumDistinct) (hi : c.interimIndex) (hb : c.boundsFit)
    (hl : s.operator.length = 9) :
    (d.drop 1).take 2 = le16 (interim_systolic s.units s) ∧
    interim_direction s.units (update_blp_sensor_value c s) =
      (if interim_systolic s.units s ≥ interim_max c s.units then -1
      else if interim_systolic s.units s ≤ interim_min c s.units then 1
      else interim_direction s.units s) ∧
    interim_systolic s.units (update_blp_sensor_value c s) =
      u16i (interim_systolic s.units s +
        interim_direction s.units (update_blp_sensor_value c s)) := by
  obtain ⟨h1, h2⟩ := update_notification_emitted c s d h
  have h3 := blp_char_notification_payload c s
  rw [h2] at h3
  have h4 := List.append_cancel_left h3
  simp only [List.cons.injEq, Out.notification.injEq, and_true] at h4
  obtain ⟨s1, s2, _, _⟩ := blp_char_notification_step c hd hi s hl
  have hmin : u8 (interim_min c s.units) = interim_min c s.units := by
    unfold interim_min
    cases s.units
    · exact u8_of_lt _ (hb Metric.SYSTOLIC_KPA).1
    · exact u8_of_lt _ (hb Metric.SYSTOLIC_MMHG).1
  have hmax : u8 (interim_max c s.units) = interim_max c s.units := by
    unfold interim_max
    cases s.units
    · exact u8_of_lt _ (hb Metric.SYSTOLIC_KPA).2
    · exact u8_of_lt _ (hb Metric.SYSTOLIC_MMHG).2
  rw [hmin, hmax] at s1
  have e1 : interim_direction s.units (update_blp_sensor_value c s) =
      interim_direction s.units (blp_char_notification c s) := by
    rw [h1]
    rfl
  have e2 : interim_systolic s.units (update_blp_sensor_value c s) =
      interim_systolic s.units (blp_char_notification c s) := by
    rw [h1]
    rfl
  refine ⟨?_, ?_, ?_⟩
  · rw [h4]
    simp [le16]
  · rw [e1]
    exact s1
  · rw [e2, e1]
    exact s2

theorem notification_carries_previous_value_witness :
    ([8, 80, 0, 0, 0, 0, 0, 1].drop 1).take 2 =
      le16 (interim_systolic
        (run sampleConfig (init sampleConfig)
          [Event.connected, Event.indication_handler true, button, tick,
            Event.notification_handler true]).units
        (run sampleConfig (init sampleConfig)
          [Event.connected, Event.indication_handler true, button, tick,
            Event.notification_handler true])) :=
  (notification_carries_previous_value sampleConfig
    (run sampleConfig (init sampleConfig)
      [Event.connected, Event.indication_handler true, button, tick,
        Event.notification_handler true])
    [8, 80, 0, 0, 0, 0, 0, 1]
    (by decide) (by unfold Config.enumDistinct; decide) (by unfold Config.interimIndex; decide)
    (by intro m; cases m <;> decide) (by decide)).1

/-- C34. Once-per-tick notification gate: from any state, a timer tick
followed by any callbacks other than timer ticks (button presses,
confirmations, channel enable changes, connection callbacks) sends at most
one notification in all, so in every execution at most one notification is
sent from one timer tick up to the next; and from the initial state no
notification is sent in a sequence of callbacks that has no timer tick
handled while a request is active. -/
theorem notification_once_per_tick (c : Config) (s : State) (es fs : List Event)
    (h : ∀ e ∈ es, e ≠ tick) (hf : noActiveTick c (init c) fs = true) :
    (kinds s (run c s (tick :: es))).count Kind.notification ≤ 1 ∧
    Kind.notification ∉ kinds (init c) (run c (init c) fs) :=
  ⟨tick_segment_gate c s es h, (run_gate_closed c fs (init c) rfl hf).2⟩

theorem notification_once_per_tick_witness :
    (kinds
      (run sampleConfig (init sampleConfig)
        [Event.connected, Event.notification_handler true, button])
      (run sampleConfig
        (run sampleConfig (init sampleConfig)
          [Event.connected, Event.notification_handler true, button])
        (tick :: [button, Event.notification_confirmed at_ble_status_t.AT_BLE_SUCCESS,
          button]))).count Kind.notification ≤ 1 ∧
    Kind.notification ∉ kinds (init sampleConfig)
      (run sampleConfig (init sampleConfig)
        [tick, Event.connected, Event.notification_handler true, button, button]) :=
  notification_once_per_tick sampleConfig
    (run sampleConfig (init sampleConfig)
      [Event.connected, Event.notification_handler true, button])
    [button, Event.notification_confirmed at_ble_status_t.AT_BLE_SUCCESS, button]
    [tick, Event.connected, Event.notification_handler true, button, button]
    (by decide) (by decide)

/-- C35. The interim cuff value stays bounded whatever the stored direction:
in either unit system, if the interim systolic value is within
`[min, max]` before `blp_char_notification` runs and its direction entry is
`+1` or `-1`, the value is within `[min, max]` afterwards; and in every state
of every execution from the initial state, disconnect and reconnect
included, the interim values are within their bounds. Every pair of bounds is
taken to have `min < max` and to fit `uint8_t`, the enumerators to be
distinct and below nine with `INTERIM_SYS_MMHG = 7` and `INTERIM_SYS_KPA = 8`,
and `operator` to have its nine entries. -/
theorem interim_value_bounded (c : Config) (hd : c.enumDistinct) (hi : c.interimIndex)
    (hb : c.boundsFit) (ho : c.boundsOrdered) :
    (∀ s : State, s.operator.length = 9 →
      (interim_direction s.units s = 1 ∨ interim_direction s.units s = -1) →
      interim_min c s.units ≤ interim_systolic s.units s →
      interim_systolic s.units s ≤ interim_max c s.units →
      interim_min c s.units ≤ interim_systolic s.units (blp_char_notification c s) ∧
      interim_systolic s.units (blp_char_notification c s) ≤ interim_max c s.units) ∧
    (∀ es, interimInBounds c (run c (init c) es)) := by
  refine ⟨?_, fun es =>
    run_interimInBounds c hd hi hb ho es (init c) (init_interimInBounds c hb ho)⟩
  intro s hl hdir h1 h2
  obtain ⟨s1, s2, _, _⟩ := blp_char_notification_step c hd hi s hl
  obtain ⟨b1, b2⟩ := interim_bounds_fit c hb ho s.units
  have hmin : u8 (interim_min c s.units) = interim_min c s.units := u8_of_lt _ (by omega)
  have hmax : u8 (interim_max c s.units) = interim_max c s.units := u8_of_lt _ b2
  rw [hmin, hmax] at s1
  rw [s2, s1]
  have k := interim_step_bounded _ _ _ _ b1 b2 h1 h2 hdir
  exact ⟨k.1, k.2.1⟩

theorem interim_value_bounded_witness :
    interimInBounds sampleConfig
      (run sampleConfig (init sampleConfig)
        [Event.connected, Event.notification_handler true, button, tick, tick,
          Event.disconnected, Event.connected, Event.notification_handler true, button,
          tick]) :=
  (interim_value_bounded sampleConfig (by unfold Config.enumDistinct; decide)
    (by unfold Config.interimIndex; decide) (by intro m; cases m <;> decide)
    (by intro m; cases m <;> decide)).2
    [Event.connected, Event.notification_handler true, button, tick, tick,
      Event.disconnected, Event.connected, Event.notification_handler true, button, tick]

/-- C36. Indication enable callback: for every prior state,
`app_indication_handler` with `enable` true sets `indication_flag` and sends
one indication of 9 bytes: the flags byte (0 for `units` true, mmHg, and 1 for
`units` false, kPa, together with the pulse rate flag), then the current
systolic, diastolic and MAP values of the active unit system and the pulse
rate, each as two bytes, low byte first; no value is advanced and no other
variable changes. With `enable` false it clears `indication_flag` and does
nothing else. The pulse rate flag mask is taken to fit one byte. -/
theorem indication_enable_sends_reading (c : Config) (s : State)
    (hp : c.BLOOD_PRESSURE_PULSE_FLAG_MASK < 256) :
    (∃ d, d.length = 9 ∧
      d = ((if s.units = true then 0 else 1) ||| c.BLOOD_PRESSURE_PULSE_FLAG_MASK) ::
        ((if s.units = true then
            le16 s.systolic_val_mmhg ++ le16 s.diastolic_val_mmhg ++ le16 s.map_val_mmhg
          else
            le16 s.systolic_val_kpa ++ le16 s.diastolic_val_kpa ++ le16 s.map_val_kpa) ++
          le16 s.pulse_rate_val) ∧
      app_indication_handler c true s =
        { s with indication_flag := true, log := s.log ++ [Out.indication d] }) ∧
    app_indication_handler c false s = { s with indication_flag := false } := by
  have e0 : u8 (0 ||| c.BLOOD_PRESSURE_PULSE_FLAG_MASK) =
      0 ||| c.BLOOD_PRESSURE_PULSE_FLAG_MASK := (u8_or 0 _ (by decide) hp).1
  have e1 : u8 (1 ||| c.BLOOD_PRESSURE_PULSE_FLAG_MASK) =
      1 ||| c.BLOOD_PRESSURE_PULSE_FLAG_MASK := (u8_or 1 _ (by decide) hp).1
  refine ⟨⟨_, ?_, rfl, ?_⟩, ?_⟩
  · cases s.units <;> simp [le16]
  · cases hu : s.units
    · simp [app_indication_handler, blp_sensor_send_indication, hu, e1]
    · simp [app_indication_handler, blp_sensor_send_indication, hu, u8_of_lt _ hp]
  · simp [app_indication_handler]

theorem indication_enable_sends_reading_witness :
    app_indication_handler sampleConfig false (init sampleConfig) =
      { init sampleConfig with indication_flag := false } :=
  (indication_enable_sends_reading sampleConfig (init sampleConfig) (by decide)).2

/-- C37. Button events that start nothing: a button event handled while
disconnected (`app_state` false), or while connected with no request active
and neither channel enabled, leaves every variable as it is (`units`
included), makes no call into the profile layer, and the callback returns
`AT_BLE_SUCCESS`. -/
theorem button_starts_nothing (c : Config) (s : State)
    (h : s.app_state = false ∨
      (s.app_state = true ∧ s.user_request_flag = false ∧ s.indication_flag = false ∧
        s.notification_flag = false)) :
    blp_sensor_app_custom_event c APP_BUTTON_EVENT_ID s = (at_ble_status_t.AT_BLE_SUCCESS, s) ∧
    step c button s = s ∧ emitted s (step c button s) = [] := by
  have key : blp_sensor_app_custom_event c APP_BUTTON_EVENT_ID s =
      (at_ble_status_t.AT_BLE_SUCCESS, s) := by
    rcases h with h | ⟨hc, hr, hi, hn⟩
    · exact custom_event_button_disconnected c s h
    · rw [custom_event_button_idle c s hc hr hi hn, update_eq]
      simp [hr]
  have hs : step c button s = s := by
    simp only [step, button, key]
  refine ⟨key, hs, ?_⟩
  rw [hs]
  simp [emitted]

theorem button_starts_nothing_witness :
    step sampleConfig button (init sampleConfig) = init sampleConfig :=
  (button_starts_nothing sampleConfig (init sampleConfig) (Or.inl rfl)).2.1

/-- C38. Event id dispatch: the custom event callback returns
`AT_BLE_SUCCESS` for the timer event id (1) and for the button event id (2);
for every other id it returns `AT_BLE_FAILURE` together with the state it was
given, so that no variable changes, the time stamp included, and no call is
made into the profile layer. -/
theorem event_id_dispatch (c : Config) (id : Nat) (s : State) :
    APP_TIMER_EVENT_ID = 1 ∧ APP_BUTTON_EVENT_ID = 2 ∧
    blp_sensor_app_custom_event c id s =
      (if id = 1 ∨ id = 2 then
        (at_ble_status_t.AT_BLE_SUCCESS, (blp_sensor_app_custom_event c id s).2)
      else (at_ble_status_t.AT_BLE_FAILURE, s)) ∧
    step c (Event.custom_event id) s =
      (if id = 1 ∨ id = 2 then step c (Event.custom_event id) s else s) ∧
    emitted s (if id = 1 ∨ id = 2 then s else step c (Event.custom_event id) s) = [] := by
  have key : blp_sensor_app_custom_event c id s =
      (if id = 1 ∨ id = 2 then
        (at_ble_status_t.AT_BLE_SUCCESS, (blp_sensor_app_custom_event c id s).2)
      else (at_ble_status_t.AT_BLE_FAILURE, s)) := by
    by_cases h1 : id = 1
    · subst h1
      simp [blp_sensor_app_custom_event, APP_TIMER_EVENT_ID]
    · by_cases h2 : id = 2
      · subst h2
        cases hc : s.app_state <;>
          simp [blp_sensor_app_custom_event, APP_TIMER_EVENT_ID, APP_BUTTON_EVENT_ID, hc]
      · rw [custom_event_other c id s h1 h2]
        simp [h1, h2]
  have hs : step c (Event.custom_event id) s =
      (if id = 1 ∨ id = 2 then step c (Event.custom_event id) s else s) := by
    by_cases h : id = 1 ∨ id = 2
    · rw [if_pos h]
    · rw [if_neg h]
      simp only [step]
      rw [key, if_neg h]
  refine ⟨rfl, rfl, key, hs, ?_⟩
  by_cases h : id = 1 ∨ id = 2
  · rw [if_pos h]
    simp [emitted]
  · rw [if_neg h, hs, if_neg h]
    simp [emitted]

/-- C39. Frame of a send across unit systems. `blp_char_indication` changes
only the systolic, diastolic and MAP values of the active unit system, the
pulse rate, `operator` and the log of calls; `operator` keeps its length and
every entry other than the direction entries of those four values. So the
values of the other unit system, all interim values and the time stamp are
as before. `blp_char_notification` changes only the interim systolic value of
the active unit system, `operator` and the log of calls; `operator` keeps its
length and every entry other than the direction entry of that value
(`INTERIM_SYS_MMHG` or `INTERIM_SYS_KPA`). -/
theorem send_frame (c : Config) (s : State) :
    (∃ v1 v2 v3 v4 ops l,
      blp_char_indication c s =
        (if s.units = true then
          { s with
            systolic_val_mmhg := v1, diastolic_val_mmhg := v2, map_val_mmhg := v3,
            pulse_rate_val := v4, operator := ops, log := l }
        else
          { s with
            systolic_val_kpa := v1, diastolic_val_kpa := v2, map_val_kpa := v3,
            pulse_rate_val := v4, operator := ops, log := l }) ∧
      ops.length = s.operator.length ∧
      ∀ i, (∀ m ∈ activeMetrics s.units, m.value_type c ≠ i) →
        ops.getD i 0 = s.operator.getD i 0) ∧
    (∃ v ops l,
      blp_char_notification c s =
        (if s.units = true then
          { s with interim_systolic_mmhg := v, operator := ops, log := l }
        else
          { s with interim_systolic_kpa := v, operator := ops, log := l }) ∧
      ops.length = s.operator.length ∧
      ∀ i, (if s.units = true then c.INTERIM_SYS_MMHG else c.INTERIM_SYS_KPA) ≠ i →
        ops.getD i 0 = s.operator.getD i 0) := by
  constructor
  · have he : blp_char_indication c s =
        (if s.units = true then
          { s with
            systolic_val_mmhg := (blp_char_indication c s).systolic_val_mmhg
            diastolic_val_mmhg := (blp_char_indication c s).diastolic_val_mmhg
            map_val_mmhg := (blp_char_indication c s).map_val_mmhg
            pulse_rate_val := (blp_char_indication c s).pulse_rate_val
            operator := (blp_char_indication c s).operator
            log := (blp_char_indication c s).log }
        else
          { s with
            systolic_val_kpa := (blp_char_indication c s).systolic_val_kpa
            diastolic_val_kpa := (blp_char_indication c s).diastolic_val_kpa
            map_val_kpa := (blp_char_indication c s).map_val_kpa
            pulse_rate_val := (blp_char_indication c s).pulse_rate_val
            operator := (blp_char_indication c s).operator
            log := (blp_char_indication c s).log }) := by
      cases s with
      | mk a1 a2 a3 units a5 a6 a7 a8 a9 a10 a11 a12 a13 a14 a15 a16 a17 a18 a19 a20 a21 a22
          a23 a24 a25 =>
        cases units
        · rfl
        · rfl
    by_cases hu : s.units = true
    · rw [if_pos hu] at he
      refine ⟨(blp_char_indication c s).systolic_val_mmhg,
        (blp_char_indication c s).diastolic_val_mmhg, (blp_char_indication c s).map_val_mmhg,
        (blp_char_indication c s).pulse_rate_val, (blp_char_indication c s).operator,
        (blp_char_indication c s).log, ?_, blp_char_indication_operator_length c s,
        fun i hi => blp_char_indication_getD c i s hi⟩
      rw [if_pos hu]
      exact he
    · rw [if_neg hu] at he
      refine ⟨(blp_char_indication c s).systolic_val_kpa,
        (blp_char_indication c s).diastolic_val_kpa, (blp_char_indication c s).map_val_kpa,
        (blp_char_indication c s).pulse_rate_val, (blp_char_indication c s).operator,
        (blp_char_indication c s).log, ?_, blp_char_indication_operator_length c s,
        fun i hi => blp_char_indication_getD c i s hi⟩
      rw [if_neg hu]
      exact he
  · obtain ⟨l, he⟩ := blp_char_notification_eq c s
    by_cases hu : s.units = true
    · rw [if_pos hu] at he
      refine ⟨u16i (s.interim_systolic_mmhg +
          (blp_value_update c s.interim_systolic_mmhg c.INTERIM_SYS_MMHG s).operator.getD 7 0),
        (blp_value_update c s.interim_systolic_mmhg c.INTERIM_SYS_MMHG s).operator, l, ?_,
        blp_value_update_length _ _ _ _, ?_⟩
      · rw [if_pos hu]
        exact he
      · intro i hi
        rw [if_pos hu] at hi
        exact blp_value_update_getD_ne c _ _ i s hi
    · rw [if_neg hu] at he
      refine ⟨u16i (s.interim_systolic_kpa +
          (blp_value_update c s.interim_systolic_kpa c.INTERIM_SYS_KPA s).operator.getD 8 0),
        (blp_value_update c s.interim_systolic_kpa c.INTERIM_SYS_KPA s).operator, l, ?_,
        blp_value_update_length _ _ _ _, ?_⟩
      · rw [if_neg hu]
        exact he
      · intro i hi
        rw [if_neg hu] at hi
        exact blp_value_update_getD_ne c _ _ i s hi

/-- C40. Time stamp range invariant: the time stamp left by
`time_stamp_init` has second, minute and hour between 0 and their maxima, day
and month between 1 and their maxima and the year between 2015 and
`YEAR_MAX`; every `update_time_stamp` keeps a time stamp within these ranges;
and so the time stamp is within them in every state of every execution. The
maxima are taken to fit their fields, `YEAR_MAX` to be at least 2015, and
`DAY_MAX` and `MONTH_MAX` to be at least 1. -/
theorem time_stamp_range (c : Config) (hfit : c.timeFit) (hy : 2015 ≤ c.YEAR_MAX)
    (hd : 1 ≤ c.DAY_MAX) (hm : 1 ≤ c.MONTH_MAX) :
    validStamp c time_stamp_init ∧
    (∀ t, validStamp c t → validStamp c (update_time_stamp c t)) ∧
    (∀ es, validStamp c (run c (init c) es).time_stamp) := by
  have h0 : validStamp c time_stamp_init := by
    unfold validStamp time_stamp_init
    simp only
    omega
  exact ⟨h0, fun t h => update_time_stamp_valid c hfit t h,
    fun es => run_time_stamp_valid c hfit es (init c) h0⟩

theorem time_stamp_range_witness :
    validStamp sampleConfig
      (update_time_stamp sampleConfig
        { year := 9999, month := 12, day := 31, hour := 23, min := 59, sec := 59 }) :=
  (time_stamp_range sampleConfig (by unfold Config.timeFit; decide) (by decide) (by decide)
    (by decide)).2.1
    { year := 9999, month := 12, day := 31, hour := 23, min := 59, sec := 59 }
    (by unfold validStamp; decide)

end BlpSensor
